import Mathlib

/-!
# Beacon: incident tracking, webhook dispatch, metrics aggregation

A shallow embedding of the activities and workflows of
`internal/temporal` together with the store methods of `internal/db` they
call.  The database is a record of tables (lists of rows); every store call
takes the error its driver call returns (`none` when the statement runs), so
that failing statements are part of the model.  A failing statement leaves
the tables as they were.  Clock readings and generated identifiers are inputs.
-/

namespace Beacon

/-! ## Basic types -/

/-- Identifier `uuid.UUID`; `0` is the zero value `uuid.Nil`. -/
abbrev UUID := Nat

/-- Instant `time.Time`, in nanoseconds since Go's zero time; `0` is the zero value. -/
abbrev Time := Int

/-- Span `time.Duration`, in nanoseconds. -/
abbrev Duration := Int

/-- Constant `time.Millisecond`. -/
def Millisecond : Duration := 1000000

/-- Constant `time.Second`. -/
def Second : Duration := 1000 * Millisecond

/-- Constant `time.Minute`. -/
def Minute : Duration := 60 * Second

/-- Constant `time.Hour`. -/
def Hour : Duration := 60 * Minute

/-- Go `error` values: `sql.ErrNoRows`, any other failure of a driver or
library call, and `fmt.Errorf("<msg>: %w", inner)`. -/
inductive Err where
  | ErrNoRows
  | failure (msg : String)
  | wrap (msg : String) (inner : Err)
deriving DecidableEq, Repr

deriving instance DecidableEq for Except

/-- What an activity hands back: `nil`, an error, or a run-time panic. -/
inductive Ret where
  | nil
  | err (e : Err)
  | panic (msg : String)
deriving DecidableEq, Repr

/-- A value stored in a `models.JSONB` map (`interface{}`): a string or something else. -/
inductive JSONValue where
  | str (s : String)
  | num (n : Int)
  | bool (b : Bool)
  | null
deriving DecidableEq, Repr

/-- Type `models.JSONB`, a `map[string]interface{}`, as an association list. -/
abbrev JSONB := List (String × JSONValue)

/-! ## models -/

/-- Row type `models.ServiceEndpoint`. -/
structure ServiceEndpoint where
  ID : UUID
  ServiceID : UUID
  Name : String
  URL : String
  Method : String
  Headers : JSONB
  ExpectedCode : Int
  TimeoutMs : Int
  IntervalSec : Int
  Enabled : Bool
  CreatedAt : Time
  UpdatedAt : Time
  DeletedAt : Option Time
deriving DecidableEq, Repr

/-- Row type `models.Ping`. -/
structure Ping where
  ID : UUID
  EndpointID : UUID
  StatusCode : Int
  ResponseMs : Int
  Success : Bool
  Error : Option String
  CreatedAt : Time
deriving DecidableEq, Repr

/-- Row type `models.PingWindow`. -/
structure PingWindow where
  ID : UUID
  EndpointID : UUID
  WindowStart : Time
  WindowEnd : Time
  TotalPings : Int
  SuccessPings : Int
  AvgResponseMs : Int
  MinResponseMs : Int
  MaxResponseMs : Int
  CreatedAt : Time
deriving DecidableEq, Repr

/-- Row type `models.Incident`; `Status` is `"open"` or `"resolved"`. -/
structure Incident where
  ID : UUID
  EndpointID : UUID
  StartedAt : Time
  ResolvedAt : Option Time
  Status : String
  Message : String
  CreatedAt : Time
  UpdatedAt : Time
deriving DecidableEq, Repr

/-- Row type `models.Webhook`. -/
structure Webhook where
  ID : UUID
  ServiceID : UUID
  Name : String
  URL : String
  Events : List String
  Headers : JSONB
  Enabled : Bool
  CreatedAt : Time
  UpdatedAt : Time
  DeletedAt : Option Time
deriving DecidableEq, Repr

/-! ## db -/

/-- The database behind `db.DB`: one list of rows per table. -/
structure DB where
  endpoints : List ServiceEndpoint
  pings : List Ping
  pingWindows : List PingWindow
  incidents : List Incident
  webhooks : List Webhook
deriving DecidableEq, Repr

/-- The row with the greatest `started_at` (`ORDER BY started_at DESC LIMIT 1`);
among equal instants the earliest row of the table is taken. -/
def latestByStartedAt : List Incident → Option Incident
  | [] => none
  | i :: rest =>
    match latestByStartedAt rest with
    | none => some i
    | some j => if i.StartedAt < j.StartedAt then some j else some i

/-- The row test `endpoint_id = $1 AND status = 'open'` of `GetOpenIncident`. -/
def isOpenFor (endpointID : UUID) (i : Incident) : Bool :=
  decide (i.EndpointID = endpointID) && decide (i.Status = "open")

/-- The rows `WHERE endpoint_id = $1 AND status = 'open'`. -/
def openIncidents (db : DB) (endpointID : UUID) : List Incident :=
  db.incidents.filter (isOpenFor endpointID)

/-- Method `DB.GetOpenIncident` (db/incidents.go): `getErr` is the failure of
`db.Get` other than finding no row; with no row the error is `sql.ErrNoRows`. -/
def DB.GetOpenIncident (db : DB) (getErr : Option Err) (endpointID : UUID) : Except Err Incident :=
  match getErr with
  | some e => .error e
  | none =>
    match latestByStartedAt (openIncidents db endpointID) with
    | none => .error Err.ErrNoRows
    | some incident => .ok incident

/-- The `UPDATE incidents SET status = 'resolved', resolved_at = $2, updated_at = $3`
applied to one row. -/
def resolveRow (now : Time) (i : Incident) : Incident :=
  { i with Status := "resolved", ResolvedAt := some now, UpdatedAt := now }

/-- Method `DB.ResolveIncident` (db/incidents.go): `now` is its `time.Now()`. -/
def DB.ResolveIncident (db : DB) (now : Time) (execErr : Option Err) (id : UUID) : DB × Option Err :=
  match execErr with
  | some e => (db, some e)
  | none =>
    ({ db with incidents := db.incidents.map (fun i => if i.ID = id then resolveRow now i else i) }, none)

/-- Method `DB.CreateIncident` (db/incidents.go): `id` is `uuid.New()`, `t1` and
`t2` its two `time.Now()` readings.  The incident handed in is updated in place
(second component); the inserted row has no `resolved_at` column value. -/
def DB.CreateIncident (db : DB) (id : UUID) (t1 t2 : Time) (execErr : Option Err)
    (incident : Incident) : DB × Incident × Option Err :=
  let incident1 := { incident with ID := id, CreatedAt := t1, UpdatedAt := t2 }
  match execErr with
  | some e => (db, incident1, some e)
  | none =>
    ({ db with incidents := db.incidents ++ [{ incident1 with ResolvedAt := none }] }, incident1, none)

/-- Method `DB.GetEndpoint` (db/endpoints.go). -/
def DB.GetEndpoint (db : DB) (getErr : Option Err) (id : UUID) : Except Err ServiceEndpoint :=
  match getErr with
  | some e => .error (Err.wrap "failed to get endpoint" e)
  | none =>
    match db.endpoints.find? (fun e => decide (e.ID = id) && decide (e.DeletedAt = none)) with
    | none => .error (Err.wrap "failed to get endpoint" Err.ErrNoRows)
    | some endpoint => .ok endpoint

/-- Method `DB.UpdateEndpoint` (db/endpoints.go): `now` is its `time.Now()`. -/
def DB.UpdateEndpoint (db : DB) (now : Time) (execErr : Option Err) (endpoint : ServiceEndpoint) :
    DB × Option Err :=
  match execErr with
  | some e => (db, some e)
  | none =>
    ({ db with endpoints := db.endpoints.map (fun r =>
        if r.ID = endpoint.ID ∧ r.DeletedAt = none then
          { r with Name := endpoint.Name, URL := endpoint.URL, Method := endpoint.Method,
                   Headers := endpoint.Headers, ExpectedCode := endpoint.ExpectedCode,
                   TimeoutMs := endpoint.TimeoutMs, IntervalSec := endpoint.IntervalSec,
                   Enabled := endpoint.Enabled, UpdatedAt := now }
        else r) }, none)

/-- Method `DB.ListEnabledEndpoints` (db/endpoints.go). -/
def DB.ListEnabledEndpoints (db : DB) (selectErr : Option Err) : Except Err (List ServiceEndpoint) :=
  match selectErr with
  | some e => .error (Err.wrap "failed to list enabled endpoints" e)
  | none => .ok (db.endpoints.filter (fun e => e.Enabled && decide (e.DeletedAt = none)))

/-- Method `DB.ListEnabledWebhooks` (db/webhooks.go).  `selectErr` is the error of
`db.Select`, the failure of its scan included (`scanWebhookRows`). -/
def DB.ListEnabledWebhooks (db : DB) (selectErr : Option Err) (serviceID : UUID) (event : String) :
    Except Err (List Webhook) :=
  match selectErr with
  | some e => .error (Err.wrap "failed to list enabled webhooks" e)
  | none =>
    .ok (db.webhooks.filter (fun w =>
      decide (w.ServiceID = serviceID) && w.Enabled && decide (event ∈ w.Events)
        && decide (w.DeletedAt = none)))

/-- Method `DB.ListPingsByTimeRange` (db/pings.go): both bounds are inclusive,
newest first. -/
def DB.ListPingsByTimeRange (db : DB) (selectErr : Option Err) (endpointID : UUID)
    (start stop : Time) : Except Err (List Ping) :=
  match selectErr with
  | some e => .error (Err.wrap "failed to list pings by time range" e)
  | none =>
    .ok (List.insertionSort (fun a b : Ping => b.CreatedAt ≤ a.CreatedAt)
      (db.pings.filter (fun p =>
        decide (p.EndpointID = endpointID) && decide (start ≤ p.CreatedAt)
          && decide (p.CreatedAt ≤ stop))))

/-- Method `DB.CreatePingWindow` (db/pingwindows.go). -/
def DB.CreatePingWindow (db : DB) (id : UUID) (now : Time) (execErr : Option Err)
    (window : PingWindow) : DB × PingWindow × Option Err :=
  let window1 := { window with ID := id, CreatedAt := now }
  match execErr with
  | some e => (db, window1, some e)
  | none => ({ db with pingWindows := db.pingWindows ++ [window1] }, window1, none)

/-! ## temporal: activities -/

/-- A value of the webhook payload map. -/
inductive PayloadValue where
  | str (s : String)
  | uuid (u : UUID)
  | time (t : Time)
deriving DecidableEq, Repr

/-- The webhook payload, a `map[string]interface{}`, as an association list. -/
abbrev Payload := List (String × PayloadValue)

/-- An `http.Header`: canonical key and value. -/
abbrev Header := List (String × String)

/-- Method `http.Header.Set`: the key is canonicalised and its value replaced. -/
def Header.Set (canonicalKey : String → String) (h : Header) (key value : String) : Header :=
  h.filter (fun kv => !decide (kv.1 = canonicalKey key)) ++ [(canonicalKey key, value)]

/-- One `client.Do(req)` of `TriggerWebhooks`. -/
structure HTTPPost where
  URL : String
  Header : Header
  Body : Payload
deriving DecidableEq, Repr

/-- One invocation of `TriggerWebhooks`. -/
structure Notification where
  ServiceID : UUID
  Event : String
  Incident : Incident
deriving DecidableEq, Repr

/-- The library calls inside `TriggerWebhooks` that the repository does not
define: whether `json.Marshal` fails on a payload, whether
`http.NewRequestWithContext` fails on a URL, and the canonical form of a
header key. -/
structure HTTPEnv where
  marshalFails : Payload → Bool
  newRequestFails : String → Bool
  canonicalKey : String → String

/-- Everything one activity call reads from outside the database tables:
clock readings, the generated identifier, and the error of each store call
(`none` when the call succeeds). -/
structure Env where
  now : Time
  newID : UUID
  dbNow : Time
  dbNow2 : Time
  getOpenIncidentErr : Option Err
  resolveIncidentErr : Option Err
  createIncidentErr : Option Err
  getEndpointErr : Option Err
  listEnabledWebhooksErr : Option Err
  listPingsErr : Option Err
  createPingWindowErr : Option Err
  http : HTTPEnv

/-- The payload map built in the loop of `TriggerWebhooks`. -/
def webhookPayload (event : String) (incident : Incident) : Payload :=
  [("event", PayloadValue.str event),
   ("incident_id", PayloadValue.uuid incident.ID),
   ("endpoint_id", PayloadValue.uuid incident.EndpointID),
   ("started_at", PayloadValue.time incident.StartedAt),
   ("message", PayloadValue.str incident.Message)]
  ++ (match incident.ResolvedAt with
      | some t => [("resolved_at", PayloadValue.time t)]
      | none => [])

/-- The request header built for one webhook: `Content-Type` first, then every
custom header whose value is a string. -/
def webhookHeader (http : HTTPEnv) (custom : JSONB) : Header :=
  custom.foldl
    (fun h kv =>
      match kv.2 with
      | JSONValue.str v => Header.Set http.canonicalKey h kv.1 v
      | _ => h)
    (Header.Set http.canonicalKey [] "Content-Type" "application/json")

/-- The body of the loop of `TriggerWebhooks` for one webhook: the POST issued,
if any. -/
def webhookPost (http : HTTPEnv) (event : String) (incident : Incident) (webhook : Webhook) :
    Option HTTPPost :=
  let payload := webhookPayload event incident
  if http.marshalFails payload then none
  else if http.newRequestFails webhook.URL then none
  else some { URL := webhook.URL, Header := webhookHeader http webhook.Headers, Body := payload }

/-- Activity `Activities.TriggerWebhooks` (temporal/activities.go): the POSTs
issued, in order, and the returned error. -/
def TriggerWebhooks (db : DB) (env : Env) (serviceID : UUID) (event : String)
    (incident : Incident) : List HTTPPost × Option Err :=
  match db.ListEnabledWebhooks env.listEnabledWebhooksErr serviceID event with
  | .error e => ([], some (Err.wrap "failed to list webhooks" e))
  | .ok webhooks => (webhooks.filterMap (webhookPost env.http event incident), none)

/-- The scan that `db.Select` of `ListEnabledWebhooks` runs on the rows the
query matched: `models.Webhook.Events` is a plain `[]string`, which the writes
wrap in `pq.Array` and the reads do not, and `database/sql` has no conversion
of the bytes of the `events` column into a `*[]string`; the scan of the first
row fails. -/
def scanWebhookRows (rows : List Webhook) : Option Err :=
  match rows with
  | [] => none
  | _ :: _ =>
    some (Err.failure
      "sql: Scan error on column events: unsupported Scan, storing driver.Value type []uint8 into type *[]string")

/-- The test that the listing of a `TriggerWebhooks` call is one the pq driver
gives: when the call succeeded, the rows it returns passed `scanWebhookRows`. -/
def pqListing (db : DB) (env : Env) (serviceID : UUID) (event : String) : Bool :=
  match db.ListEnabledWebhooks env.listEnabledWebhooksErr serviceID event with
  | .ok rows => (scanWebhookRows rows).isNone
  | .error _ => true

/-- Effect and result of one `CheckIncidentStatus` call. -/
structure CheckOutcome where
  db : DB
  notifications : List Notification
  posts : List HTTPPost
  ret : Ret
deriving DecidableEq, Repr

/-- The incident literal built on the failure path of `CheckIncidentStatus`. -/
def newIncident (endpointID : UUID) (now : Time) (endpointName : String) : Incident :=
  { ID := 0, EndpointID := endpointID, StartedAt := now, ResolvedAt := none,
    Status := "open", Message := "Endpoint " ++ endpointName ++ " is down",
    CreatedAt := 0, UpdatedAt := 0 }

/-- Activity `Activities.CheckIncidentStatus` (temporal/activities.go). -/
def CheckIncidentStatus (db : DB) (env : Env) (endpointID : UUID) (success : Bool) : CheckOutcome :=
  let lookup := db.GetOpenIncident env.getOpenIncidentErr endpointID
  if success then
    match lookup with
    | .ok incident =>
      match db.ResolveIncident env.dbNow env.resolveIncidentErr incident.ID with
      | (db1, some e) => ⟨db1, [], [], Ret.err (Err.wrap "failed to resolve incident" e)⟩
      | (db1, none) =>
        match db1.GetEndpoint env.getEndpointErr endpointID with
        | .ok endpoint =>
          match TriggerWebhooks db1 env endpoint.ServiceID "incident_resolved" incident with
          | (posts, some e) =>
            ⟨db1, [⟨endpoint.ServiceID, "incident_resolved", incident⟩], posts,
              Ret.err (Err.wrap "failed to trigger webhooks" e)⟩
          | (posts, none) =>
            ⟨db1, [⟨endpoint.ServiceID, "incident_resolved", incident⟩], posts, Ret.nil⟩
        | .error _ => ⟨db1, [], [], Ret.nil⟩
    | .error _ => ⟨db, [], [], Ret.nil⟩
  else
    match lookup with
    | .error _ =>
      match db.GetEndpoint env.getEndpointErr endpointID with
      | .error _ => ⟨db, [], [], Ret.panic "invalid memory address or nil pointer dereference"⟩
      | .ok endpoint =>
        match db.CreateIncident env.newID env.dbNow env.dbNow2 env.createIncidentErr
            (newIncident endpointID env.now endpoint.Name) with
        | (db1, _, some e) => ⟨db1, [], [], Ret.err (Err.wrap "failed to create incident" e)⟩
        | (db1, incident, none) =>
          match TriggerWebhooks db1 env endpoint.ServiceID "incident_start" incident with
          | (posts, some e) =>
            ⟨db1, [⟨endpoint.ServiceID, "incident_start", incident⟩], posts,
              Ret.err (Err.wrap "failed to trigger webhooks" e)⟩
          | (posts, none) =>
            ⟨db1, [⟨endpoint.ServiceID, "incident_start", incident⟩], posts, Ret.nil⟩
    | .ok _ => ⟨db, [], [], Ret.nil⟩

/-- A Go `int` result brought back into the 64-bit signed range. -/
def wrapInt64 (x : Int) : Int := (x + 2 ^ 63) % 2 ^ 64 - 2 ^ 63

/-- The running values of the loop of `AggregateMetrics`. -/
structure AggAcc where
  successPings : Int
  totalResponseMs : Int
  minResponseMs : Int
  maxResponseMs : Int
deriving DecidableEq, Repr

/-- One pass of the loop body of `AggregateMetrics`.  The success counter never
exceeds `len(pings)` and is not wrapped. -/
def aggStep (acc : AggAcc) (ping : Ping) : AggAcc :=
  { successPings := if ping.Success then acc.successPings + 1 else acc.successPings
    totalResponseMs := wrapInt64 (acc.totalResponseMs + ping.ResponseMs)
    minResponseMs := if ping.ResponseMs < acc.minResponseMs then ping.ResponseMs else acc.minResponseMs
    maxResponseMs := if ping.ResponseMs > acc.maxResponseMs then ping.ResponseMs else acc.maxResponseMs }

/-- The window `AggregateMetrics` builds from a non-empty list of pings whose
first element is `p0`; Go's `/` truncates towards zero. -/
def buildWindow (endpointID : UUID) (windowStart windowEnd : Time) (p0 : Ping)
    (pings : List Ping) : PingWindow :=
  let acc := pings.foldl aggStep ⟨0, 0, p0.ResponseMs, p0.ResponseMs⟩
  { ID := 0, EndpointID := endpointID, WindowStart := windowStart, WindowEnd := windowEnd,
    TotalPings := pings.length, SuccessPings := acc.successPings,
    AvgResponseMs := Int.tdiv acc.totalResponseMs pings.length,
    MinResponseMs := acc.minResponseMs, MaxResponseMs := acc.maxResponseMs, CreatedAt := 0 }

/-- Activity `Activities.AggregateMetrics` (temporal/activities.go). -/
def AggregateMetrics (db : DB) (env : Env) (endpointID : UUID) (windowStart windowEnd : Time) :
    DB × Ret :=
  match db.ListPingsByTimeRange env.listPingsErr endpointID windowStart windowEnd with
  | .error e => (db, Ret.err (Err.wrap "failed to list pings" e))
  | .ok pings =>
    match pings with
    | [] => (db, Ret.nil)
    | p0 :: rest =>
      match db.CreatePingWindow env.newID env.dbNow env.createPingWindowErr
          (buildWindow endpointID windowStart windowEnd p0 (p0 :: rest)) with
      | (db1, _, some e) => (db1, Ret.err (Err.wrap "failed to create ping window" e))
      | (db1, _, none) => (db1, Ret.nil)

/-! ## temporal: workflows -/

/-- Method `time.Time.Truncate`: round down to a multiple of `d` since the zero
time; unchanged when `d <= 0`. -/
def Time.Truncate (t : Time) (d : Duration) : Time :=
  if d ≤ 0 then t else t - t % d

/-- Method `time.Time.Add`. -/
def Time.Add (t : Time) (d : Duration) : Time := t + d

/-- What a workflow does, in order: activities executed, log lines, sleeps. -/
inductive WorkflowEvent where
  | PingEndpoint (endpointID : UUID)
  | CheckIncidentStatus (endpointID : UUID) (success : Bool)
  | GetEnabledEndpoints
  | AggregateMetrics (endpointID : UUID) (windowStart windowEnd : Time)
  | CleanupOldData (retentionDays : Int)
  | LogError (msg : String)
  | LogInfo (msg : String)
  | Sleep (d : Duration)
deriving DecidableEq, Repr

/-- What one iteration of `AggregateMetricsWorkflow` gets from the engine:
`workflow.Now`, the outcome of the `GetEnabledEndpoints` activity, the error
(if any) of the `AggregateMetrics` activity for an endpoint, and the error of
`workflow.Sleep` (set when the workflow is cancelled). -/
structure AggregateIterEnv where
  now : Time
  getEnabledEndpoints : Except Err (List UUID)
  aggregateMetrics : UUID → Option Err
  sleep : Option Err

/-- The bounds `(windowStart, windowEnd)` computed at the top of an iteration of
`AggregateMetricsWorkflow`. -/
def aggregateWindow (now : Time) : Time × Time :=
  let windowEnd := Time.Truncate now (5 * Minute)
  let windowStart := Time.Add windowEnd (-5 * Minute)
  (windowStart, windowEnd)

/-- One iteration of the loop of `AggregateMetricsWorkflow`, up to and including
the call of `workflow.Sleep`. -/
def aggregateIteration (e : AggregateIterEnv) : List WorkflowEvent :=
  let w := aggregateWindow e.now
  [WorkflowEvent.GetEnabledEndpoints]
  ++ (match e.getEnabledEndpoints with
      | .error _ => [WorkflowEvent.LogError "Failed to get enabled endpoints"]
      | .ok endpoints =>
        (endpoints.map (fun endpointID =>
          WorkflowEvent.AggregateMetrics endpointID w.1 w.2 ::
            (match e.aggregateMetrics endpointID with
             | some _ => [WorkflowEvent.LogError "Failed to aggregate metrics"]
             | none => []))).flatten)
  ++ [WorkflowEvent.Sleep (5 * Minute)]

/-- Workflow `AggregateMetricsWorkflow` (temporal/workflows.go) run against the
iterations the engine supplies: the events, and the error returned (`none`
while the loop is still running when the supplied iterations end). -/
def AggregateMetricsWorkflow : List AggregateIterEnv → List WorkflowEvent × Option Err
  | [] => ([], none)
  | e :: rest =>
    match e.sleep with
    | some err =>
      (aggregateIteration e ++ [WorkflowEvent.LogInfo "Aggregate metrics workflow cancelled"],
        some err)
    | none =>
      (aggregateIteration e ++ (AggregateMetricsWorkflow rest).1, (AggregateMetricsWorkflow rest).2)

/-! ## Runs of `CheckIncidentStatus` -/

/-- A sequence of `CheckIncidentStatus` calls for one endpoint, each reading the
database as the previous call left it. -/
def runChecks (db : DB) (endpointID : UUID) : List (Bool × Env) → DB
  | [] => db
  | c :: rest => runChecks (CheckIncidentStatus db c.2 endpointID c.1).db endpointID rest

/-- The notifications emitted along a sequence of `CheckIncidentStatus` calls. -/
def runNotifications (db : DB) (endpointID : UUID) : List (Bool × Env) → List Notification
  | [] => []
  | c :: rest =>
    (CheckIncidentStatus db c.2 endpointID c.1).notifications
      ++ runNotifications (CheckIncidentStatus db c.2 endpointID c.1).db endpointID rest

/-! ## temporal: the probe activity -/

/-- Result type `PingResult` (temporal/activities.go). -/
structure PingResult where
  EndpointID : UUID
  StatusCode : Int
  ResponseMs : Int
  Success : Bool
  Error : String
deriving DecidableEq, Repr

/-- What `client.Do(req)` gives back: a response, of which only the status code
is read, or an error, of which only the text is read. -/
inductive HTTPOutcome where
  | response (statusCode : Int)
  | error (msg : String)
deriving DecidableEq, Repr

/-- The request `PingEndpoint` hands to `client.Do`, with the client's timeout. -/
structure ProbeRequest where
  Method : String
  URL : String
  Header : Header
  Timeout : Duration
deriving DecidableEq, Repr

/-- What one run of `PingEndpoint` gets from outside besides `Env`: the failure
of `http.NewRequestWithContext` (if any), the outcome of the HTTP attempt, the
measured latency in milliseconds and the failure of the ping insert (if any). -/
structure ProbeEnv where
  newRequestErr : Option Err
  attempt : HTTPOutcome
  responseMs : Int
  createPingErr : Option Err

/-- Method `DB.CreatePing` (db/pings.go): `id` is `uuid.New()`, `now` its
`time.Now()`. -/
def DB.CreatePing (db : DB) (id : UUID) (now : Time) (execErr : Option Err) (ping : Ping) :
    DB × Ping × Option Err :=
  let ping1 := { ping with ID := id, CreatedAt := now }
  match execErr with
  | some e => (db, ping1, some e)
  | none => ({ db with pings := db.pings ++ [ping1] }, ping1, none)

/-- The header loop of `PingEndpoint`: every endpoint header whose value is a
string is set on the request. -/
def probeHeader (http : HTTPEnv) (custom : JSONB) : Header :=
  custom.foldl
    (fun h kv =>
      match kv.2 with
      | JSONValue.str v => Header.Set http.canonicalKey h kv.1 v
      | _ => h)
    []

/-- The `PingResult` that `PingEndpoint` fills in from the HTTP attempt. -/
def classify (endpointID : UUID) (expectedCode : Int) (attempt : HTTPOutcome) (responseMs : Int) :
    PingResult :=
  match attempt with
  | HTTPOutcome.error msg =>
    { EndpointID := endpointID, ResponseMs := responseMs, Success := false, Error := msg,
      StatusCode := 0 }
  | HTTPOutcome.response statusCode =>
    { EndpointID := endpointID, ResponseMs := responseMs, StatusCode := statusCode,
      Success := decide (statusCode = expectedCode),
      Error := if statusCode = expectedCode then ""
        else "Expected status " ++ toString expectedCode ++ " but got " ++ toString statusCode }

/-- The `models.Ping` that `PingEndpoint` builds from its result. -/
def pingOfResult (endpointID : UUID) (result : PingResult) : Ping :=
  { ID := 0, EndpointID := endpointID, StatusCode := result.StatusCode,
    ResponseMs := result.ResponseMs, Success := result.Success,
    Error := if result.Error ≠ "" then some result.Error else none, CreatedAt := 0 }

/-- Effect and result of one run of `PingEndpoint`: the database, the requests
handed to `client.Do`, the pings handed to `DB.CreatePing`, and what is
returned. -/
structure PingOutcome where
  db : DB
  requests : List ProbeRequest
  created : List Ping
  ret : Except Err PingResult
deriving DecidableEq, Repr

/-- Activity `Activities.PingEndpoint` (temporal/activities.go). -/
def PingEndpoint (db : DB) (env : Env) (probe : ProbeEnv) (endpointID : UUID) : PingOutcome :=
  match db.GetEndpoint env.getEndpointErr endpointID with
  | .error e => ⟨db, [], [], .error (Err.wrap "failed to get endpoint" e)⟩
  | .ok endpoint =>
    match probe.newRequestErr with
    | some e => ⟨db, [], [], .error (Err.wrap "failed to create request" e)⟩
    | none =>
      let req : ProbeRequest :=
        { Method := endpoint.Method, URL := endpoint.URL,
          Header := probeHeader env.http endpoint.Headers,
          Timeout := endpoint.TimeoutMs * Millisecond }
      let result := classify endpointID endpoint.ExpectedCode probe.attempt probe.responseMs
      match db.CreatePing env.newID env.dbNow probe.createPingErr (pingOfResult endpointID result) with
      | (db1, ping1, some e) => ⟨db1, [req], [ping1], .error (Err.wrap "failed to save ping" e)⟩
      | (db1, ping1, none) => ⟨db1, [req], [ping1], .ok result⟩

/-! ## temporal: the monitor and cleanup workflows -/

/-- Field `MaximumAttempts` of the retry policy every workflow sets. -/
def MaximumAttempts : Nat := 3

/-- The engine's `workflow.ExecuteActivity(...).Get` under a retry policy with a
bounded number of attempts: attempt `k` is `run k`; an attempt that returns an
error is followed by the next one while attempts are left.  Gives the database,
the number of attempts made and the result of the last attempt. -/
def runAttempts {α : Type} (run : Nat → DB → DB × Except Err α) :
    Nat → Nat → DB → DB × Nat × Except Err α
  | 0, k, db => (db, k, .error (Err.failure "no attempt left"))
  | n + 1, k, db =>
    match run k db with
    | (db1, .ok a) => (db1, k + 1, .ok a)
    | (db1, .error e) =>
      match n with
      | 0 => (db1, k + 1, .error e)
      | _ + 1 => runAttempts run n (k + 1) db1

/-- What the engine reports for an activity attempt: a panic is an error. -/
def Ret.toExcept : Ret → Except Err Unit
  | Ret.nil => .ok ()
  | Ret.err e => .error e
  | Ret.panic msg => .error (Err.failure msg)

/-- What one iteration of `MonitorEndpointWorkflow` gets from outside: the
changes other actors make to the database before it starts, the environment of
attempt `k` of `PingEndpoint` and of `CheckIncidentStatus`, and the error of
`workflow.Sleep` (set when the workflow is cancelled). -/
structure MonitorIterEnv where
  edit : DB → DB
  ping : Nat → Env × ProbeEnv
  check : Nat → Env
  sleep : Option Err

/-- Effect of one iteration of `MonitorEndpointWorkflow`. -/
structure MonitorIterOutcome where
  db : DB
  events : List WorkflowEvent
  pingAttempts : Nat
  checkAttempts : Nat
deriving DecidableEq, Repr

/-- Attempt `k` of the `PingEndpoint` activity in an iteration. -/
def pingAttempt (e : MonitorIterEnv) (endpointID : UUID) (k : Nat) (db : DB) :
    DB × Except Err PingResult :=
  ((PingEndpoint db (e.ping k).1 (e.ping k).2 endpointID).db,
   (PingEndpoint db (e.ping k).1 (e.ping k).2 endpointID).ret)

/-- Attempt `k` of the `CheckIncidentStatus` activity in an iteration. -/
def checkAttempt (e : MonitorIterEnv) (endpointID : UUID) (success : Bool) (k : Nat) (db : DB) :
    DB × Except Err Unit :=
  ((CheckIncidentStatus db (e.check k) endpointID success).db,
   (CheckIncidentStatus db (e.check k) endpointID success).ret.toExcept)

/-- One iteration of the loop of `MonitorEndpointWorkflow`, up to and including
the call of `workflow.Sleep`. -/
def monitorIteration (db : DB) (endpointID : UUID) (intervalSec : Int) (e : MonitorIterEnv) :
    MonitorIterOutcome :=
  match runAttempts (pingAttempt e endpointID) MaximumAttempts 0 db with
  | (db1, n1, .error _) =>
    { db := db1, pingAttempts := n1, checkAttempts := 0,
      events := [WorkflowEvent.PingEndpoint endpointID,
                 WorkflowEvent.LogError "Failed to ping endpoint",
                 WorkflowEvent.Sleep (intervalSec * Second)] }
  | (db1, n1, .ok result) =>
    match runAttempts (checkAttempt e endpointID result.Success) MaximumAttempts 0 db1 with
    | (db2, n2, .error _) =>
      { db := db2, pingAttempts := n1, checkAttempts := n2,
        events := [WorkflowEvent.PingEndpoint endpointID,
                   WorkflowEvent.CheckIncidentStatus endpointID result.Success,
                   WorkflowEvent.LogError "Failed to check incident status",
                   WorkflowEvent.Sleep (intervalSec * Second)] }
    | (db2, n2, .ok _) =>
      { db := db2, pingAttempts := n1, checkAttempts := n2,
        events := [WorkflowEvent.PingEndpoint endpointID,
                   WorkflowEvent.CheckIncidentStatus endpointID result.Success,
                   WorkflowEvent.Sleep (intervalSec * Second)] }

/-- Workflow `MonitorEndpointWorkflow` (temporal/workflows.go) run against the
iterations the engine supplies: the database, the events, and the error
returned (`none` while the loop is still running when the supplied iterations
end). -/
def MonitorEndpointWorkflow (endpointID : UUID) (intervalSec : Int) :
    DB → List MonitorIterEnv → DB × List WorkflowEvent × Option Err
  | db, [] => (db, [], none)
  | db, e :: rest =>
    match e.sleep with
    | some err =>
      ((monitorIteration (e.edit db) endpointID intervalSec e).db,
        (monitorIteration (e.edit db) endpointID intervalSec e).events
          ++ [WorkflowEvent.LogInfo "Monitoring workflow cancelled"],
        some err)
    | none =>
      ((MonitorEndpointWorkflow endpointID intervalSec
          (monitorIteration (e.edit db) endpointID intervalSec e).db rest).1,
        (monitorIteration (e.edit db) endpointID intervalSec e).events
          ++ (MonitorEndpointWorkflow endpointID intervalSec
                (monitorIteration (e.edit db) endpointID intervalSec e).db rest).2.1,
        (MonitorEndpointWorkflow endpointID intervalSec
          (monitorIteration (e.edit db) endpointID intervalSec e).db rest).2.2)

/-- The workflow arguments `startMonitoringCmd` (cli/monitor.go) and the starter
(cmd/starter/main.go) pass to `ExecuteWorkflow` for an endpoint: its id and the
interval stored at that moment. -/
def monitorWorkflowArgs (endpoint : ServiceEndpoint) : UUID × Int :=
  (endpoint.ID, endpoint.IntervalSec)

/-- What one iteration of `CleanupWorkflow` gets from the engine: the error (if
any) of the `CleanupOldData` activity and the error of `workflow.Sleep`. -/
structure CleanupIterEnv where
  cleanupOldData : Option Err
  sleep : Option Err

/-- One iteration of the loop of `CleanupWorkflow`, up to and including the call
of `workflow.Sleep`. -/
def cleanupIteration (retentionDays : Int) (e : CleanupIterEnv) : List WorkflowEvent :=
  [WorkflowEvent.CleanupOldData retentionDays]
  ++ (match e.cleanupOldData with
      | some _ => [WorkflowEvent.LogError "Failed to cleanup old data"]
      | none => [])
  ++ [WorkflowEvent.Sleep (24 * Hour)]

/-- Workflow `CleanupWorkflow` (temporal/workflows.go) run against the iterations
the engine supplies. -/
def CleanupWorkflow (retentionDays : Int) : List CleanupIterEnv → List WorkflowEvent × Option Err
  | [] => ([], none)
  | e :: rest =>
    match e.sleep with
    | some err =>
      (cleanupIteration retentionDays e ++ [WorkflowEvent.LogInfo "Cleanup workflow cancelled"],
        some err)
    | none =>
      (cleanupIteration retentionDays e ++ (CleanupWorkflow retentionDays rest).1,
        (CleanupWorkflow retentionDays rest).2)

/-! ## temporal: the cleanup activity -/

/-- One period of a time zone, as `Location.lookup` of the Go library reports
it: the offset east of UTC in seconds, and the seconds `start ≤ s < stop` in
which it is in force. -/
structure ZonePeriod where
  offset : Int
  start : Int
  stop : Int
deriving DecidableEq, Repr

/-- A `time.Location`: the offset in force before the first transition, and the
transitions `(when, offset)` in ascending order, `when` in seconds on the scale
of `Time`. -/
structure Location where
  first : Int
  trans : List (Int × Int)
deriving DecidableEq, Repr

/-- The scan of `Location.lookup` over the transitions left, with the period
found so far. -/
def Location.lookupFrom (sec : Int) (offset start : Int) : List (Int × Int) → ZonePeriod
  | [] => { offset := offset, start := start, stop := 2 ^ 63 - 1 }
  | tx :: rest =>
    if sec < tx.1 then { offset := offset, start := start, stop := tx.1 }
    else Location.lookupFrom sec tx.2 tx.1 rest

/-- Method `Location.lookup` of the Go library: the zone period in force at the
second `sec`. -/
def Location.lookup (l : Location) (sec : Int) : ZonePeriod :=
  Location.lookupFrom sec l.first (-(2 ^ 63)) l.trans

/-- Method `time.Time.AddDate(0, 0, days)`, the only form the repository uses, in
the location of `t`: the wall-clock reading of `t` is moved by `days` calendar
days and read back as an instant with `time.Date`, which takes the offset in
force at the new reading (looked up once more on the far side of a
transition). -/
def Time.AddDate (loc : Location) (t : Time) (days : Int) : Time :=
  let sec := t / Second
  let nsec := t % Second
  let unix := sec + (loc.lookup sec).offset + days * 86400
  let zone := loc.lookup unix
  let offset :=
    if zone.offset = 0 then 0
    else
      let utc := unix - zone.offset
      if utc < zone.start ∨ utc ≥ zone.stop then (loc.lookup utc).offset else zone.offset
  (unix - offset) * Second + nsec

/-- Method `DB.DeleteOldPings` (db/pings.go): `DELETE FROM pings WHERE created_at < $1`. -/
def DB.DeleteOldPings (db : DB) (execErr : Option Err) (before : Time) : DB × Option Err :=
  match execErr with
  | some e => (db, some e)
  | none => ({ db with pings := db.pings.filter (fun p => !decide (p.CreatedAt < before)) }, none)

/-- Method `DB.DeleteOldPingWindows` (db/pingwindows.go):
`DELETE FROM ping_windows WHERE created_at < $1`. -/
def DB.DeleteOldPingWindows (db : DB) (execErr : Option Err) (before : Time) : DB × Option Err :=
  match execErr with
  | some e => (db, some e)
  | none =>
    ({ db with pingWindows := db.pingWindows.filter (fun w => !decide (w.CreatedAt < before)) },
      none)

/-- What one run of `CleanupOldData` reads from outside the tables: `time.Now()`,
the local time zone of the process that `time.Now()` attaches to its result,
and the error of each of its two deletes. -/
structure CleanupEnv where
  now : Time
  loc : Location
  deleteOldPingsErr : Option Err
  deleteOldPingWindowsErr : Option Err

/-- Activity `Activities.CleanupOldData` (temporal/activities.go). -/
def CleanupOldData (db : DB) (env : CleanupEnv) (retentionDays : Int) : DB × Ret :=
  let cutoffTime := Time.AddDate env.loc env.now (-retentionDays)
  match db.DeleteOldPings env.deleteOldPingsErr cutoffTime with
  | (db1, some e) => (db1, Ret.err (Err.wrap "failed to delete old pings" e))
  | (db1, none) =>
    match db1.DeleteOldPingWindows env.deleteOldPingWindowsErr cutoffTime with
    | (db2, some e) => (db2, Ret.err (Err.wrap "failed to delete old ping windows" e))
    | (db2, none) => (db2, Ret.nil)

/-! ## The engine and the monitor commands -/

/-- The workflow a client asks the engine to run, with its arguments. -/
inductive WorkflowStart where
  | MonitorEndpoint (endpointID : UUID) (intervalSec : Int)
  | AggregateMetrics
  | Cleanup (retentionDays : Int)
deriving DecidableEq, Repr

/-- A workflow execution the engine is running: its workflow id, its run id,
what it runs, and whether a cancellation has been sent to it. -/
structure WorkflowRun where
  ID : String
  RunID : Nat
  Workflow : WorkflowStart
  CancelRequested : Bool
deriving DecidableEq, Repr

/-- Modelled from the spec: the scheduler core of section 4.1 (`StartTask`,
`Cancel`), which the source delegates to the Temporal engine behind
`client.Client`; the engine is not part of the repository.  The state is the
list of running executions and the next run id. -/
structure Engine where
  running : List WorkflowRun
  nextRunID : Nat
deriving DecidableEq, Repr

/-- Modelled from the spec: `client.ExecuteWorkflow` as the scheduler core's
`StartTask` ("at most one active task per taskID: starting a task with an
already-active ID is a no-op returning the existing handle").  `execErr` is a
failure of the request itself.  The handle is the workflow id and run id. -/
def Engine.ExecuteWorkflow (eng : Engine) (execErr : Option Err) (id : String)
    (wf : WorkflowStart) : Engine × Except Err (String × Nat) :=
  match execErr with
  | some e => (eng, .error e)
  | none =>
    match eng.running.find? (fun r => decide (r.ID = id)) with
    | some run => (eng, .ok (run.ID, run.RunID))
    | none =>
      ({ running := eng.running ++
           [{ ID := id, RunID := eng.nextRunID, Workflow := wf, CancelRequested := false }],
         nextRunID := eng.nextRunID + 1 },
        .ok (id, eng.nextRunID))

/-- Modelled from the spec: `client.CancelWorkflow` as the scheduler core's
`Cancel(taskID)`: the cancellation is sent to the running execution with that
id; with no such execution the engine rejects the request.  `cancelErr` is a
failure of the request itself. -/
def Engine.CancelWorkflow (eng : Engine) (cancelErr : Option Err) (id : String) :
    Engine × Option Err :=
  match cancelErr with
  | some e => (eng, some e)
  | none =>
    if eng.running.any (fun r => decide (r.ID = id)) then
      ({ eng with running := eng.running.map (fun r =>
          if r.ID = id then { r with CancelRequested := true } else r) }, none)
    else (eng, some (Err.failure "workflow execution not found"))

/-- What a monitor command gets from outside the database and the engine:
`uuid.Parse`, and the failure (if any) of `db.NewDB`, of `client.Dial`, of each
store call and of each engine request (by workflow id). -/
structure CLIEnv where
  parseUUID : String → Option UUID
  newDBErr : Option Err
  dialErr : Option Err
  listEnabledEndpointsErr : Option Err
  getEndpointErr : Option Err
  executeWorkflowErr : String → Option Err
  cancelWorkflowErr : String → Option Err

/-- The workflow id `fmt.Sprintf("monitor-endpoint-%s", id)`. -/
def monitorWorkflowID (id : UUID) : String := "monitor-endpoint-" ++ toString id

/-- The loop of `startMonitoringCmd --all` over the enabled endpoints: a failed
start is printed and the loop continues. -/
def startEndpoints (eng : Engine) (env : CLIEnv) (endpoints : List ServiceEndpoint) : Engine :=
  endpoints.foldl
    (fun eng1 endpoint =>
      (eng1.ExecuteWorkflow (env.executeWorkflowErr (monitorWorkflowID endpoint.ID))
        (monitorWorkflowID endpoint.ID)
        (WorkflowStart.MonitorEndpoint endpoint.ID endpoint.IntervalSec)).1)
    eng

/-- Command `startMonitoringCmd` (cli/monitor.go), with its flags `--endpoint-id`
and `--all`: the engine afterwards and the error returned.  Console output is
left out. -/
def startMonitoringCmd (db : DB) (eng : Engine) (env : CLIEnv) (endpointID : String)
    (all : Bool) : Engine × Option Err :=
  match env.newDBErr with
  | some e => (eng, some e)
  | none =>
    match env.dialErr with
    | some e => (eng, some (Err.wrap "failed to create Temporal client" e))
    | none =>
      if all then
        match db.ListEnabledEndpoints env.listEnabledEndpointsErr with
        | .error e => (eng, some (Err.wrap "failed to list endpoints" e))
        | .ok endpoints =>
          let eng1 := startEndpoints eng env endpoints
          let eng2 := (eng1.ExecuteWorkflow (env.executeWorkflowErr "aggregate-metrics")
            "aggregate-metrics" WorkflowStart.AggregateMetrics).1
          let eng3 := (eng2.ExecuteWorkflow (env.executeWorkflowErr "cleanup-old-data")
            "cleanup-old-data" (WorkflowStart.Cleanup 30)).1
          (eng3, none)
      else if endpointID ≠ "" then
        match env.parseUUID endpointID with
        | none => (eng, some (Err.wrap "invalid endpoint UUID" (Err.failure "invalid UUID")))
        | some epID =>
          match db.GetEndpoint env.getEndpointErr epID with
          | .error e => (eng, some (Err.wrap "failed to get endpoint" e))
          | .ok endpoint =>
            match eng.ExecuteWorkflow (env.executeWorkflowErr (monitorWorkflowID endpoint.ID))
                (monitorWorkflowID endpoint.ID)
                (WorkflowStart.MonitorEndpoint endpoint.ID endpoint.IntervalSec) with
            | (eng1, .error e) => (eng1, some (Err.wrap "failed to start workflow" e))
            | (eng1, .ok _) => (eng1, none)
      else (eng, some (Err.failure "specify --endpoint-id or --all"))

/-- The loop of `stopMonitoringCmd --all` over the enabled endpoints: a failed
cancel is printed and the loop continues. -/
def stopEndpoints (eng : Engine) (env : CLIEnv) (endpoints : List ServiceEndpoint) : Engine :=
  endpoints.foldl
    (fun eng1 endpoint =>
      (eng1.CancelWorkflow (env.cancelWorkflowErr (monitorWorkflowID endpoint.ID))
        (monitorWorkflowID endpoint.ID)).1)
    eng

/-- Command `stopMonitoringCmd` (cli/monitor.go), with its flags `--endpoint-id`
and `--all`: the engine afterwards and the error returned.  Console output is
left out. -/
def stopMonitoringCmd (db : DB) (eng : Engine) (env : CLIEnv) (endpointID : String)
    (all : Bool) : Engine × Option Err :=
  match env.dialErr with
  | some e => (eng, some (Err.wrap "failed to create Temporal client" e))
  | none =>
    if all then
      match env.newDBErr with
      | some e => (eng, some e)
      | none =>
        match db.ListEnabledEndpoints env.listEnabledEndpointsErr with
        | .error e => (eng, some (Err.wrap "failed to list endpoints" e))
        | .ok endpoints =>
          let eng1 := stopEndpoints eng env endpoints
          let eng2 := (eng1.CancelWorkflow (env.cancelWorkflowErr "aggregate-metrics")
            "aggregate-metrics").1
          let eng3 := (eng2.CancelWorkflow (env.cancelWorkflowErr "cleanup-old-data")
            "cleanup-old-data").1
          (eng3, none)
    else if endpointID ≠ "" then
      match env.parseUUID endpointID with
      | none => (eng, some (Err.wrap "invalid endpoint UUID" (Err.failure "invalid UUID")))
      | some epID =>
        match eng.CancelWorkflow (env.cancelWorkflowErr (monitorWorkflowID epID))
            (monitorWorkflowID epID) with
        | (eng1, some e) => (eng1, some (Err.wrap "failed to stop workflow" e))
        | (eng1, none) => (eng1, none)
    else (eng, some (Err.failure "specify --endpoint-id or --all"))

/-! ## Sample data -/

/-- Library behaviour used in the examples: nothing fails, keys are kept. -/
def sampleHTTP : HTTPEnv :=
  { marshalFails := fun _ => false, newRequestFails := fun _ => false, canonicalKey := fun k => k }

/-- An environment in which every store call succeeds. -/
def sampleEnv : Env :=
  { now := 1000, newID := 7, dbNow := 1001, dbNow2 := 1002,
    getOpenIncidentErr := none, resolveIncidentErr := none, createIncidentErr := none,
    getEndpointErr := none, listEnabledWebhooksErr := none, listPingsErr := none,
    createPingWindowErr := none, http := sampleHTTP }

/-- An endpoint `api` with id 1 of service 5. -/
def sampleEndpoint : ServiceEndpoint :=
  { ID := 1, ServiceID := 5, Name := "api", URL := "http://api", Method := "GET", Headers := [],
    ExpectedCode := 200, TimeoutMs := 5000, IntervalSec := 60, Enabled := true,
    CreatedAt := 0, UpdatedAt := 0, DeletedAt := none }

/-- An open incident with id 3 of endpoint 1. -/
def sampleOpen : Incident :=
  { ID := 3, EndpointID := 1, StartedAt := 500, ResolvedAt := none, Status := "open",
    Message := "Endpoint api is down", CreatedAt := 500, UpdatedAt := 500 }

/-- A database holding the sample endpoint and the given incidents. -/
def sampleDB (incidents : List Incident) : DB :=
  { endpoints := [sampleEndpoint], pings := [], pingWindows := [], incidents := incidents,
    webhooks := [] }

/-- A second open incident of endpoint 1, with id 4, started later. -/
def sampleOpen2 : Incident :=
  { ID := 4, EndpointID := 1, StartedAt := 800, ResolvedAt := none, Status := "open",
    Message := "Endpoint api is down", CreatedAt := 800, UpdatedAt := 800 }

/-- A database in which the sample endpoint has been soft-deleted
(`DeleteEndpoint`) while its incident is open. -/
def deletedEndpointDB : DB :=
  { endpoints := [{ sampleEndpoint with DeletedAt := some 900 }], pings := [], pingWindows := [],
    incidents := [sampleOpen], webhooks := [] }

/-- An environment in which only the open-incident lookup fails, with an error
that is not `sql.ErrNoRows`. -/
def lookupDownEnv : Env :=
  { sampleEnv with getOpenIncidentErr := some (Err.failure "connection refused") }

/-- A ping of endpoint 1 with the given id, latency, success flag and instant. -/
def samplePing (id : UUID) (ms : Int) (ok : Bool) (at_ : Time) : Ping :=
  { ID := id, EndpointID := 1, StatusCode := if ok then 200 else 500, ResponseMs := ms,
    Success := ok, Error := if ok then none else some "Expected status 200 but got 500",
    CreatedAt := at_ }

/-- A database with the probes (200ms, ok), (400ms, fail), (300ms, ok) of
endpoint 1 inside the window from 0 to 5 minutes. -/
def pingsDB : DB :=
  { endpoints := [sampleEndpoint],
    pings := [samplePing 11 200 true (60 * Second), samplePing 12 400 false (120 * Second),
              samplePing 13 300 true (180 * Second)],
    pingWindows := [], incidents := [], webhooks := [] }

/-- An iteration of `AggregateMetricsWorkflow` that wakes up at `now`, finds
endpoint 1 enabled, and in which no activity fails and no cancellation arrives. -/
def aggIter (now : Time) : AggregateIterEnv :=
  { now := now, getEnabledEndpoints := .ok [1], aggregateMetrics := fun _ => none, sleep := none }

/-- A database whose only ping, of endpoint 1, was stored exactly on the
5-minute boundary. -/
def boundaryDB : DB :=
  { endpoints := [sampleEndpoint], pings := [samplePing 21 250 true (5 * Minute)],
    pingWindows := [], incidents := [], webhooks := [] }

/-- A probe attempt that gets a response with the given status code in 120 ms. -/
def probeResponse (statusCode : Int) : ProbeEnv :=
  { newRequestErr := none, attempt := HTTPOutcome.response statusCode, responseMs := 120,
    createPingErr := none }

/-- A probe attempt whose request fails in transport after 5000 ms. -/
def probeTransportError : ProbeEnv :=
  { newRequestErr := none, attempt := HTTPOutcome.error "dial tcp: connection refused",
    responseMs := 5000, createPingErr := none }

/-- A monitor iteration in which nothing is edited, the first `PingEndpoint`
attempt runs with `first`, every later one with `later`, `CheckIncidentStatus`
runs with the sample environment, and no cancellation arrives. -/
def monitorIter (first later : Env × ProbeEnv) : MonitorIterEnv :=
  { edit := fun db => db, ping := fun k => if k = 0 then first else later,
    check := fun _ => sampleEnv, sleep := none }

/-- A probe attempt whose request fails in transport and whose ping insert fails
as well. -/
def probeStoreDown : ProbeEnv :=
  { probeTransportError with createPingErr := some (Err.failure "connection refused") }

/-- A monitor iteration before which the stored interval of the sample endpoint
is edited to 30 seconds (`DB.UpdateEndpoint`). -/
def monitorIterEdited : MonitorIterEnv :=
  { edit := fun db => (db.UpdateEndpoint 2000 none { sampleEndpoint with IntervalSec := 30 }).1,
    ping := fun _ => (sampleEnv, probeResponse 200), check := fun _ => sampleEnv, sleep := none }

/-- The test `ev` is a `Sleep` event. -/
def WorkflowEvent.isSleep : WorkflowEvent → Bool
  | WorkflowEvent.Sleep _ => true
  | _ => false

/-- A webhook of service 5 subscribed to both incident events. -/
def sampleWebhook : Webhook :=
  { ID := 9, ServiceID := 5, Name := "ops", URL := "http://hook",
    Events := ["incident_start", "incident_resolved"], Headers := [], Enabled := true,
    CreatedAt := 0, UpdatedAt := 0, DeletedAt := none }

/-- The sample database with the sample webhook. -/
def webhookDB (incidents : List Incident) : DB :=
  { sampleDB incidents with webhooks := [sampleWebhook] }

/-- A command environment in which nothing fails and the valid ids are the
texts `1` and `2`. -/
def sampleCLI : CLIEnv :=
  { parseUUID := fun t => if t = "1" then some 1 else if t = "2" then some 2 else none,
    newDBErr := none, dialErr := none,
    listEnabledEndpointsErr := none, getEndpointErr := none,
    executeWorkflowErr := fun _ => none, cancelWorkflowErr := fun _ => none }

/-- An engine that runs nothing. -/
def idleEngine : Engine := { running := [], nextRunID := 1 }

/-- The sample database after the sample endpoint has been disabled
(`DB.UpdateEndpoint`). -/
def disabledDB : DB :=
  ((sampleDB []).UpdateEndpoint 2000 none { sampleEndpoint with Enabled := false }).1

/-- The sample database after the interval of the sample endpoint has been set
to the given value (`DB.UpdateEndpoint`). -/
def intervalDB (intervalSec : Int) : DB :=
  ((sampleDB []).UpdateEndpoint 2000 none { sampleEndpoint with IntervalSec := intervalSec }).1

/-- The sample database with the given webhooks. -/
def hooksDB (webhooks : List Webhook) : DB :=
  { sampleDB [] with webhooks := webhooks }

/-- A disabled webhook of service 5 with a custom `Content-Type` header. -/
def mutedWebhook : Webhook :=
  { sampleWebhook with Headers := [("Content-Type", JSONValue.str "text/plain")], Enabled := false }

/-- A webhook of service 5 subscribed to `incident_resolved` only. -/
def resolvedOnlyWebhook : Webhook :=
  { sampleWebhook with Events := ["incident_resolved"] }

/-- The sample environment at a listing that matched the sample webhook: the
scan of the row fails. -/
def scanFailedEnv : Env :=
  { sampleEnv with listEnabledWebhooksErr := scanWebhookRows [sampleWebhook] }

/-- A database with pings and windows of endpoint 1 stored 31 days, exactly
30 days and 29 days before day 40. -/
def retentionDB : DB :=
  { endpoints := [sampleEndpoint],
    pings := [samplePing 31 100 true (9 * (24 * Hour)), samplePing 32 100 true (10 * (24 * Hour)),
              samplePing 33 100 true (11 * (24 * Hour))],
    pingWindows :=
      [{ ID := 41, EndpointID := 1, WindowStart := 0, WindowEnd := 5 * Minute, TotalPings := 1,
         SuccessPings := 1, AvgResponseMs := 100, MinResponseMs := 100, MaxResponseMs := 100,
         CreatedAt := 9 * (24 * Hour) },
       { ID := 42, EndpointID := 1, WindowStart := 0, WindowEnd := 5 * Minute, TotalPings := 1,
         SuccessPings := 1, AvgResponseMs := 100, MinResponseMs := 100, MaxResponseMs := 100,
         CreatedAt := 11 * (24 * Hour) }],
    incidents := [], webhooks := [] }

/-- The location `UTC`: offset 0 and no transition. -/
def utcLocation : Location := { first := 0, trans := [] }

/-- A cleanup run at day 40 in `UTC` in which both deletes succeed. -/
def cleanupEnv40 : CleanupEnv :=
  { now := 40 * (24 * Hour), loc := utcLocation, deleteOldPingsErr := none,
    deleteOldPingWindowsErr := none }

/-- A location whose clocks go back by one hour at the start of day 20: offset
+1 h before, 0 after. -/
def clockBackLocation : Location := { first := 3600, trans := [(20 * 86400, 0)] }

/-- A cleanup run at day 40 in `clockBackLocation` in which both deletes succeed. -/
def cleanupEnvClockBack : CleanupEnv := { cleanupEnv40 with loc := clockBackLocation }

/-- A database with one ping of endpoint 1 stored 30 days and 30 minutes before
day 40, and one window stored at the same instant. -/
def clockBackDB : DB :=
  { endpoints := [sampleEndpoint],
    pings := [samplePing 34 100 true (10 * (24 * Hour) - 30 * Minute)],
    pingWindows :=
      [{ ID := 44, EndpointID := 1, WindowStart := 0, WindowEnd := 5 * Minute, TotalPings := 1,
         SuccessPings := 1, AvgResponseMs := 100, MinResponseMs := 100, MaxResponseMs := 100,
         CreatedAt := 10 * (24 * Hour) - 30 * Minute }],
    incidents := [], webhooks := [] }

/-- A monitor iteration in which every probe attempt gets a 200 response. -/
def monitorIterOK : MonitorIterEnv :=
  monitorIter (sampleEnv, probeResponse 200) (sampleEnv, probeResponse 200)

/-! ## Lemmas on the incident table -/

theorem latestByStartedAt_eq_none {l : List Incident} :
    latestByStartedAt l = none ↔ l = [] := by
  cases l with
  | nil => simp [latestByStartedAt]
  | cons i rest =>
    simp only [latestByStartedAt]
    cases latestByStartedAt rest with
    | none => simp
    | some j => by_cases h : i.StartedAt < j.StartedAt <;> simp [h]

theorem latestByStartedAt_mem {l : List Incident} {i : Incident}
    (h : latestByStartedAt l = some i) : i ∈ l := by
  induction l generalizing i with
  | nil => simp [latestByStartedAt] at h
  | cons a rest ih =>
    simp only [latestByStartedAt] at h
    cases hr : latestByStartedAt rest with
    | none =>
      rw [hr] at h
      simp at h
      simp [h]
    | some j =>
      rw [hr] at h
      by_cases hlt : a.StartedAt < j.StartedAt
      · simp [hlt] at h
        subst h
        exact List.mem_cons_of_mem _ (ih hr)
      · simp [hlt] at h
        simp [h]

theorem openIncidents_eq (db : DB) (ep : UUID) :
    openIncidents db ep = db.incidents.filter (isOpenFor ep) := rfl

theorem isOpenFor_resolveRow (ep : UUID) (now : Time) (i : Incident) :
    isOpenFor ep (resolveRow now i) = false := by
  simp [isOpenFor, resolveRow]

theorem filter_open_resolve_length (ep id : UUID) (now : Time) (l : List Incident) :
    ((l.map (fun i => if i.ID = id then resolveRow now i else i)).filter (isOpenFor ep)).length
      ≤ (l.filter (isOpenFor ep)).length := by
  induction l with
  | nil => simp
  | cons a rest ih =>
    simp only [List.map_cons, List.filter_cons]
    by_cases hid : a.ID = id
    · simp only [hid, if_true, isOpenFor_resolveRow]
      by_cases ha : isOpenFor ep a = true
      · simp only [ha, if_true, List.length_cons]
        simp only [hid] at ih
        exact Nat.le_succ_of_le ih
      · simp only [ha]
        simp only [hid] at ih
        simpa using ih
    · simp only [hid, if_false]
      by_cases ha : isOpenFor ep a = true
      · simp only [ha, if_true, List.length_cons]
        exact Nat.succ_le_succ ih
      · simp only [ha]
        simpa using ih

theorem GetOpenIncident_ok_mem {db : DB} {ep : UUID} {i : Incident}
    (h : db.GetOpenIncident none ep = .ok i) : i ∈ openIncidents db ep := by
  simp only [DB.GetOpenIncident] at h
  cases hl : latestByStartedAt (openIncidents db ep) with
  | none => rw [hl] at h; simp at h
  | some j =>
    rw [hl] at h
    simp at h
    subst h
    exact latestByStartedAt_mem hl

theorem GetOpenIncident_error_nil {db : DB} {ep : UUID} {e : Err}
    (h : db.GetOpenIncident none ep = .error e) : openIncidents db ep = [] := by
  simp only [DB.GetOpenIncident] at h
  cases hl : latestByStartedAt (openIncidents db ep) with
  | none => exact latestByStartedAt_eq_none.mp hl
  | some j => rw [hl] at h; simp at h

theorem GetOpenIncident_of_nil {db : DB} {ep : UUID} (h : openIncidents db ep = []) :
    db.GetOpenIncident none ep = .error Err.ErrNoRows := by
  simp [DB.GetOpenIncident, h, latestByStartedAt]

/-- One `CheckIncidentStatus` call whose lookup answers from the table keeps
"at most one open incident for the endpoint". -/
theorem CheckIncidentStatus_open_le_one (db : DB) (env : Env) (ep : UUID) (success : Bool)
    (hlookup : env.getOpenIncidentErr = none)
    (h : (openIncidents db ep).length ≤ 1) :
    (openIncidents (CheckIncidentStatus db env ep success).db ep).length ≤ 1 := by
  unfold CheckIncidentStatus
  simp only [hlookup]
  cases success with
  | true =>
    simp only [if_true]
    cases hl : db.GetOpenIncident none ep with
    | error e => simpa using h
    | ok incident =>
      simp only [DB.ResolveIncident]
      cases env.resolveIncidentErr with
      | some e => simpa using h
      | none =>
        have hres := filter_open_resolve_length ep incident.ID env.dbNow db.incidents
        have hle : (openIncidents
            { db with incidents :=
                db.incidents.map (fun i => if i.ID = incident.ID then resolveRow env.dbNow i else i) }
            ep).length ≤ 1 := by
          rw [openIncidents_eq] at h ⊢
          exact le_trans hres h
        simp only []
        split
        · split <;> exact hle
        · exact hle
  | false =>
    simp only [Bool.false_eq_true, if_false]
    cases hl : db.GetOpenIncident none ep with
    | ok incident => simpa using h
    | error e =>
      have hnil := GetOpenIncident_error_nil hl
      simp only []
      cases db.GetEndpoint env.getEndpointErr ep with
      | error e2 => simpa using h
      | ok endpoint =>
        simp only [DB.CreateIncident]
        cases env.createIncidentErr with
        | some e3 => simpa using h
        | none =>
          have hle : (openIncidents
              { db with incidents := db.incidents ++
                  [{ ({ newIncident ep env.now endpoint.Name with
                        ID := env.newID, CreatedAt := env.dbNow, UpdatedAt := env.dbNow2 } : Incident)
                      with ResolvedAt := none }] } ep).length ≤ 1 := by
            rw [openIncidents_eq] at hnil ⊢
            simp only [List.filter_append, hnil, List.nil_append]
            exact le_trans (List.length_filter_le _ _) (by simp)
          simp only []
          split <;> exact hle

/-! ## Incident tracker -/

/-- C1: along every finite sequence of `CheckIncidentStatus` calls for an
endpoint (success and failure flags in any order, every other store call free to
fail), started from a database with at most one open incident for the endpoint
and with an open-incident lookup that answers from the table at every call, the
database holds at most one open incident for the endpoint after every call. -/
theorem at_most_one_open_incident (db : DB) (ep : UUID) (calls : List (Bool × Env))
    (hstart : (openIncidents db ep).length ≤ 1)
    (hlookup : ∀ c ∈ calls, c.2.getOpenIncidentErr = none) (k : Nat) :
    (openIncidents (runChecks db ep (calls.take k)) ep).length ≤ 1 := by
  induction calls generalizing db k with
  | nil => simpa [runChecks] using hstart
  | cons c rest ih =>
    cases k with
    | zero => simpa [runChecks] using hstart
    | succ k =>
      simp only [List.take_succ_cons, runChecks]
      apply ih
      · exact CheckIncidentStatus_open_le_one db c.2 ep c.1
          (hlookup c (List.mem_cons_self _ _)) hstart
      · intro c2 hc2
        exact hlookup c2 (List.mem_cons_of_mem _ hc2)

/-- Witness of C1: failure, failure, success, failure from one open incident. -/
theorem at_most_one_open_incident_witness :
    (openIncidents (sampleDB [sampleOpen]) 1).length ≤ 1
    ∧ (∀ c ∈ [(false, sampleEnv), (false, sampleEnv), (true, sampleEnv), (false, sampleEnv)],
        c.2.getOpenIncidentErr = none)
    ∧ (openIncidents (runChecks (sampleDB [sampleOpen]) 1
        ([(false, sampleEnv), (false, sampleEnv), (true, sampleEnv), (false, sampleEnv)].take 4))
        1).length ≤ 1 :=
  ⟨by decide, by decide,
    at_most_one_open_incident (sampleDB [sampleOpen]) 1
      [(false, sampleEnv), (false, sampleEnv), (true, sampleEnv), (false, sampleEnv)]
      (by decide) (by decide) 4⟩

/-- The failure path of `CheckIncidentStatus` when no open incident is reported
and the insert succeeds. -/
theorem CheckIncidentStatus_failure_creates (db : DB) (env : Env) (ep : UUID)
    (endpoint : ServiceEndpoint)
    (hexists : db.GetEndpoint none ep = .ok endpoint)
    (hget : env.getEndpointErr = none)
    (hnone : openIncidents db ep = [])
    (hcreate : env.createIncidentErr = none) :
    (CheckIncidentStatus db env ep false).db =
        { db with incidents := db.incidents ++
            [{ ID := env.newID, EndpointID := ep, StartedAt := env.now, ResolvedAt := none,
               Status := "open", Message := "Endpoint " ++ endpoint.Name ++ " is down",
               CreatedAt := env.dbNow, UpdatedAt := env.dbNow2 }] }
    ∧ (CheckIncidentStatus db env ep false).notifications =
        [{ ServiceID := endpoint.ServiceID, Event := "incident_start",
           Incident := { ID := env.newID, EndpointID := ep, StartedAt := env.now,
                         ResolvedAt := none, Status := "open",
                         Message := "Endpoint " ++ endpoint.Name ++ " is down",
                         CreatedAt := env.dbNow, UpdatedAt := env.dbNow2 } }]
    ∧ (env.listEnabledWebhooksErr = none → (CheckIncidentStatus db env ep false).ret = Ret.nil) := by
  have hlook : ∃ e, db.GetOpenIncident env.getOpenIncidentErr ep = .error e := by
    cases hg : env.getOpenIncidentErr with
    | some e => exact ⟨e, by simp [DB.GetOpenIncident]⟩
    | none => exact ⟨Err.ErrNoRows, GetOpenIncident_of_nil hnone⟩
  obtain ⟨e, he⟩ := hlook
  unfold CheckIncidentStatus
  simp only [he, hget, hexists, hcreate, DB.CreateIncident, newIncident, TriggerWebhooks,
    Bool.false_eq_true, if_false]
  cases hw : env.listEnabledWebhooksErr with
  | some e2 => simp [DB.ListEnabledWebhooks]
  | none => simp [DB.ListEnabledWebhooks]

/-- C2: in a database where the endpoint exists and has no open incident, a
failure probe whose insert succeeds adds exactly one incident (the endpoint's
id, status "open", started-at the current time, no resolved-at, message
"Endpoint <name> is down") and emits one `incident_start` notification for the
endpoint's service, carrying that incident. -/
theorem failure_without_open_creates_incident (db : DB) (env : Env) (ep : UUID)
    (endpoint : ServiceEndpoint)
    (hexists : db.GetEndpoint none ep = .ok endpoint)
    (hget : env.getEndpointErr = none)
    (hnone : openIncidents db ep = [])
    (hcreate : env.createIncidentErr = none) :
    (CheckIncidentStatus db env ep false).db =
        { db with incidents := db.incidents ++
            [{ ID := env.newID, EndpointID := ep, StartedAt := env.now, ResolvedAt := none,
               Status := "open", Message := "Endpoint " ++ endpoint.Name ++ " is down",
               CreatedAt := env.dbNow, UpdatedAt := env.dbNow2 }] }
    ∧ (CheckIncidentStatus db env ep false).notifications =
        [{ ServiceID := endpoint.ServiceID, Event := "incident_start",
           Incident := { ID := env.newID, EndpointID := ep, StartedAt := env.now,
                         ResolvedAt := none, Status := "open",
                         Message := "Endpoint " ++ endpoint.Name ++ " is down",
                         CreatedAt := env.dbNow, UpdatedAt := env.dbNow2 } }]
    ∧ (env.listEnabledWebhooksErr = none → (CheckIncidentStatus db env ep false).ret = Ret.nil) :=
  CheckIncidentStatus_failure_creates db env ep endpoint hexists hget hnone hcreate

/-- Witness of C2: the sample endpoint with an empty incident table. -/
theorem failure_without_open_creates_incident_witness :
    (sampleDB []).GetEndpoint none 1 = .ok sampleEndpoint
    ∧ openIncidents (sampleDB []) 1 = []
    ∧ (CheckIncidentStatus (sampleDB []) sampleEnv 1 false).db.incidents =
        [{ ID := 7, EndpointID := 1, StartedAt := 1000, ResolvedAt := none, Status := "open",
           Message := "Endpoint api is down", CreatedAt := 1001, UpdatedAt := 1002 }] :=
  ⟨rfl, by decide,
    by
      have h := (failure_without_open_creates_incident (sampleDB []) sampleEnv 1 sampleEndpoint
        rfl rfl (by decide) rfl).1
      rw [h]
      decide⟩

/-- The success path of `CheckIncidentStatus` on the one open incident of an
existing endpoint. -/
theorem CheckIncidentStatus_success_resolves (db : DB) (env : Env) (ep : UUID)
    (endpoint : ServiceEndpoint) (incident : Incident)
    (hexists : db.GetEndpoint none ep = .ok endpoint)
    (hget : env.getEndpointErr = none)
    (hone : openIncidents db ep = [incident])
    (hlookup : env.getOpenIncidentErr = none)
    (hresolve : env.resolveIncidentErr = none) :
    (CheckIncidentStatus db env ep true).db =
        { db with incidents :=
            db.incidents.map (fun i => if i.ID = incident.ID then resolveRow env.dbNow i else i) }
    ∧ resolveRow env.dbNow incident ∈ (CheckIncidentStatus db env ep true).db.incidents
    ∧ (resolveRow env.dbNow incident).Status = "resolved"
    ∧ (resolveRow env.dbNow incident).ResolvedAt = some env.dbNow
    ∧ (∀ i ∈ db.incidents, i.ID ≠ incident.ID →
        i ∈ (CheckIncidentStatus db env ep true).db.incidents)
    ∧ openIncidents (CheckIncidentStatus db env ep true).db ep = []
    ∧ (CheckIncidentStatus db env ep true).notifications =
        [{ ServiceID := endpoint.ServiceID, Event := "incident_resolved", Incident := incident }] := by
  have hl : db.GetOpenIncident none ep = .ok incident := by
    simp [DB.GetOpenIncident, hone, latestByStartedAt]
  have hmem : incident ∈ db.incidents := by
    have : incident ∈ openIncidents db ep := by simp [hone]
    exact (List.mem_filter.mp this).1
  have hdb : (CheckIncidentStatus db env ep true).db =
      { db with incidents :=
          db.incidents.map (fun i => if i.ID = incident.ID then resolveRow env.dbNow i else i) } := by
    unfold CheckIncidentStatus
    simp only [hlookup, hl, hresolve, DB.ResolveIncident, if_true]
    have hexists2 : DB.GetEndpoint
        { db with incidents :=
            db.incidents.map (fun i => if i.ID = incident.ID then resolveRow env.dbNow i else i) }
        env.getEndpointErr ep = .ok endpoint := by
      rw [hget]; exact hexists
    simp only [hexists2]
    split <;> rfl
  have hnot : (CheckIncidentStatus db env ep true).notifications =
      [{ ServiceID := endpoint.ServiceID, Event := "incident_resolved", Incident := incident }] := by
    unfold CheckIncidentStatus
    simp only [hlookup, hl, hresolve, DB.ResolveIncident, if_true]
    have hexists2 : DB.GetEndpoint
        { db with incidents :=
            db.incidents.map (fun i => if i.ID = incident.ID then resolveRow env.dbNow i else i) }
        env.getEndpointErr ep = .ok endpoint := by
      rw [hget]; exact hexists
    simp only [hexists2]
    split <;> rfl
  refine ⟨hdb, ?_, rfl, rfl, ?_, ?_, hnot⟩
  · rw [hdb]
    exact List.mem_map.mpr ⟨incident, hmem, by simp⟩
  · intro i hi hne
    rw [hdb]
    exact List.mem_map.mpr ⟨i, hi, by simp [hne]⟩
  · rw [hdb, openIncidents_eq]
    rw [List.filter_eq_nil_iff]
    intro a ha
    obtain ⟨i, hi, rfl⟩ := List.mem_map.mp ha
    by_cases hid : i.ID = incident.ID
    · simp [hid, isOpenFor_resolveRow]
    · simp only [hid, if_false]
      intro hopen
      have : i ∈ openIncidents db ep := List.mem_filter.mpr ⟨hi, hopen⟩
      rw [hone] at this
      simp at this
      exact hid (by rw [this])

/-- The amended C3: in a database where the endpoint exists and has exactly one
open incident, a success probe whose lookup and update succeed resolves that
incident (status "resolved", resolved-at stamped, on every row carrying its id),
leaves every incident with another id unchanged, leaves the endpoint with no
open incident, and emits one `incident_resolved` notification for the
endpoint's service. -/
theorem success_with_open_resolves_incident (db : DB) (env : Env) (ep : UUID)
    (endpoint : ServiceEndpoint) (incident : Incident)
    (hexists : db.GetEndpoint none ep = .ok endpoint)
    (hget : env.getEndpointErr = none)
    (hone : openIncidents db ep = [incident])
    (hlookup : env.getOpenIncidentErr = none)
    (hresolve : env.resolveIncidentErr = none) :
    (CheckIncidentStatus db env ep true).db =
        { db with incidents :=
            db.incidents.map (fun i => if i.ID = incident.ID then resolveRow env.dbNow i else i) }
    ∧ resolveRow env.dbNow incident ∈ (CheckIncidentStatus db env ep true).db.incidents
    ∧ (resolveRow env.dbNow incident).Status = "resolved"
    ∧ (resolveRow env.dbNow incident).ResolvedAt = some env.dbNow
    ∧ (∀ i ∈ db.incidents, i.ID ≠ incident.ID →
        i ∈ (CheckIncidentStatus db env ep true).db.incidents)
    ∧ openIncidents (CheckIncidentStatus db env ep true).db ep = []
    ∧ (CheckIncidentStatus db env ep true).notifications =
        [{ ServiceID := endpoint.ServiceID, Event := "incident_resolved", Incident := incident }] :=
  CheckIncidentStatus_success_resolves db env ep endpoint incident hexists hget hone hlookup
    hresolve

/-- Witness of the amended C3: the sample endpoint with its one open incident. -/
theorem success_with_open_resolves_incident_witness :
    (sampleDB [sampleOpen]).GetEndpoint none 1 = .ok sampleEndpoint
    ∧ openIncidents (sampleDB [sampleOpen]) 1 = [sampleOpen]
    ∧ openIncidents (CheckIncidentStatus (sampleDB [sampleOpen]) sampleEnv 1 true).db 1 = []
    ∧ (CheckIncidentStatus (sampleDB [sampleOpen]) sampleEnv 1 true).notifications =
        [{ ServiceID := 5, Event := "incident_resolved", Incident := sampleOpen }] :=
  ⟨rfl, by decide,
    (success_with_open_resolves_incident (sampleDB [sampleOpen]) sampleEnv 1 sampleEndpoint
      sampleOpen rfl rfl (by decide) rfl rfl).2.2.2.2.2.1,
    by decide⟩

/-- C3 as stated fails: (a) with the endpoint soft-deleted while its incident is
open, the success probe resolves the incident and emits no notification;
(b) with two open incidents of the endpoint, the success probe resolves the
latest one only and the endpoint still has an open incident. -/
theorem success_with_open_counterexample :
    (openIncidents deletedEndpointDB 1 = [sampleOpen]
      ∧ (CheckIncidentStatus deletedEndpointDB sampleEnv 1 true).db.incidents
          = [resolveRow 1001 sampleOpen]
      ∧ (CheckIncidentStatus deletedEndpointDB sampleEnv 1 true).notifications = []
      ∧ (CheckIncidentStatus deletedEndpointDB sampleEnv 1 true).ret = Ret.nil)
    ∧ (openIncidents (sampleDB [sampleOpen, sampleOpen2]) 1 = [sampleOpen, sampleOpen2]
      ∧ openIncidents (CheckIncidentStatus (sampleDB [sampleOpen, sampleOpen2]) sampleEnv 1 true).db 1
          = [sampleOpen]) := by
  decide

/-- The two paths of `CheckIncidentStatus` that change nothing. -/
theorem CheckIncidentStatus_noop (db : DB) (env : Env) (ep : UUID) (success : Bool)
    (h : (success = false ∧ env.getOpenIncidentErr = none ∧ openIncidents db ep ≠ [])
      ∨ (success = true ∧ openIncidents db ep = [])) :
    CheckIncidentStatus db env ep success = ⟨db, [], [], Ret.nil⟩ := by
  rcases h with ⟨hs, hlookup, hopen⟩ | ⟨hs, hnone⟩
  · subst hs
    have hl : ∃ i, db.GetOpenIncident none ep = .ok i := by
      cases hg : db.GetOpenIncident none ep with
      | ok i => exact ⟨i, rfl⟩
      | error e => exact absurd (GetOpenIncident_error_nil hg) hopen
    obtain ⟨i, hi⟩ := hl
    unfold CheckIncidentStatus
    simp [hlookup, hi]
  · subst hs
    have hl : ∃ e, db.GetOpenIncident env.getOpenIncidentErr ep = .error e := by
      cases hg : env.getOpenIncidentErr with
      | some e => exact ⟨e, by simp [DB.GetOpenIncident]⟩
      | none => exact ⟨Err.ErrNoRows, GetOpenIncident_of_nil hnone⟩
    obtain ⟨e, he⟩ := hl
    unfold CheckIncidentStatus
    simp [he]

/-- C4: `CheckIncidentStatus` does nothing in the two non-transition cases.  For
a failure probe while the lookup reports an open incident of the endpoint, and
for a success probe while the endpoint has none, it returns nil, leaves the
database as it was and emits no notification. -/
theorem no_transition_is_noop (db : DB) (env : Env) (ep : UUID) (success : Bool)
    (h : (success = false ∧ env.getOpenIncidentErr = none ∧ openIncidents db ep ≠ [])
      ∨ (success = true ∧ openIncidents db ep = [])) :
    CheckIncidentStatus db env ep success = ⟨db, [], [], Ret.nil⟩ :=
  CheckIncidentStatus_noop db env ep success h

/-- Witness of C4: a failure probe on an open incident, and a success probe on
an empty incident table. -/
theorem no_transition_is_noop_witness :
    (openIncidents (sampleDB [sampleOpen]) 1 ≠ []
      ∧ CheckIncidentStatus (sampleDB [sampleOpen]) sampleEnv 1 false
          = ⟨sampleDB [sampleOpen], [], [], Ret.nil⟩)
    ∧ (openIncidents (sampleDB []) 1 = []
      ∧ CheckIncidentStatus (sampleDB []) sampleEnv 1 true = ⟨sampleDB [], [], [], Ret.nil⟩) :=
  ⟨⟨by decide, no_transition_is_noop (sampleDB [sampleOpen]) sampleEnv 1 false
      (Or.inl ⟨rfl, rfl, by decide⟩)⟩,
   ⟨by decide, no_transition_is_noop (sampleDB []) sampleEnv 1 true (Or.inr ⟨rfl, by decide⟩)⟩⟩

/-- Repeated failure probes on a database where the lookup reports an open
incident leave the database as it is. -/
theorem runChecks_failures_noop (db : DB) (ep : UUID) (more : List Env)
    (hopen : openIncidents db ep ≠ [])
    (hmore : ∀ e ∈ more, e.getOpenIncidentErr = none) :
    runChecks db ep (more.map (fun e => (false, e))) = db := by
  induction more with
  | nil => rfl
  | cons e rest ih =>
    simp only [List.map_cons, runChecks]
    rw [CheckIncidentStatus_noop db e ep false
      (Or.inl ⟨rfl, hmore e (List.mem_cons_self _ _), hopen⟩)]
    exact ih (fun e2 he2 => hmore e2 (List.mem_cons_of_mem _ he2))

theorem runChecks_append (db : DB) (ep : UUID) (xs ys : List (Bool × Env)) :
    runChecks db ep (xs ++ ys) = runChecks (runChecks db ep xs) ep ys := by
  induction xs generalizing db with
  | nil => rfl
  | cons c rest ih => simp only [List.cons_append, runChecks]; exact ih _

/-- C5: for every N >= 1 (here N = 1 + `more.length`), starting from a database
in which the endpoint exists and has no open incident, N consecutive failure
probes followed by one success probe create exactly one incident in total and
move exactly that incident from open to resolved, leaving the endpoint with no
open incident: after the failures the incident table is the old one plus one
open incident, after the success it is the old one plus that incident resolved. -/
theorem failures_then_success_one_incident (db : DB) (ep : UUID) (endpoint : ServiceEndpoint)
    (e0 : Env) (more : List Env) (eS : Env)
    (hexists : db.GetEndpoint none ep = .ok endpoint)
    (hnone : openIncidents db ep = [])
    (hfresh : ∀ i ∈ db.incidents, i.ID ≠ e0.newID)
    (h0 : e0.getEndpointErr = none ∧ e0.createIncidentErr = none)
    (hmore : ∀ e ∈ more, e.getOpenIncidentErr = none)
    (hS : eS.getOpenIncidentErr = none ∧ eS.resolveIncidentErr = none ∧ eS.getEndpointErr = none) :
    runChecks db ep ((false, e0) :: more.map (fun e => (false, e))) =
        { db with incidents := db.incidents ++
            [{ ID := e0.newID, EndpointID := ep, StartedAt := e0.now, ResolvedAt := none,
               Status := "open", Message := "Endpoint " ++ endpoint.Name ++ " is down",
               CreatedAt := e0.dbNow, UpdatedAt := e0.dbNow2 }] }
    ∧ runChecks db ep (((false, e0) :: more.map (fun e => (false, e))) ++ [(true, eS)]) =
        { db with incidents := db.incidents ++
            [{ ID := e0.newID, EndpointID := ep, StartedAt := e0.now,
               ResolvedAt := some eS.dbNow, Status := "resolved",
               Message := "Endpoint " ++ endpoint.Name ++ " is down",
               CreatedAt := e0.dbNow, UpdatedAt := eS.dbNow }] }
    ∧ openIncidents (runChecks db ep
        (((false, e0) :: more.map (fun e => (false, e))) ++ [(true, eS)])) ep = [] := by
  obtain ⟨hget0, hcreate0⟩ := h0
  obtain ⟨hlookS, hresS, hgetS⟩ := hS
  have h1 := (CheckIncidentStatus_failure_creates db e0 ep endpoint hexists hget0 hnone hcreate0).1
  obtain ⟨created, hc⟩ : ∃ c : Incident, c =
      { ID := e0.newID, EndpointID := ep, StartedAt := e0.now, ResolvedAt := none,
        Status := "open", Message := "Endpoint " ++ endpoint.Name ++ " is down",
        CreatedAt := e0.dbNow, UpdatedAt := e0.dbNow2 } := ⟨_, rfl⟩
  rw [← hc] at h1 ⊢
  have hcid : created.ID = e0.newID := by rw [hc]
  have hcopen : isOpenFor ep created = true := by rw [hc]; simp [isOpenFor]
  have hopen1 : openIncidents { db with incidents := db.incidents ++ [created] } ep = [created] := by
    rw [openIncidents_eq] at hnone ⊢
    simp [List.filter_append, hnone, hcopen]
  have hfails : runChecks db ep ((false, e0) :: more.map (fun e => (false, e))) =
      { db with incidents := db.incidents ++ [created] } := by
    simp only [runChecks]
    rw [h1]
    exact runChecks_failures_noop _ ep more (by rw [hopen1]; simp) hmore
  have hexists1 : DB.GetEndpoint { db with incidents := db.incidents ++ [created] } none ep
      = .ok endpoint := hexists
  have h2 := CheckIncidentStatus_success_resolves { db with incidents := db.incidents ++ [created] }
    eS ep endpoint created hexists1 hgetS hopen1 hlookS hresS
  have hmap : (db.incidents ++ [created]).map
      (fun i => if i.ID = created.ID then resolveRow eS.dbNow i else i)
      = db.incidents ++ [resolveRow eS.dbNow created] := by
    rw [List.map_append]
    congr 1
    · conv_rhs => rw [← List.map_id db.incidents]
      apply List.map_congr_left
      intro i hi
      have : i.ID ≠ created.ID := by rw [hcid]; exact hfresh i hi
      simp [this]
    · simp
  have hres : resolveRow eS.dbNow created =
      { ID := e0.newID, EndpointID := ep, StartedAt := e0.now,
        ResolvedAt := some eS.dbNow, Status := "resolved",
        Message := "Endpoint " ++ endpoint.Name ++ " is down",
        CreatedAt := e0.dbNow, UpdatedAt := eS.dbNow } := by
    rw [hc]; rfl
  have hfinal : runChecks db ep (((false, e0) :: more.map (fun e => (false, e))) ++ [(true, eS)])
      = (CheckIncidentStatus { db with incidents := db.incidents ++ [created] } eS ep true).db := by
    rw [runChecks_append, hfails]
    rfl
  refine ⟨hfails, ?_, ?_⟩
  · rw [hfinal, h2.1]
    simp only [hmap, hres]
  · rw [hfinal]
    exact h2.2.2.2.2.2.1

/-- Witness of C5: three failure probes and one success probe on the sample
endpoint, starting from an empty incident table. -/
theorem failures_then_success_one_incident_witness :
    (sampleDB []).GetEndpoint none 1 = .ok sampleEndpoint
    ∧ openIncidents (sampleDB []) 1 = []
    ∧ runChecks (sampleDB []) 1
        (((false, sampleEnv) :: [sampleEnv, sampleEnv].map (fun e => (false, e)))
          ++ [(true, sampleEnv)]) =
        sampleDB [{ ID := 7, EndpointID := 1, StartedAt := 1000, ResolvedAt := some 1001,
                    Status := "resolved", Message := "Endpoint api is down",
                    CreatedAt := 1001, UpdatedAt := 1001 }] :=
  ⟨rfl, by decide,
    by
      have h := (failures_then_success_one_incident (sampleDB []) 1 sampleEndpoint sampleEnv
        [sampleEnv, sampleEnv] sampleEnv rfl (by decide) (by decide) ⟨rfl, rfl⟩ (by decide)
        ⟨rfl, rfl, rfl⟩).2.1
      rw [h]
      decide⟩

/-- C6 at its failing input: with the open-incident lookup failing on
"connection refused" while incident 3 of endpoint 1 is open, a failure probe
inserts a second open incident, notifies `incident_start` and returns nil, and a
success probe returns nil as well, leaving the incident open. -/
theorem lookup_failure_treated_as_no_incident :
    lookupDownEnv.getOpenIncidentErr = some (Err.failure "connection refused")
    ∧ (CheckIncidentStatus (sampleDB [sampleOpen]) lookupDownEnv 1 false).db.incidents =
        [sampleOpen,
         { ID := 7, EndpointID := 1, StartedAt := 1000, ResolvedAt := none, Status := "open",
           Message := "Endpoint api is down", CreatedAt := 1001, UpdatedAt := 1002 }]
    ∧ (CheckIncidentStatus (sampleDB [sampleOpen]) lookupDownEnv 1 false).ret = Ret.nil
    ∧ ((CheckIncidentStatus (sampleDB [sampleOpen]) lookupDownEnv 1 false).notifications.map
        (fun n => n.Event)) = ["incident_start"]
    ∧ CheckIncidentStatus (sampleDB [sampleOpen]) lookupDownEnv 1 true =
        ⟨sampleDB [sampleOpen], [], [], Ret.nil⟩ := by
  decide

/-! ## Metrics aggregator -/

theorem wrapInt64_of_fits {x : Int} (h1 : -2 ^ 63 ≤ x) (h2 : x < 2 ^ 63) : wrapInt64 x = x := by
  unfold wrapInt64
  omega

theorem wrapInt64_add_wrap (a b : Int) : wrapInt64 (wrapInt64 a + b) = wrapInt64 (a + b) := by
  unfold wrapInt64
  omega

theorem foldl_aggStep_total (l : List Ping) (acc : AggAcc) :
    wrapInt64 (l.foldl aggStep acc).totalResponseMs
      = wrapInt64 (acc.totalResponseMs + (l.map (fun p => p.ResponseMs)).sum) := by
  induction l generalizing acc with
  | nil => simp
  | cons p rest ih =>
    simp only [List.foldl_cons, List.map_cons, List.sum_cons]
    rw [ih]
    simp only [aggStep]
    rw [wrapInt64_add_wrap, add_assoc]

theorem foldl_aggStep_total_wrapped (l : List Ping) (acc : AggAcc)
    (h : wrapInt64 acc.totalResponseMs = acc.totalResponseMs) :
    wrapInt64 (l.foldl aggStep acc).totalResponseMs = (l.foldl aggStep acc).totalResponseMs := by
  induction l generalizing acc with
  | nil => simpa using h
  | cons p rest ih =>
    simp only [List.foldl_cons]
    apply ih
    simp only [aggStep]
    unfold wrapInt64
    omega

theorem foldl_aggStep_success (l : List Ping) (acc : AggAcc) :
    (l.foldl aggStep acc).successPings
      = acc.successPings + ((l.filter (fun p => p.Success)).length : Int) := by
  induction l generalizing acc with
  | nil => simp
  | cons p rest ih =>
    simp only [List.foldl_cons]
    rw [ih]
    cases hp : p.Success <;> simp [aggStep, hp, List.filter_cons]
    omega

theorem foldl_aggStep_min_le (l : List Ping) (acc : AggAcc) :
    (l.foldl aggStep acc).minResponseMs ≤ acc.minResponseMs
    ∧ ∀ p ∈ l, (l.foldl aggStep acc).minResponseMs ≤ p.ResponseMs := by
  induction l generalizing acc with
  | nil => simp
  | cons q rest ih =>
    simp only [List.foldl_cons]
    obtain ⟨h1, h2⟩ := ih (aggStep acc q)
    have hstep : (aggStep acc q).minResponseMs ≤ acc.minResponseMs
        ∧ (aggStep acc q).minResponseMs ≤ q.ResponseMs := by
      simp only [aggStep]
      split <;> omega
    refine ⟨le_trans h1 hstep.1, ?_⟩
    intro p hp
    rcases List.mem_cons.mp hp with rfl | hp
    · exact le_trans h1 hstep.2
    · exact h2 p hp

theorem foldl_aggStep_min_mem (l : List Ping) (acc : AggAcc) :
    (l.foldl aggStep acc).minResponseMs = acc.minResponseMs
    ∨ ∃ p ∈ l, (l.foldl aggStep acc).minResponseMs = p.ResponseMs := by
  induction l generalizing acc with
  | nil => simp
  | cons q rest ih =>
    simp only [List.foldl_cons]
    rcases ih (aggStep acc q) with h | ⟨p, hp, h⟩
    · rw [h]
      simp only [aggStep]
      split
      · exact Or.inr ⟨q, List.mem_cons_self _ _, rfl⟩
      · exact Or.inl rfl
    · exact Or.inr ⟨p, List.mem_cons_of_mem _ hp, h⟩

theorem foldl_aggStep_max_ge (l : List Ping) (acc : AggAcc) :
    acc.maxResponseMs ≤ (l.foldl aggStep acc).maxResponseMs
    ∧ ∀ p ∈ l, p.ResponseMs ≤ (l.foldl aggStep acc).maxResponseMs := by
  induction l generalizing acc with
  | nil => simp
  | cons q rest ih =>
    simp only [List.foldl_cons]
    obtain ⟨h1, h2⟩ := ih (aggStep acc q)
    have hstep : acc.maxResponseMs ≤ (aggStep acc q).maxResponseMs
        ∧ q.ResponseMs ≤ (aggStep acc q).maxResponseMs := by
      simp only [aggStep]
      split <;> omega
    refine ⟨le_trans hstep.1 h1, ?_⟩
    intro p hp
    rcases List.mem_cons.mp hp with rfl | hp
    · exact le_trans hstep.2 h1
    · exact h2 p hp

theorem foldl_aggStep_max_mem (l : List Ping) (acc : AggAcc) :
    (l.foldl aggStep acc).maxResponseMs = acc.maxResponseMs
    ∨ ∃ p ∈ l, (l.foldl aggStep acc).maxResponseMs = p.ResponseMs := by
  induction l generalizing acc with
  | nil => simp
  | cons q rest ih =>
    simp only [List.foldl_cons]
    rcases ih (aggStep acc q) with h | ⟨p, hp, h⟩
    · rw [h]
      simp only [aggStep]
      split
      · exact Or.inr ⟨q, List.mem_cons_self _ _, rfl⟩
      · exact Or.inl rfl
    · exact Or.inr ⟨p, List.mem_cons_of_mem _ hp, h⟩

/-- The fields of the window built from a non-empty list of pings whose latency
sum fits a Go `int`. -/
theorem buildWindow_fields (ep : UUID) (ws we : Time) (p0 : Ping) (rest : List Ping)
    (hfit : -2 ^ 63 ≤ ((p0 :: rest).map (fun p => p.ResponseMs)).sum
      ∧ ((p0 :: rest).map (fun p => p.ResponseMs)).sum < 2 ^ 63) :
    (buildWindow ep ws we p0 (p0 :: rest)).EndpointID = ep
    ∧ (buildWindow ep ws we p0 (p0 :: rest)).WindowStart = ws
    ∧ (buildWindow ep ws we p0 (p0 :: rest)).WindowEnd = we
    ∧ (buildWindow ep ws we p0 (p0 :: rest)).TotalPings = ((p0 :: rest).length : Int)
    ∧ (buildWindow ep ws we p0 (p0 :: rest)).SuccessPings
        = (((p0 :: rest).filter (fun p => p.Success)).length : Int)
    ∧ (buildWindow ep ws we p0 (p0 :: rest)).AvgResponseMs
        = Int.tdiv ((p0 :: rest).map (fun p => p.ResponseMs)).sum ((p0 :: rest).length : Int)
    ∧ (∃ p ∈ p0 :: rest, (buildWindow ep ws we p0 (p0 :: rest)).MinResponseMs = p.ResponseMs)
    ∧ (∀ p ∈ p0 :: rest, (buildWindow ep ws we p0 (p0 :: rest)).MinResponseMs ≤ p.ResponseMs)
    ∧ (∃ p ∈ p0 :: rest, (buildWindow ep ws we p0 (p0 :: rest)).MaxResponseMs = p.ResponseMs)
    ∧ (∀ p ∈ p0 :: rest, p.ResponseMs ≤ (buildWindow ep ws we p0 (p0 :: rest)).MaxResponseMs) := by
  have htot : ((p0 :: rest).foldl aggStep ⟨0, 0, p0.ResponseMs, p0.ResponseMs⟩).totalResponseMs
      = ((p0 :: rest).map (fun p => p.ResponseMs)).sum := by
    rw [← foldl_aggStep_total_wrapped (p0 :: rest) ⟨0, 0, p0.ResponseMs, p0.ResponseMs⟩
      (by simp only [wrapInt64]; omega)]
    rw [foldl_aggStep_total]
    simp only [zero_add]
    exact wrapInt64_of_fits hfit.1 hfit.2
  refine ⟨rfl, rfl, rfl, rfl, ?_, ?_, ?_, ?_, ?_, ?_⟩
  · simp only [buildWindow]
    rw [foldl_aggStep_success]
    simp
  · simp only [buildWindow]
    rw [htot]
  · simp only [buildWindow]
    rcases foldl_aggStep_min_mem (p0 :: rest) ⟨0, 0, p0.ResponseMs, p0.ResponseMs⟩ with h | h
    · exact ⟨p0, List.mem_cons_self _ _, h⟩
    · exact h
  · simp only [buildWindow]
    exact (foldl_aggStep_min_le (p0 :: rest) ⟨0, 0, p0.ResponseMs, p0.ResponseMs⟩).2
  · simp only [buildWindow]
    rcases foldl_aggStep_max_mem (p0 :: rest) ⟨0, 0, p0.ResponseMs, p0.ResponseMs⟩ with h | h
    · exact ⟨p0, List.mem_cons_self _ _, h⟩
    · exact h
  · simp only [buildWindow]
    exact (foldl_aggStep_max_ge (p0 :: rest) ⟨0, 0, p0.ResponseMs, p0.ResponseMs⟩).2

/-- What `AggregateMetrics` does on a non-empty list of pings when the insert
succeeds. -/
theorem AggregateMetrics_nonempty (db : DB) (env : Env) (ep : UUID) (ws we : Time)
    (p0 : Ping) (rest : List Ping)
    (hlist : db.ListPingsByTimeRange env.listPingsErr ep ws we = .ok (p0 :: rest))
    (hcreate : env.createPingWindowErr = none) :
    AggregateMetrics db env ep ws we =
      ({ db with pingWindows := db.pingWindows ++
          [{ buildWindow ep ws we p0 (p0 :: rest) with ID := env.newID, CreatedAt := env.dbNow }] },
        Ret.nil) := by
  unfold AggregateMetrics
  simp only [hlist, hcreate, DB.CreatePingWindow]

/-- C7: for every non-empty list of pings the store returns for the endpoint and
window (latency sum within the range of a Go `int`), `AggregateMetrics` persists
exactly one window, for that endpoint and those bounds, whose TotalPings is the
number of pings, SuccessPings the number of pings with Success=true,
AvgResponseMs the latency sum divided by the number of pings truncated towards
zero, MinResponseMs the smallest latency and MaxResponseMs the largest. -/
theorem aggregate_persists_one_window (db : DB) (env : Env) (ep : UUID) (ws we : Time)
    (p0 : Ping) (rest : List Ping)
    (hlist : db.ListPingsByTimeRange env.listPingsErr ep ws we = .ok (p0 :: rest))
    (hcreate : env.createPingWindowErr = none)
    (hfit : -2 ^ 63 ≤ ((p0 :: rest).map (fun p => p.ResponseMs)).sum
      ∧ ((p0 :: rest).map (fun p => p.ResponseMs)).sum < 2 ^ 63) :
    ∃ w : PingWindow,
      AggregateMetrics db env ep ws we
          = ({ db with pingWindows := db.pingWindows ++ [w] }, Ret.nil)
      ∧ w.EndpointID = ep ∧ w.WindowStart = ws ∧ w.WindowEnd = we
      ∧ w.TotalPings = ((p0 :: rest).length : Int)
      ∧ w.SuccessPings = (((p0 :: rest).filter (fun p => p.Success)).length : Int)
      ∧ w.AvgResponseMs
          = Int.tdiv ((p0 :: rest).map (fun p => p.ResponseMs)).sum ((p0 :: rest).length : Int)
      ∧ (∃ p ∈ p0 :: rest, w.MinResponseMs = p.ResponseMs)
      ∧ (∀ p ∈ p0 :: rest, w.MinResponseMs ≤ p.ResponseMs)
      ∧ (∃ p ∈ p0 :: rest, w.MaxResponseMs = p.ResponseMs)
      ∧ (∀ p ∈ p0 :: rest, p.ResponseMs ≤ w.MaxResponseMs) :=
  ⟨{ buildWindow ep ws we p0 (p0 :: rest) with ID := env.newID, CreatedAt := env.dbNow },
    AggregateMetrics_nonempty db env ep ws we p0 rest hlist hcreate,
    buildWindow_fields ep ws we p0 rest hfit⟩

/-- Witness of C7, the example of the specification: the probes (200ms, ok),
(400ms, fail), (300ms, ok) give total=3, success=2, avg=300, min=200, max=400. -/
theorem aggregate_persists_one_window_witness :
    pingsDB.ListPingsByTimeRange none 1 0 (5 * Minute)
        = .ok [samplePing 13 300 true (180 * Second), samplePing 12 400 false (120 * Second),
               samplePing 11 200 true (60 * Second)]
    ∧ (∃ w : PingWindow,
        AggregateMetrics pingsDB sampleEnv 1 0 (5 * Minute)
            = ({ pingsDB with pingWindows := pingsDB.pingWindows ++ [w] }, Ret.nil)
        ∧ w.TotalPings = 3 ∧ w.SuccessPings = 2 ∧ w.AvgResponseMs = 300
        ∧ w.MinResponseMs = 200 ∧ w.MaxResponseMs = 400)
    ∧ (AggregateMetrics pingsDB sampleEnv 1 0 (5 * Minute)).1.pingWindows
        = [{ ID := 7, EndpointID := 1, WindowStart := 0, WindowEnd := 5 * Minute,
             TotalPings := 3, SuccessPings := 2, AvgResponseMs := 300, MinResponseMs := 200,
             MaxResponseMs := 400, CreatedAt := 1001 }] := by
  refine ⟨by decide, ?_, by decide⟩
  obtain ⟨w, hw, -, -, -, h4, h5, h6, -, -, -, -⟩ :=
    aggregate_persists_one_window pingsDB sampleEnv 1 0 (5 * Minute)
      (samplePing 13 300 true (180 * Second))
      [samplePing 12 400 false (120 * Second), samplePing 11 200 true (60 * Second)]
      (by decide) rfl (by decide)
  have hconc : (AggregateMetrics pingsDB sampleEnv 1 0 (5 * Minute)).1.pingWindows
      = [{ ID := 7, EndpointID := 1, WindowStart := 0, WindowEnd := 5 * Minute,
           TotalPings := 3, SuccessPings := 2, AvgResponseMs := 300, MinResponseMs := 200,
           MaxResponseMs := 400, CreatedAt := 1001 }] := by decide
  rw [hw] at hconc
  simp only [pingsDB, List.nil_append, List.cons.injEq, and_true] at hconc
  refine ⟨w, hw, ?_⟩
  subst hconc
  exact ⟨rfl, rfl, rfl, rfl, rfl⟩

/-- C8: when the store returns no pings for the endpoint and window,
`AggregateMetrics` persists no window and returns nil; and whatever the store
returns, `AggregateMetrics` either leaves the database as it is or adds exactly
one window, whose TotalPings is at least 1. -/
theorem aggregate_empty_persists_nothing (db : DB) (env : Env) (ep : UUID) (ws we : Time) :
    (db.ListPingsByTimeRange env.listPingsErr ep ws we = .ok [] →
      AggregateMetrics db env ep ws we = (db, Ret.nil))
    ∧ ((AggregateMetrics db env ep ws we).1 = db
      ∨ ∃ w : PingWindow,
          (AggregateMetrics db env ep ws we).1 = { db with pingWindows := db.pingWindows ++ [w] }
          ∧ 1 ≤ w.TotalPings) := by
  constructor
  · intro h
    unfold AggregateMetrics
    simp only [h]
  · unfold AggregateMetrics
    cases db.ListPingsByTimeRange env.listPingsErr ep ws we with
    | error e => exact Or.inl rfl
    | ok pings =>
      cases pings with
      | nil => exact Or.inl rfl
      | cons p0 rest =>
        simp only [DB.CreatePingWindow]
        cases env.createPingWindowErr with
        | some e => exact Or.inl rfl
        | none =>
          refine Or.inr ⟨_, rfl, ?_⟩
          simp only [buildWindow, List.length_cons]
          omega

/-- Witness of C8: the window from 10 to 15 minutes holds no ping of endpoint 1. -/
theorem aggregate_empty_persists_nothing_witness :
    pingsDB.ListPingsByTimeRange sampleEnv.listPingsErr 1 (10 * Minute) (15 * Minute) = .ok []
    ∧ AggregateMetrics pingsDB sampleEnv 1 (10 * Minute) (15 * Minute) = (pingsDB, Ret.nil) :=
  ⟨by decide,
    (aggregate_empty_persists_nothing pingsDB sampleEnv 1 (10 * Minute) (15 * Minute)).1
      (by decide)⟩

/-! ## Aggregation windows -/

theorem minute_eq : Minute = (60000000000 : Int) := by
  simp [Minute, Second, Millisecond]

theorem aggregateWindow_snd (now : Time) :
    (aggregateWindow now).2 = (now - now % 300000000000 : Int) := by
  simp only [aggregateWindow, Time.Truncate, minute_eq]
  rw [if_neg (by decide)]
  simp only [Time, Duration]
  norm_num

theorem aggregateWindow_fst (now : Time) :
    (aggregateWindow now).1 = (now - now % 300000000000 - 300000000000 : Int) := by
  simp only [aggregateWindow, Time.Truncate, Time.Add, minute_eq]
  rw [if_neg (by decide)]
  simp only [Time, Duration]
  norm_num
  omega

theorem mem_aggregateIteration {e : AggregateIterEnv} {id : UUID} {ws we : Time}
    (h : WorkflowEvent.AggregateMetrics id ws we ∈ aggregateIteration e) :
    ws = (aggregateWindow e.now).1 ∧ we = (aggregateWindow e.now).2 := by
  simp only [aggregateIteration, List.mem_append, List.mem_singleton] at h
  rcases h with (h | h) | h
  · cases h
  · cases hg : e.getEnabledEndpoints with
    | error err => rw [hg] at h; simp at h
    | ok eps =>
      rw [hg] at h
      simp only [List.mem_flatten, List.mem_map] at h
      obtain ⟨l, ⟨a, -, rfl⟩, hl⟩ := h
      rcases List.mem_cons.mp hl with hl | hl
      · cases hl
        exact ⟨rfl, rfl⟩
      · split at hl <;> simp at hl
  · cases h

theorem mem_AggregateMetricsWorkflow {envs : List AggregateIterEnv} {ev : WorkflowEvent}
    (h : ev ∈ (AggregateMetricsWorkflow envs).1)
    (hev : ∀ msg, ev ≠ WorkflowEvent.LogInfo msg) :
    ∃ e ∈ envs, ev ∈ aggregateIteration e := by
  induction envs with
  | nil => simp [AggregateMetricsWorkflow] at h
  | cons e rest ih =>
    simp only [AggregateMetricsWorkflow] at h
    cases hs : e.sleep with
    | some err =>
      rw [hs] at h
      simp only [List.mem_append, List.mem_singleton] at h
      rcases h with h | h
      · exact ⟨e, List.mem_cons_self _ _, h⟩
      · exact absurd h (hev _)
    | none =>
      rw [hs] at h
      simp only [List.mem_append] at h
      rcases h with h | h
      · exact ⟨e, List.mem_cons_self _ _, h⟩
      · obtain ⟨e2, he2, hmem⟩ := ih h
        exact ⟨e2, List.mem_cons_of_mem _ he2, hmem⟩

/-- C9: for every value of `now`, an iteration of `AggregateMetricsWorkflow`
computes windowEnd as the greatest multiple of 5 minutes not after `now`
(windowEnd <= now < windowEnd + 5 min) and windowStart = windowEnd - 5 min, so
start < end and the window is exactly 5 minutes long; every `AggregateMetrics`
activity the workflow starts carries the bounds computed from the `now` of its
iteration, the same for every endpoint of that iteration, and every endpoint of
the iteration gets one. -/
theorem aggregate_window_bounds (now : Time) (envs : List AggregateIterEnv) :
    ((5 * Minute ∣ (aggregateWindow now).2)
      ∧ (aggregateWindow now).2 ≤ now
      ∧ now < (aggregateWindow now).2 + 5 * Minute
      ∧ (∀ m : Time, 5 * Minute ∣ m → m ≤ now → m ≤ (aggregateWindow now).2)
      ∧ (aggregateWindow now).1 = (aggregateWindow now).2 - 5 * Minute
      ∧ (aggregateWindow now).1 < (aggregateWindow now).2
      ∧ (aggregateWindow now).2 - (aggregateWindow now).1 = 5 * Minute)
    ∧ (∀ id ws we, WorkflowEvent.AggregateMetrics id ws we ∈ (AggregateMetricsWorkflow envs).1 →
        ∃ e ∈ envs, ws = (aggregateWindow e.now).1 ∧ we = (aggregateWindow e.now).2
          ∧ ∀ id2 ws2 we2, WorkflowEvent.AggregateMetrics id2 ws2 we2 ∈ aggregateIteration e →
              ws2 = ws ∧ we2 = we)
    ∧ (∀ e : AggregateIterEnv, ∀ eps, e.getEnabledEndpoints = .ok eps → ∀ id ∈ eps,
        WorkflowEvent.AggregateMetrics id (aggregateWindow e.now).1 (aggregateWindow e.now).2
          ∈ aggregateIteration e) := by
  refine ⟨?_, ?_, ?_⟩
  · rw [aggregateWindow_snd, aggregateWindow_fst, minute_eq]
    simp only [Time, Duration]
    refine ⟨by omega, by omega, by omega, ?_, by omega, by omega, by omega⟩
    intro m hm hle
    omega
  · intro id ws we h
    obtain ⟨e, he, hmem⟩ := mem_AggregateMetricsWorkflow h (by intro msg hc; cases hc)
    obtain ⟨h1, h2⟩ := mem_aggregateIteration hmem
    refine ⟨e, he, h1, h2, ?_⟩
    intro id2 ws2 we2 h3
    obtain ⟨h4, h5⟩ := mem_aggregateIteration h3
    exact ⟨h4.trans h1.symm, h5.trans h2.symm⟩
  · intro e eps hg id hid
    simp only [aggregateIteration, hg, List.mem_append, List.mem_singleton, List.mem_flatten,
      List.mem_map]
    exact Or.inl (Or.inr ⟨_, ⟨id, hid, rfl⟩, List.mem_cons_self _ _⟩)

/-- Witness of C9: the iteration waking at 4 min 59 s asks for the window from
-5 min to 0 for endpoint 1. -/
theorem aggregate_window_bounds_witness :
    WorkflowEvent.AggregateMetrics 1 (-(5 * Minute)) 0
      ∈ (AggregateMetricsWorkflow [aggIter (299 * Second), aggIter (601 * Second)]).1
    ∧ ∃ e ∈ [aggIter (299 * Second), aggIter (601 * Second)],
        -(5 * Minute) = (aggregateWindow e.now).1 ∧ (0 : Time) = (aggregateWindow e.now).2
          ∧ ∀ id2 ws2 we2, WorkflowEvent.AggregateMetrics id2 ws2 we2 ∈ aggregateIteration e →
              ws2 = -(5 * Minute) ∧ we2 = 0 :=
  ⟨by decide,
    (aggregate_window_bounds 0 [aggIter (299 * Second), aggIter (601 * Second)]).2.1
      1 (-(5 * Minute)) 0 (by decide)⟩

/-- C10 as stated fails: an iteration waking at 4 min 59 s whose activities take
2 s is followed, after a 5-minute sleep without jitter, by one waking at
10 min 01 s; the first asks for the window ending at 0, the second for the
window starting at 5 min, and the window from 0 to 5 min is never asked for. -/
theorem successive_windows_counterexample :
    601 * Second = 299 * Second + 2 * Second + 5 * Minute + 0
    ∧ (AggregateMetricsWorkflow [aggIter (299 * Second), aggIter (601 * Second)]).1
        = [WorkflowEvent.GetEnabledEndpoints,
           WorkflowEvent.AggregateMetrics 1 (-(5 * Minute)) 0,
           WorkflowEvent.Sleep (5 * Minute),
           WorkflowEvent.GetEnabledEndpoints,
           WorkflowEvent.AggregateMetrics 1 (5 * Minute) (10 * Minute),
           WorkflowEvent.Sleep (5 * Minute)]
    ∧ (aggregateWindow (aggIter (601 * Second)).now).1
        ≠ (aggregateWindow (aggIter (299 * Second)).now).2 := by
  decide

/-- The amended C10: for two successive iterations of `AggregateMetricsWorkflow`,
the later one waking `busy + 5 min + jitter` after the earlier one (`busy` the
time the activities take, `jitter` the delay of the wake-up, both >= 0), the
later windowStart equals the earlier windowEnd exactly when `busy + jitter` is
less than the time left from the earlier `now` to the next 5-minute boundary;
otherwise the later windowStart is at least 5 minutes after the earlier
windowEnd, so at least one 5-minute window is skipped. -/
theorem successive_windows_contiguous_iff (e1 e2 : AggregateIterEnv) (busy jitter : Duration)
    (hbusy : 0 ≤ busy) (hjitter : 0 ≤ jitter)
    (hnext : e2.now = e1.now + busy + 5 * Minute + jitter) :
    ((aggregateWindow e2.now).1 = (aggregateWindow e1.now).2
      ↔ e1.now % (5 * Minute) + busy + jitter < 5 * Minute)
    ∧ (¬ (e1.now % (5 * Minute) + busy + jitter < 5 * Minute) →
        (aggregateWindow e1.now).2 + 5 * Minute ≤ (aggregateWindow e2.now).1) := by
  rw [aggregateWindow_snd, aggregateWindow_fst, hnext, minute_eq]
  simp only [Time, Duration] at *
  constructor
  · constructor <;> intro h <;> omega
  · intro h
    omega

/-- Witness of the amended C10: waking at 1 min, with 2 s of activities and 1 s
of jitter, the next window starts where the previous one ended. -/
theorem successive_windows_contiguous_iff_witness :
    (aggIter (363 * Second)).now
        = (aggIter (60 * Second)).now + 2 * Second + 5 * Minute + 1 * Second
    ∧ ((aggregateWindow (aggIter (363 * Second)).now).1
          = (aggregateWindow (aggIter (60 * Second)).now).2
        ↔ (aggIter (60 * Second)).now % (5 * Minute) + 2 * Second + 1 * Second < 5 * Minute)
    ∧ (aggregateWindow (aggIter (363 * Second)).now).1
          = (aggregateWindow (aggIter (60 * Second)).now).2 :=
  ⟨by decide,
    (successive_windows_contiguous_iff (aggIter (60 * Second)) (aggIter (363 * Second))
      (2 * Second) (1 * Second) (by decide) (by decide) (by decide)).1,
    by decide⟩

theorem aggregateWindow_mono_step {a b : Time} (h : a + 5 * Minute ≤ b) :
    (aggregateWindow a).2 ≤ (aggregateWindow b).1
    ∧ aggregateWindow a ≠ aggregateWindow b := by
  have h1 : (aggregateWindow a).2 ≤ (aggregateWindow b).1 := by
    rw [aggregateWindow_snd, aggregateWindow_fst]
    rw [minute_eq] at h
    simp only [Time, Duration] at *
    omega
  refine ⟨h1, ?_⟩
  intro heq
  have h2 : (aggregateWindow a).1 < (aggregateWindow a).2 := by
    rw [aggregateWindow_snd, aggregateWindow_fst]
    simp only [Time, Duration] at *
    omega
  rw [heq] at h2
  rw [heq] at h1
  exact absurd h1 (not_le.mpr h2)

/-- C11: in a run of `AggregateMetricsWorkflow` in which every iteration wakes at
least 5 minutes after the one before it (the sleep lasts at least 5 minutes),
the windowStart of every later iteration is at or after the windowEnd of every
earlier one, for successive iterations in particular, and no two iterations
compute the same window. -/
theorem successive_windows_do_not_overlap (envs : List AggregateIterEnv)
    (hsleep : List.Chain' (fun a b : AggregateIterEnv => a.now + 5 * Minute ≤ b.now) envs) :
    List.Pairwise
      (fun a b : AggregateIterEnv =>
        (aggregateWindow a.now).2 ≤ (aggregateWindow b.now).1
          ∧ aggregateWindow a.now ≠ aggregateWindow b.now) envs := by
  haveI : IsTrans AggregateIterEnv (fun a b => a.now + 5 * Minute ≤ b.now) :=
    ⟨fun a b c hab hbc => by
      rw [minute_eq] at hab hbc ⊢
      simp only [Time, Duration] at *
      omega⟩
  have hp := List.chain'_iff_pairwise.mp hsleep
  exact hp.imp (fun {a b} h => aggregateWindow_mono_step h)

/-- Witness of C11: iterations waking at 4:59, 10:01 and 15:05. -/
theorem successive_windows_do_not_overlap_witness :
    List.Chain' (fun a b : AggregateIterEnv => a.now + 5 * Minute ≤ b.now)
      [aggIter (299 * Second), aggIter (601 * Second), aggIter (905 * Second)]
    ∧ List.Pairwise
      (fun a b : AggregateIterEnv =>
        (aggregateWindow a.now).2 ≤ (aggregateWindow b.now).1
          ∧ aggregateWindow a.now ≠ aggregateWindow b.now)
      [aggIter (299 * Second), aggIter (601 * Second), aggIter (905 * Second)] :=
  ⟨List.chain'_cons.mpr ⟨by decide, List.chain'_cons.mpr ⟨by decide, List.chain'_singleton _⟩⟩,
    successive_windows_do_not_overlap
      [aggIter (299 * Second), aggIter (601 * Second), aggIter (905 * Second)]
      (List.chain'_cons.mpr ⟨by decide, List.chain'_cons.mpr ⟨by decide, List.chain'_singleton _⟩⟩)⟩

/-- C12 at its failing input: a ping of endpoint 1 stored exactly at 5:00 is
returned by `ListPingsByTimeRange` for the window 0:00..5:00 and for the window
5:00..10:00, the two windows the workflow asks for when it wakes at 5:01 and at
10:01, and `AggregateMetrics` counts it in both persisted windows. -/
theorem boundary_ping_counted_twice :
    (AggregateMetricsWorkflow [aggIter (301 * Second), aggIter (601 * Second)]).1
        = [WorkflowEvent.GetEnabledEndpoints,
           WorkflowEvent.AggregateMetrics 1 0 (5 * Minute),
           WorkflowEvent.Sleep (5 * Minute),
           WorkflowEvent.GetEnabledEndpoints,
           WorkflowEvent.AggregateMetrics 1 (5 * Minute) (10 * Minute),
           WorkflowEvent.Sleep (5 * Minute)]
    ∧ boundaryDB.ListPingsByTimeRange none 1 0 (5 * Minute)
        = .ok [samplePing 21 250 true (5 * Minute)]
    ∧ boundaryDB.ListPingsByTimeRange none 1 (5 * Minute) (10 * Minute)
        = .ok [samplePing 21 250 true (5 * Minute)]
    ∧ ((AggregateMetrics (AggregateMetrics boundaryDB sampleEnv 1 0 (5 * Minute)).1 sampleEnv 1
          (5 * Minute) (10 * Minute)).1.pingWindows.map
        (fun w => (w.WindowStart, w.WindowEnd, w.TotalPings)))
        = [(0, 5 * Minute, 1), (5 * Minute, 10 * Minute, 1)] := by
  decide

/-! ## Probe executor -/

/-- What `PingEndpoint` does once the endpoint is read and the request built. -/
theorem PingEndpoint_attempt (db : DB) (env : Env) (probe : ProbeEnv) (ep : UUID)
    (endpoint : ServiceEndpoint)
    (hexists : db.GetEndpoint env.getEndpointErr ep = .ok endpoint)
    (hreq : probe.newRequestErr = none) :
    (PingEndpoint db env probe ep).created =
        [{ pingOfResult ep (classify ep endpoint.ExpectedCode probe.attempt probe.responseMs) with
            ID := env.newID, CreatedAt := env.dbNow }]
    ∧ (PingEndpoint db env probe ep).requests =
        [{ Method := endpoint.Method, URL := endpoint.URL,
           Header := probeHeader env.http endpoint.Headers,
           Timeout := endpoint.TimeoutMs * Millisecond }]
    ∧ (probe.createPingErr = none →
        (PingEndpoint db env probe ep).db =
            { db with pings := db.pings ++
                [{ pingOfResult ep
                    (classify ep endpoint.ExpectedCode probe.attempt probe.responseMs) with
                    ID := env.newID, CreatedAt := env.dbNow }] }
        ∧ (PingEndpoint db env probe ep).ret =
            .ok (classify ep endpoint.ExpectedCode probe.attempt probe.responseMs))
    ∧ (∀ e, probe.createPingErr = some e →
        (PingEndpoint db env probe ep).db = db
        ∧ (PingEndpoint db env probe ep).ret = .error (Err.wrap "failed to save ping" e)) := by
  unfold PingEndpoint
  simp only [hexists, hreq, DB.CreatePing]
  cases probe.createPingErr with
  | none => simp
  | some e => simp

/-- An attempt of `PingEndpoint` that returns an error leaves the database as it
was. -/
theorem PingEndpoint_error_db (db : DB) (env : Env) (probe : ProbeEnv) (ep : UUID) (e : Err)
    (h : (PingEndpoint db env probe ep).ret = .error e) :
    (PingEndpoint db env probe ep).db = db := by
  unfold PingEndpoint at h ⊢
  cases hg : db.GetEndpoint env.getEndpointErr ep with
  | error e1 => simp
  | ok endpoint =>
    cases hr : probe.newRequestErr with
    | some e2 => simp
    | none =>
      simp only [hg, hr, DB.CreatePing] at h ⊢
      cases hc : probe.createPingErr with
      | some e3 => simp
      | none => simp [hc] at h

theorem classify_success (ep : UUID) (expected : Int) (attempt : HTTPOutcome) (ms : Int) :
    ((classify ep expected attempt ms).Success = true
        ↔ ∃ code, attempt = HTTPOutcome.response code ∧ code = expected)
    ∧ (∀ msg, attempt = HTTPOutcome.error msg →
        (classify ep expected attempt ms).Success = false
        ∧ (classify ep expected attempt ms).StatusCode = 0)
    ∧ (∀ code, attempt = HTTPOutcome.response code →
        (classify ep expected attempt ms).StatusCode = code) := by
  cases attempt with
  | error msg => simp [classify]
  | response code => simp [classify]

/-- C13: for every endpoint and every HTTP attempt, `PingEndpoint` returns a
result when the ping insert succeeds, and every result it returns has
Success=true exactly when a response was received whose status code equals the
endpoint's expected code; when no response was received it has Success=false
and StatusCode=0, and otherwise StatusCode is the status code of the response. -/
theorem ping_result_classification (db : DB) (env : Env) (probe : ProbeEnv) (ep : UUID)
    (endpoint : ServiceEndpoint)
    (hexists : db.GetEndpoint env.getEndpointErr ep = .ok endpoint)
    (hreq : probe.newRequestErr = none) :
    (probe.createPingErr = none → ∃ result, (PingEndpoint db env probe ep).ret = .ok result)
    ∧ ∀ result, (PingEndpoint db env probe ep).ret = .ok result →
        (result.Success = true
          ↔ ∃ code, probe.attempt = HTTPOutcome.response code ∧ code = endpoint.ExpectedCode)
        ∧ (∀ msg, probe.attempt = HTTPOutcome.error msg →
            result.Success = false ∧ result.StatusCode = 0)
        ∧ (∀ code, probe.attempt = HTTPOutcome.response code → result.StatusCode = code) := by
  obtain ⟨-, -, hok, herr⟩ := PingEndpoint_attempt db env probe ep endpoint hexists hreq
  refine ⟨fun hc => ⟨_, (hok hc).2⟩, ?_⟩
  intro result hres
  cases hc : probe.createPingErr with
  | some e =>
    rw [(herr e hc).2] at hres
    cases hres
  | none =>
    rw [(hok hc).2] at hres
    cases hres
    exact classify_success ep endpoint.ExpectedCode probe.attempt probe.responseMs

/-- Witness of C13: a 200 response, a 500 response and a transport error on the
sample endpoint, which expects 200. -/
theorem ping_result_classification_witness :
    (sampleDB []).GetEndpoint sampleEnv.getEndpointErr 1 = .ok sampleEndpoint
    ∧ (∃ result, (PingEndpoint (sampleDB []) sampleEnv (probeResponse 200) 1).ret = .ok result)
    ∧ (PingEndpoint (sampleDB []) sampleEnv (probeResponse 200) 1).ret
        = .ok { EndpointID := 1, StatusCode := 200, ResponseMs := 120, Success := true,
                Error := "" }
    ∧ (PingEndpoint (sampleDB []) sampleEnv (probeResponse 500) 1).ret
        = .ok { EndpointID := 1, StatusCode := 500, ResponseMs := 120, Success := false,
                Error := "Expected status 200 but got 500" }
    ∧ (PingEndpoint (sampleDB []) sampleEnv probeTransportError 1).ret
        = .ok { EndpointID := 1, StatusCode := 0, ResponseMs := 5000, Success := false,
                Error := "dial tcp: connection refused" } :=
  ⟨by decide,
    (ping_result_classification (sampleDB []) sampleEnv (probeResponse 200) 1 sampleEndpoint
      (by decide) rfl).1 rfl,
    by decide, by decide, by decide⟩

/-- C14: for every outcome of the HTTP attempt, successful or failed,
`PingEndpoint` hands exactly one ping to `DB.CreatePing`, whose endpoint id,
status code, latency and success flag are those of the outcome and whose error
text is present exactly when the outcome's error is non-empty (and is then that
text); when the insert succeeds the ping is appended to the table and the same
outcome is returned. -/
theorem ping_persisted_unconditionally (db : DB) (env : Env) (probe : ProbeEnv) (ep : UUID)
    (endpoint : ServiceEndpoint)
    (hexists : db.GetEndpoint env.getEndpointErr ep = .ok endpoint)
    (hreq : probe.newRequestErr = none) :
    ∃ ping : Ping,
      (PingEndpoint db env probe ep).created = [ping]
      ∧ ping.EndpointID = ep
      ∧ ping.EndpointID
          = (classify ep endpoint.ExpectedCode probe.attempt probe.responseMs).EndpointID
      ∧ ping.StatusCode
          = (classify ep endpoint.ExpectedCode probe.attempt probe.responseMs).StatusCode
      ∧ ping.ResponseMs
          = (classify ep endpoint.ExpectedCode probe.attempt probe.responseMs).ResponseMs
      ∧ ping.Success
          = (classify ep endpoint.ExpectedCode probe.attempt probe.responseMs).Success
      ∧ (ping.Error.isSome = true
          ↔ (classify ep endpoint.ExpectedCode probe.attempt probe.responseMs).Error ≠ "")
      ∧ (∀ text, ping.Error = some text →
          text = (classify ep endpoint.ExpectedCode probe.attempt probe.responseMs).Error)
      ∧ (probe.createPingErr = none →
          (PingEndpoint db env probe ep).db = { db with pings := db.pings ++ [ping] }
          ∧ (PingEndpoint db env probe ep).ret =
              .ok (classify ep endpoint.ExpectedCode probe.attempt probe.responseMs)) := by
  obtain ⟨hcreated, -, hok, -⟩ := PingEndpoint_attempt db env probe ep endpoint hexists hreq
  refine ⟨_, hcreated, ?_, ?_, rfl, rfl, rfl, ?_, ?_, hok⟩
  · simp [pingOfResult]
  · cases probe.attempt <;> simp [pingOfResult, classify]
  · simp only [pingOfResult]
    split <;> simp_all
  · intro text ht
    simp only [pingOfResult] at ht
    split at ht
    · cases ht; rfl
    · cases ht

/-- Witness of C14: a transport error on the sample endpoint is stored as a
failed ping with status code 0 and its error text. -/
theorem ping_persisted_unconditionally_witness :
    (sampleDB []).GetEndpoint sampleEnv.getEndpointErr 1 = .ok sampleEndpoint
    ∧ (∃ ping : Ping,
        (PingEndpoint (sampleDB []) sampleEnv probeTransportError 1).created = [ping]
        ∧ ping.EndpointID = 1)
    ∧ (PingEndpoint (sampleDB []) sampleEnv probeTransportError 1).db.pings
        = [{ ID := 7, EndpointID := 1, StatusCode := 0, ResponseMs := 5000, Success := false,
             Error := some "dial tcp: connection refused", CreatedAt := 1001 }] := by
  refine ⟨by decide, ?_, by decide⟩
  obtain ⟨ping, h1, h2, -⟩ :=
    ping_persisted_unconditionally (sampleDB []) sampleEnv probeTransportError 1 sampleEndpoint
      (by decide) rfl
  exact ⟨ping, h1, h2⟩

/-! ## Monitor loop -/

theorem runAttempts_first_ok {α : Type} (run : Nat → DB → DB × Except Err α) (db db1 : DB) (a : α)
    (h : run 0 db = (db1, .ok a)) :
    runAttempts run MaximumAttempts 0 db = (db1, 1, .ok a) := by
  simp [MaximumAttempts, runAttempts, h]

theorem runAttempts_second_ok {α : Type} (run : Nat → DB → DB × Except Err α) (db db1 db2 : DB)
    (e : Err) (a : α) (h0 : run 0 db = (db1, .error e)) (h1 : run 1 db1 = (db2, .ok a)) :
    runAttempts run MaximumAttempts 0 db = (db2, 2, .ok a) := by
  simp [MaximumAttempts, runAttempts, h0, h1]

theorem runAttempts_all_error {α : Type} (run : Nat → DB → DB × Except Err α) (db db1 db2 db3 : DB)
    (e0 e1 e2 : Err) (h0 : run 0 db = (db1, .error e0)) (h1 : run 1 db1 = (db2, .error e1))
    (h2 : run 2 db2 = (db3, .error e2)) :
    runAttempts run MaximumAttempts 0 db = (db3, 3, .error e2) := by
  simp [MaximumAttempts, runAttempts, h0, h1, h2]

theorem PingEndpoint_frame (db : DB) (env : Env) (probe : ProbeEnv) (ep : UUID) :
    (PingEndpoint db env probe ep).db.incidents = db.incidents
    ∧ (PingEndpoint db env probe ep).db.endpoints = db.endpoints := by
  unfold PingEndpoint
  cases db.GetEndpoint env.getEndpointErr ep with
  | error e1 => simp
  | ok endpoint =>
    cases probe.newRequestErr with
    | some e2 => simp
    | none =>
      simp only [DB.CreatePing]
      cases probe.createPingErr <;> simp

theorem pingAttempt_error (e : MonitorIterEnv) (ep : UUID) (k : Nat) (db : DB) (err : Err)
    (h : (PingEndpoint db (e.ping k).1 (e.ping k).2 ep).ret = .error err) :
    pingAttempt e ep k db = (db, .error err) := by
  simp only [pingAttempt, h, PingEndpoint_error_db db _ _ ep err h]

theorem pingAttempt_ok (e : MonitorIterEnv) (ep : UUID) (k : Nat) (db : DB) (result : PingResult)
    (h : (PingEndpoint db (e.ping k).1 (e.ping k).2 ep).ret = .ok result) :
    pingAttempt e ep k db = ((PingEndpoint db (e.ping k).1 (e.ping k).2 ep).db, .ok result) := by
  simp only [pingAttempt, h]

/-- An iteration whose probe activity ends in an outcome hands the outcome's
Success flag to `CheckIncidentStatus`. -/
theorem monitorIteration_of_ping_ok (db db1 : DB) (ep : UUID) (iv : Int) (e : MonitorIterEnv)
    (n1 : Nat) (result : PingResult)
    (h : runAttempts (pingAttempt e ep) MaximumAttempts 0 db = (db1, n1, .ok result)) :
    (monitorIteration db ep iv e).pingAttempts = n1
    ∧ (monitorIteration db ep iv e).events.take 2
        = [WorkflowEvent.PingEndpoint ep, WorkflowEvent.CheckIncidentStatus ep result.Success]
    ∧ (∀ db2, checkAttempt e ep result.Success 0 db1 = (db2, .ok ()) →
        monitorIteration db ep iv e =
          { db := db2, pingAttempts := n1, checkAttempts := 1,
            events := [WorkflowEvent.PingEndpoint ep,
                       WorkflowEvent.CheckIncidentStatus ep result.Success,
                       WorkflowEvent.Sleep (iv * Second)] }) := by
  refine ⟨?_, ?_, ?_⟩
  · unfold monitorIteration
    rw [h]
    simp only []
    split <;> rfl
  · unfold monitorIteration
    rw [h]
    simp only []
    split <;> rfl
  · intro db2 hc
    unfold monitorIteration
    rw [h]
    simp only []
    rw [runAttempts_first_ok _ db1 db2 () hc]

/-- The amended C15: in one iteration of `MonitorEndpointWorkflow`, (a) when the
first `PingEndpoint` attempt returns an error and the second returns an
outcome, the activity has been retried and the second attempt's Success flag
is what reaches `CheckIncidentStatus`; if that flag is true and the endpoint
has no open incident, no incident is created; (b) a transport error or timeout
of the first attempt's HTTP request (endpoint read, request built, ping
stored) is an outcome with Success=false: there is one attempt only and
`CheckIncidentStatus` receives false. -/
theorem monitor_retry_on_activity_error_only (db : DB) (ep : UUID) (iv : Int)
    (e : MonitorIterEnv) :
    (∀ err result,
      (PingEndpoint db (e.ping 0).1 (e.ping 0).2 ep).ret = .error err →
      (PingEndpoint db (e.ping 1).1 (e.ping 1).2 ep).ret = .ok result →
        (monitorIteration db ep iv e).pingAttempts = 2
        ∧ (monitorIteration db ep iv e).events.take 2
            = [WorkflowEvent.PingEndpoint ep, WorkflowEvent.CheckIncidentStatus ep result.Success]
        ∧ (result.Success = true → openIncidents db ep = [] →
            (monitorIteration db ep iv e).db.incidents = db.incidents))
    ∧ (∀ endpoint msg,
      db.GetEndpoint (e.ping 0).1.getEndpointErr ep = .ok endpoint →
      (e.ping 0).2.newRequestErr = none →
      (e.ping 0).2.createPingErr = none →
      (e.ping 0).2.attempt = HTTPOutcome.error msg →
        (monitorIteration db ep iv e).pingAttempts = 1
        ∧ (monitorIteration db ep iv e).events.take 2
            = [WorkflowEvent.PingEndpoint ep, WorkflowEvent.CheckIncidentStatus ep false]) := by
  constructor
  · intro err result h0 h1
    have hrun := runAttempts_second_ok (pingAttempt e ep) db db
      (PingEndpoint db (e.ping 1).1 (e.ping 1).2 ep).db err result
      (pingAttempt_error e ep 0 db err h0) (pingAttempt_ok e ep 1 db result h1)
    obtain ⟨ha, hb, hc⟩ := monitorIteration_of_ping_ok db _ ep iv e 2 result hrun
    refine ⟨ha, hb, ?_⟩
    intro hs hnone
    have hframe := PingEndpoint_frame db (e.ping 1).1 (e.ping 1).2 ep
    have hnone1 : openIncidents (PingEndpoint db (e.ping 1).1 (e.ping 1).2 ep).db ep = [] := by
      rw [openIncidents_eq, hframe.1, ← openIncidents_eq]
      exact hnone
    have hcheck : checkAttempt e ep result.Success 0 (PingEndpoint db (e.ping 1).1 (e.ping 1).2 ep).db
        = ((PingEndpoint db (e.ping 1).1 (e.ping 1).2 ep).db, .ok ()) := by
      simp only [checkAttempt, hs]
      rw [CheckIncidentStatus_noop _ (e.check 0) ep true (Or.inr ⟨rfl, hnone1⟩)]
      rfl
    rw [hc _ hcheck]
    exact hframe.1
  · intro endpoint msg hexists hreq hcreate hattempt
    have hret := ((PingEndpoint_attempt db (e.ping 0).1 (e.ping 0).2 ep endpoint hexists hreq).2.2.1
      hcreate).2
    have hrun := runAttempts_first_ok (pingAttempt e ep) db _ _ (pingAttempt_ok e ep 0 db _ hret)
    obtain ⟨ha, hb, -⟩ := monitorIteration_of_ping_ok db _ ep iv e 1 _ hrun
    refine ⟨ha, ?_⟩
    rw [hb, hattempt]
    rfl

/-- Witness of the amended C15: the first attempt cannot store its ping, the
second gets a 200 response; `CheckIncidentStatus` receives true and no incident
is created. -/
theorem monitor_retry_on_activity_error_only_witness :
    (PingEndpoint (sampleDB []) sampleEnv probeStoreDown 1).ret
        = .error (Err.wrap "failed to save ping" (Err.failure "connection refused"))
    ∧ (monitorIteration (sampleDB []) 1 60
        (monitorIter (sampleEnv, probeStoreDown) (sampleEnv, probeResponse 200))).pingAttempts = 2
    ∧ (monitorIteration (sampleDB []) 1 60
        (monitorIter (sampleEnv, probeStoreDown) (sampleEnv, probeResponse 200))).db.incidents = [] :=
  ⟨by decide,
    ((monitor_retry_on_activity_error_only (sampleDB []) 1 60
      (monitorIter (sampleEnv, probeStoreDown) (sampleEnv, probeResponse 200))).1
      (Err.wrap "failed to save ping" (Err.failure "connection refused"))
      { EndpointID := 1, StatusCode := 200, ResponseMs := 120, Success := true, Error := "" }
      (by decide) (by decide)).1,
    by decide⟩

/-- C15 as stated fails: on the sample endpoint with no open incident, the first
probe attempt fails in transport and a second attempt would get a 200
response; `PingEndpoint` runs once, `CheckIncidentStatus` receives false and an
incident is created. -/
theorem transient_probe_failure_counterexample :
    openIncidents (sampleDB []) 1 = []
    ∧ (PingEndpoint (sampleDB []) sampleEnv (probeResponse 200) 1).ret
        = .ok { EndpointID := 1, StatusCode := 200, ResponseMs := 120, Success := true,
                Error := "" }
    ∧ (monitorIteration (sampleDB []) 1 60
        (monitorIter (sampleEnv, probeTransportError) (sampleEnv, probeResponse 200))).pingAttempts
        = 1
    ∧ (monitorIteration (sampleDB []) 1 60
        (monitorIter (sampleEnv, probeTransportError) (sampleEnv, probeResponse 200))).events
        = [WorkflowEvent.PingEndpoint 1, WorkflowEvent.CheckIncidentStatus 1 false,
           WorkflowEvent.Sleep (60 * Second)]
    ∧ (monitorIteration (sampleDB []) 1 60
        (monitorIter (sampleEnv, probeTransportError) (sampleEnv, probeResponse 200))).db.incidents
        = [{ ID := 7, EndpointID := 1, StartedAt := 1000, ResolvedAt := none, Status := "open",
             Message := "Endpoint api is down", CreatedAt := 1001, UpdatedAt := 1002 }] := by
  decide

theorem openIncidents_congr {db1 db2 : DB} (h : db1.incidents = db2.incidents) (ep : UUID) :
    openIncidents db1 ep = openIncidents db2 ep := by
  rw [openIncidents_eq, openIncidents_eq, h]

theorem GetEndpoint_congr {db1 db2 : DB} (h : db1.endpoints = db2.endpoints) (g : Option Err)
    (ep : UUID) : db1.GetEndpoint g ep = db2.GetEndpoint g ep := by
  simp only [DB.GetEndpoint, h]

/-- The amended C16: in one iteration of `MonitorEndpointWorkflow`, (a) when the
`PingEndpoint` activity returns an error on every one of its 3 attempts, the
iteration logs the failure and goes to sleep: `CheckIncidentStatus` is not
called and the database, its incidents included, is as before; (b) when the
first attempt returns an outcome with Success=false, on an existing endpoint
with no open incident and with `CheckIncidentStatus` succeeding, exactly one
open incident is created for the endpoint in that iteration. -/
theorem monitor_incident_on_failed_outcome_only (db : DB) (ep : UUID) (iv : Int)
    (e : MonitorIterEnv) :
    ((∀ k, k < 3 → ∃ err, (PingEndpoint db (e.ping k).1 (e.ping k).2 ep).ret = .error err) →
      monitorIteration db ep iv e =
        { db := db, pingAttempts := 3, checkAttempts := 0,
          events := [WorkflowEvent.PingEndpoint ep,
                     WorkflowEvent.LogError "Failed to ping endpoint",
                     WorkflowEvent.Sleep (iv * Second)] })
    ∧ (∀ result endpoint,
      (PingEndpoint db (e.ping 0).1 (e.ping 0).2 ep).ret = .ok result →
      result.Success = false →
      db.GetEndpoint none ep = .ok endpoint →
      openIncidents db ep = [] →
      (e.check 0).getEndpointErr = none →
      (e.check 0).createIncidentErr = none →
      (e.check 0).listEnabledWebhooksErr = none →
        (monitorIteration db ep iv e).db.incidents = db.incidents ++
          [{ ID := (e.check 0).newID, EndpointID := ep, StartedAt := (e.check 0).now,
             ResolvedAt := none, Status := "open",
             Message := "Endpoint " ++ endpoint.Name ++ " is down",
             CreatedAt := (e.check 0).dbNow, UpdatedAt := (e.check 0).dbNow2 }]
        ∧ (monitorIteration db ep iv e).events
            = [WorkflowEvent.PingEndpoint ep, WorkflowEvent.CheckIncidentStatus ep false,
               WorkflowEvent.Sleep (iv * Second)]) := by
  constructor
  · intro hall
    obtain ⟨e0, h0⟩ := hall 0 (by decide)
    obtain ⟨e1, h1⟩ := hall 1 (by decide)
    obtain ⟨e2, h2⟩ := hall 2 (by decide)
    have hrun := runAttempts_all_error (pingAttempt e ep) db db db db e0 e1 e2
      (pingAttempt_error e ep 0 db e0 h0) (pingAttempt_error e ep 1 db e1 h1)
      (pingAttempt_error e ep 2 db e2 h2)
    unfold monitorIteration
    rw [hrun]
  · intro result endpoint hret hfalse hexists hnone hget hcreate hlist
    have hrun := runAttempts_first_ok (pingAttempt e ep) db _ _ (pingAttempt_ok e ep 0 db _ hret)
    obtain ⟨-, -, hc⟩ := monitorIteration_of_ping_ok db _ ep iv e 1 _ hrun
    have hframe := PingEndpoint_frame db (e.ping 0).1 (e.ping 0).2 ep
    have hexists1 : (PingEndpoint db (e.ping 0).1 (e.ping 0).2 ep).db.GetEndpoint none ep
        = .ok endpoint := by
      rw [GetEndpoint_congr hframe.2]; exact hexists
    have hnone1 : openIncidents (PingEndpoint db (e.ping 0).1 (e.ping 0).2 ep).db ep = [] := by
      rw [openIncidents_congr hframe.1]; exact hnone
    obtain ⟨hdb, -, hnil⟩ := CheckIncidentStatus_failure_creates
      (PingEndpoint db (e.ping 0).1 (e.ping 0).2 ep).db (e.check 0) ep endpoint hexists1 hget
      hnone1 hcreate
    have hcheck : checkAttempt e ep result.Success 0 (PingEndpoint db (e.ping 0).1 (e.ping 0).2 ep).db
        = ((CheckIncidentStatus (PingEndpoint db (e.ping 0).1 (e.ping 0).2 ep).db (e.check 0) ep
              false).db, .ok ()) := by
      simp only [checkAttempt, hfalse, hnil hlist]
      rfl
    rw [hc _ hcheck, hdb, hfalse]
    simp only [hframe.1]
    exact ⟨trivial, trivial⟩

/-- Witness of the amended C16: three attempts that cannot store the ping leave
the incident table empty; one attempt failing in transport creates the
incident. -/
theorem monitor_incident_on_failed_outcome_only_witness :
    (∀ k, k < 3 → ∃ err,
      (PingEndpoint (sampleDB [])
        ((monitorIter (sampleEnv, probeStoreDown) (sampleEnv, probeStoreDown)).ping k).1
        ((monitorIter (sampleEnv, probeStoreDown) (sampleEnv, probeStoreDown)).ping k).2 1).ret
        = .error err)
    ∧ monitorIteration (sampleDB []) 1 60
        (monitorIter (sampleEnv, probeStoreDown) (sampleEnv, probeStoreDown)) =
        { db := sampleDB [], pingAttempts := 3, checkAttempts := 0,
          events := [WorkflowEvent.PingEndpoint 1,
                     WorkflowEvent.LogError "Failed to ping endpoint",
                     WorkflowEvent.Sleep (60 * Second)] }
    ∧ (monitorIteration (sampleDB []) 1 60
        (monitorIter (sampleEnv, probeTransportError) (sampleEnv, probeResponse 200))).db.incidents
        = [] ++
          [{ ID := 7, EndpointID := 1, StartedAt := 1000, ResolvedAt := none, Status := "open",
             Message := "Endpoint " ++ sampleEndpoint.Name ++ " is down",
             CreatedAt := 1001, UpdatedAt := 1002 }] := by
  have hall : ∀ k, k < 3 → ∃ err,
      (PingEndpoint (sampleDB [])
        ((monitorIter (sampleEnv, probeStoreDown) (sampleEnv, probeStoreDown)).ping k).1
        ((monitorIter (sampleEnv, probeStoreDown) (sampleEnv, probeStoreDown)).ping k).2 1).ret
        = .error err := by
    intro k _
    refine ⟨Err.wrap "failed to save ping" (Err.failure "connection refused"), ?_⟩
    by_cases hk : k = 0 <;> simp only [monitorIter, hk, if_true, if_false] <;> decide
  refine ⟨hall, ?_, ?_⟩
  · exact (monitor_incident_on_failed_outcome_only (sampleDB []) 1 60
      (monitorIter (sampleEnv, probeStoreDown) (sampleEnv, probeStoreDown))).1 hall
  · exact ((monitor_incident_on_failed_outcome_only (sampleDB []) 1 60
      (monitorIter (sampleEnv, probeTransportError) (sampleEnv, probeResponse 200))).2
      { EndpointID := 1, StatusCode := 0, ResponseMs := 5000, Success := false,
        Error := "dial tcp: connection refused" } sampleEndpoint
      (by decide) rfl (by decide) (by decide) rfl rfl rfl).1

/-- C16 as stated fails: on the sample endpoint with no open incident, every one
of the 3 attempts of the probe activity fails (the request fails in transport
and the ping cannot be stored); the iteration logs the failure, never calls
`CheckIncidentStatus` and creates no incident. -/
theorem exhausted_retries_counterexample :
    openIncidents (sampleDB []) 1 = []
    ∧ (PingEndpoint (sampleDB []) sampleEnv probeStoreDown 1).ret
        = .error (Err.wrap "failed to save ping" (Err.failure "connection refused"))
    ∧ (monitorIteration (sampleDB []) 1 60
        (monitorIter (sampleEnv, probeStoreDown) (sampleEnv, probeStoreDown))).pingAttempts = 3
    ∧ (monitorIteration (sampleDB []) 1 60
        (monitorIter (sampleEnv, probeStoreDown) (sampleEnv, probeStoreDown))).events
        = [WorkflowEvent.PingEndpoint 1, WorkflowEvent.LogError "Failed to ping endpoint",
           WorkflowEvent.Sleep (60 * Second)]
    ∧ (monitorIteration (sampleDB []) 1 60
        (monitorIter (sampleEnv, probeStoreDown) (sampleEnv, probeStoreDown))).db.incidents = [] := by
  decide

/-! ## The three loops -/

theorem monitorIteration_events (db : DB) (ep : UUID) (iv : Int) (e : MonitorIterEnv) :
    (monitorIteration db ep iv e).events.getLast? = some (WorkflowEvent.Sleep (iv * Second))
    ∧ (monitorIteration db ep iv e).events.filter WorkflowEvent.isSleep
        = [WorkflowEvent.Sleep (iv * Second)] := by
  unfold monitorIteration
  split
  · exact ⟨rfl, rfl⟩
  · split <;> exact ⟨rfl, rfl⟩

theorem MonitorEndpointWorkflow_ret (ep : UUID) (iv : Int) (db : DB) (envs : List MonitorIterEnv) :
    (MonitorEndpointWorkflow ep iv db envs).2.2 = envs.findSome? (fun e => e.sleep) := by
  induction envs generalizing db with
  | nil => rfl
  | cons e rest ih =>
    simp only [MonitorEndpointWorkflow, List.findSome?_cons]
    cases e.sleep with
    | some err => rfl
    | none => exact ih _

theorem MonitorEndpointWorkflow_sleeps (ep : UUID) (iv : Int) (db : DB)
    (envs : List MonitorIterEnv) (h : ∀ e ∈ envs, e.sleep = none) :
    (MonitorEndpointWorkflow ep iv db envs).2.1.filter WorkflowEvent.isSleep
      = List.replicate envs.length (WorkflowEvent.Sleep (iv * Second)) := by
  induction envs generalizing db with
  | nil => rfl
  | cons e rest ih =>
    simp only [MonitorEndpointWorkflow, h e (List.mem_cons_self _ _), List.filter_append,
      (monitorIteration_events _ ep iv e).2, List.length_cons, List.replicate_succ]
    rw [ih _ (fun e2 he2 => h e2 (List.mem_cons_of_mem _ he2))]
    rfl

theorem AggregateMetricsWorkflow_ret (envs : List AggregateIterEnv) :
    (AggregateMetricsWorkflow envs).2 = envs.findSome? (fun e => e.sleep) := by
  induction envs with
  | nil => rfl
  | cons e rest ih =>
    simp only [AggregateMetricsWorkflow, List.findSome?_cons]
    cases e.sleep with
    | some err => rfl
    | none => exact ih

theorem AggregateMetricsWorkflow_events (envs : List AggregateIterEnv)
    (h : ∀ e ∈ envs, e.sleep = none) :
    (AggregateMetricsWorkflow envs).1 = (envs.map aggregateIteration).flatten := by
  induction envs with
  | nil => rfl
  | cons e rest ih =>
    simp only [AggregateMetricsWorkflow, h e (List.mem_cons_self _ _), List.map_cons,
      List.flatten_cons]
    rw [ih (fun e2 he2 => h e2 (List.mem_cons_of_mem _ he2))]

theorem CleanupWorkflow_ret (rd : Int) (envs : List CleanupIterEnv) :
    (CleanupWorkflow rd envs).2 = envs.findSome? (fun e => e.sleep) := by
  induction envs with
  | nil => rfl
  | cons e rest ih =>
    simp only [CleanupWorkflow, List.findSome?_cons]
    cases e.sleep with
    | some err => rfl
    | none => exact ih

theorem CleanupWorkflow_events (rd : Int) (envs : List CleanupIterEnv)
    (h : ∀ e ∈ envs, e.sleep = none) :
    (CleanupWorkflow rd envs).1 = (envs.map (cleanupIteration rd)).flatten := by
  induction envs with
  | nil => rfl
  | cons e rest ih =>
    simp only [CleanupWorkflow, h e (List.mem_cons_self _ _), List.map_cons, List.flatten_cons]
    rw [ih (fun e2 he2 => h e2 (List.mem_cons_of_mem _ he2))]

/-- C17: each of the three loops returns only when its sleep reports
cancellation.  The error a loop returns is the first error reported by a
`workflow.Sleep` of its iterations, whatever the activities of any iteration
return; while no sleep reports an error every supplied iteration runs (one sleep
per iteration in the monitor loop, the iterations' events in sequence in the
other two); and the last step of every iteration is the sleep. -/
theorem loops_return_only_on_cancellation :
    (∀ (ep : UUID) (iv : Int) (db : DB) (envs : List MonitorIterEnv),
      (MonitorEndpointWorkflow ep iv db envs).2.2 = envs.findSome? (fun e => e.sleep)
      ∧ ((∀ e ∈ envs, e.sleep = none) →
          (MonitorEndpointWorkflow ep iv db envs).2.1.filter WorkflowEvent.isSleep
            = List.replicate envs.length (WorkflowEvent.Sleep (iv * Second))))
    ∧ (∀ envs : List AggregateIterEnv,
      (AggregateMetricsWorkflow envs).2 = envs.findSome? (fun e => e.sleep)
      ∧ ((∀ e ∈ envs, e.sleep = none) →
          (AggregateMetricsWorkflow envs).1 = (envs.map aggregateIteration).flatten))
    ∧ (∀ (rd : Int) (envs : List CleanupIterEnv),
      (CleanupWorkflow rd envs).2 = envs.findSome? (fun e => e.sleep)
      ∧ ((∀ e ∈ envs, e.sleep = none) →
          (CleanupWorkflow rd envs).1 = (envs.map (cleanupIteration rd)).flatten))
    ∧ (∀ (db : DB) (ep : UUID) (iv : Int) (e : MonitorIterEnv),
      (monitorIteration db ep iv e).events.getLast? = some (WorkflowEvent.Sleep (iv * Second)))
    ∧ (∀ e : AggregateIterEnv,
      (aggregateIteration e).getLast? = some (WorkflowEvent.Sleep (5 * Minute)))
    ∧ (∀ (rd : Int) (e : CleanupIterEnv),
      (cleanupIteration rd e).getLast? = some (WorkflowEvent.Sleep (24 * Hour))) := by
  refine ⟨?_, ?_, ?_, ?_, ?_, ?_⟩
  · intro ep iv db envs
    exact ⟨MonitorEndpointWorkflow_ret ep iv db envs, MonitorEndpointWorkflow_sleeps ep iv db envs⟩
  · intro envs
    exact ⟨AggregateMetricsWorkflow_ret envs, AggregateMetricsWorkflow_events envs⟩
  · intro rd envs
    exact ⟨CleanupWorkflow_ret rd envs, CleanupWorkflow_events rd envs⟩
  · intro db ep iv e
    exact (monitorIteration_events db ep iv e).1
  · intro e
    unfold aggregateIteration
    exact List.getLast?_concat _
  · intro rd e
    unfold cleanupIteration
    exact List.getLast?_concat _

/-- Witness of C17: a monitor run of two iterations in which every probe attempt
fails and no cancellation arrives sleeps twice and has not returned; a cleanup
run whose activity fails and whose second sleep is cancelled returns that
cancellation. -/
theorem loops_return_only_on_cancellation_witness :
    ((MonitorEndpointWorkflow 1 60 (sampleDB [])
        [monitorIter (sampleEnv, probeStoreDown) (sampleEnv, probeStoreDown),
         monitorIter (sampleEnv, probeStoreDown) (sampleEnv, probeStoreDown)]).2.1.filter
        WorkflowEvent.isSleep
        = List.replicate 2 (WorkflowEvent.Sleep (60 * Second)))
    ∧ (MonitorEndpointWorkflow 1 60 (sampleDB [])
        [monitorIter (sampleEnv, probeStoreDown) (sampleEnv, probeStoreDown),
         monitorIter (sampleEnv, probeStoreDown) (sampleEnv, probeStoreDown)]).2.2 = none
    ∧ (CleanupWorkflow 30
        [{ cleanupOldData := some (Err.failure "connection refused"), sleep := none },
         { cleanupOldData := none, sleep := some (Err.failure "canceled") }]).2
        = some (Err.failure "canceled") :=
  ⟨(loops_return_only_on_cancellation.1 1 60 (sampleDB [])
      [monitorIter (sampleEnv, probeStoreDown) (sampleEnv, probeStoreDown),
       monitorIter (sampleEnv, probeStoreDown) (sampleEnv, probeStoreDown)]).2 (by decide),
    by decide, by decide⟩

/-! ## Endpoint configuration -/

theorem MonitorEndpointWorkflow_sleep_mem (ep : UUID) (iv : Int) (db : DB)
    (envs : List MonitorIterEnv) (d : Duration)
    (h : WorkflowEvent.Sleep d ∈ (MonitorEndpointWorkflow ep iv db envs).2.1) :
    d = iv * Second := by
  induction envs generalizing db with
  | nil => simp [MonitorEndpointWorkflow] at h
  | cons e rest ih =>
    have hit : ∀ db1, WorkflowEvent.Sleep d ∈ (monitorIteration db1 ep iv e).events →
        d = iv * Second := by
      intro db1 hm
      have hf : WorkflowEvent.Sleep d
          ∈ (monitorIteration db1 ep iv e).events.filter WorkflowEvent.isSleep :=
        List.mem_filter.mpr ⟨hm, rfl⟩
      rw [(monitorIteration_events db1 ep iv e).2] at hf
      simp only [List.mem_singleton, WorkflowEvent.Sleep.injEq] at hf
      exact hf
    simp only [MonitorEndpointWorkflow] at h
    cases hs : e.sleep with
    | some err =>
      rw [hs] at h
      simp only [List.mem_append, List.mem_singleton] at h
      rcases h with h | h
      · exact hit _ h
      · cases h
    | none =>
      rw [hs] at h
      simp only [List.mem_append] at h
      rcases h with h | h
      · exact hit _ h
      · exact ih _ h

/-- The amended C18: every probe of `MonitorEndpointWorkflow` uses the endpoint's
method, URL, headers, timeout and expected code as stored when `PingEndpoint`
reads the endpoint in that iteration; the probe interval is the workflow
argument, the IntervalSec stored when the task was started, and the sleep after
every iteration lasts that interval whatever is edited in the store while the
task runs. -/
theorem monitor_interval_fixed_at_start :
    (∀ (started : ServiceEndpoint) (db : DB) (envs : List MonitorIterEnv) (d : Duration),
      WorkflowEvent.Sleep d ∈
        (MonitorEndpointWorkflow (monitorWorkflowArgs started).1 (monitorWorkflowArgs started).2
          db envs).2.1 →
      d = started.IntervalSec * Second)
    ∧ (∀ (db : DB) (env : Env) (probe : ProbeEnv) (ep : UUID) (endpoint : ServiceEndpoint),
      db.GetEndpoint env.getEndpointErr ep = .ok endpoint →
      probe.newRequestErr = none →
        (PingEndpoint db env probe ep).requests =
          [{ Method := endpoint.Method, URL := endpoint.URL,
             Header := probeHeader env.http endpoint.Headers,
             Timeout := endpoint.TimeoutMs * Millisecond }]
        ∧ (probe.createPingErr = none →
            (PingEndpoint db env probe ep).ret =
              .ok (classify ep endpoint.ExpectedCode probe.attempt probe.responseMs))) := by
  constructor
  · intro started db envs d h
    exact MonitorEndpointWorkflow_sleep_mem _ _ db envs d h
  · intro db env probe ep endpoint hexists hreq
    obtain ⟨-, hr, hok, -⟩ := PingEndpoint_attempt db env probe ep endpoint hexists hreq
    exact ⟨hr, fun hc => (hok hc).2⟩

/-- Witness of the amended C18: the task started on the sample endpoint (interval
60) sleeps 60 s after the iteration that follows an edit of the interval to 30. -/
theorem monitor_interval_fixed_at_start_witness :
    WorkflowEvent.Sleep (60 * Second) ∈
      (MonitorEndpointWorkflow (monitorWorkflowArgs sampleEndpoint).1
        (monitorWorkflowArgs sampleEndpoint).2 (sampleDB []) [monitorIterEdited]).2.1
    ∧ 60 * Second = sampleEndpoint.IntervalSec * Second :=
  ⟨by decide,
    monitor_interval_fixed_at_start.1 sampleEndpoint (sampleDB []) [monitorIterEdited]
      (60 * Second) (by decide)⟩

/-- C18 as stated fails: the task is started on the sample endpoint with the
stored interval 60; before the second iteration the stored IntervalSec is edited
to 30; the second and third iterations read the edited endpoint and still sleep
60 s. -/
theorem edited_interval_counterexample :
    monitorWorkflowArgs sampleEndpoint = (1, 60)
    ∧ ((monitorIterEdited.edit (sampleDB [])).GetEndpoint none 1).map (fun r => r.IntervalSec)
        = .ok 30
    ∧ (MonitorEndpointWorkflow 1 60 (sampleDB [])
        [monitorIter (sampleEnv, probeResponse 200) (sampleEnv, probeResponse 200),
         monitorIterEdited,
         monitorIter (sampleEnv, probeResponse 200) (sampleEnv, probeResponse 200)]).2.1.filter
        WorkflowEvent.isSleep
        = [WorkflowEvent.Sleep (60 * Second), WorkflowEvent.Sleep (60 * Second),
           WorkflowEvent.Sleep (60 * Second)]
    ∧ (MonitorEndpointWorkflow 1 60 (sampleDB [])
        [monitorIter (sampleEnv, probeResponse 200) (sampleEnv, probeResponse 200),
         monitorIterEdited,
         monitorIter (sampleEnv, probeResponse 200) (sampleEnv, probeResponse 200)]).1.endpoints.map
        (fun r => r.IntervalSec) = [30] := by
  decide

/-! ## Webhook payload -/

/-- C19 at its failing input: the success probe resolves incident 3 of
endpoint 1 (the stored row gets resolved-at 1001), and the `incident_resolved`
POST sent to the subscribed webhook is built from the incident as it was looked
up before the update: its payload has no `resolved_at` key. -/
theorem resolved_payload_lacks_resolved_at :
    (CheckIncidentStatus (webhookDB [sampleOpen]) sampleEnv 1 true).db.incidents
        = [{ sampleOpen with Status := "resolved", ResolvedAt := some 1001, UpdatedAt := 1001 }]
    ∧ (CheckIncidentStatus (webhookDB [sampleOpen]) sampleEnv 1 true).notifications
        = [{ ServiceID := 5, Event := "incident_resolved", Incident := sampleOpen }]
    ∧ sampleOpen.ResolvedAt = none
    ∧ (CheckIncidentStatus (webhookDB [sampleOpen]) sampleEnv 1 true).posts
        = [{ URL := "http://hook", Header := [("Content-Type", "application/json")],
             Body := [("event", PayloadValue.str "incident_resolved"),
                      ("incident_id", PayloadValue.uuid 3),
                      ("endpoint_id", PayloadValue.uuid 1),
                      ("started_at", PayloadValue.time 500),
                      ("message", PayloadValue.str "Endpoint api is down")] }]
    ∧ ((CheckIncidentStatus (webhookDB [sampleOpen]) sampleEnv 1 true).posts.map
        (fun post => post.Body.lookup "resolved_at")) = [none] := by
  decide

theorem TriggerWebhooks_body (db : DB) (env : Env) (sid : UUID) (event : String)
    (incident : Incident) (post : HTTPPost)
    (h : post ∈ (TriggerWebhooks db env sid event incident).1) :
    post.Body = webhookPayload event incident := by
  unfold TriggerWebhooks at h
  cases hl : db.ListEnabledWebhooks env.listEnabledWebhooksErr sid event with
  | error e => rw [hl] at h; simp at h
  | ok webhooks =>
    rw [hl] at h
    simp only [List.mem_filterMap] at h
    obtain ⟨w, -, hw⟩ := h
    unfold webhookPost at hw
    simp only [] at hw
    split at hw
    · cases hw
    · split at hw
      · cases hw
      · cases hw
        rfl

/-- C20: for every event name and every incident, the payload `TriggerWebhooks`
builds has the keys event, incident_id, endpoint_id, started_at and message, in
that order and once each, holding the event name and the incident's id,
endpoint id, started-at and message, followed by the key resolved_at, holding
the resolved-at, exactly when the incident's resolved-at is non-null; and this
payload is the body of every POST `TriggerWebhooks` issues. -/
theorem webhook_payload_keys (event : String) (incident : Incident) :
    (webhookPayload event incident).map Prod.fst
        = ["event", "incident_id", "endpoint_id", "started_at", "message"]
          ++ (if incident.ResolvedAt.isSome then ["resolved_at"] else [])
    ∧ (webhookPayload event incident).lookup "event" = some (PayloadValue.str event)
    ∧ (webhookPayload event incident).lookup "incident_id" = some (PayloadValue.uuid incident.ID)
    ∧ (webhookPayload event incident).lookup "endpoint_id"
        = some (PayloadValue.uuid incident.EndpointID)
    ∧ (webhookPayload event incident).lookup "started_at"
        = some (PayloadValue.time incident.StartedAt)
    ∧ (webhookPayload event incident).lookup "message" = some (PayloadValue.str incident.Message)
    ∧ (webhookPayload event incident).lookup "resolved_at"
        = incident.ResolvedAt.map PayloadValue.time
    ∧ (∀ (db : DB) (env : Env) (sid : UUID) (post : HTTPPost),
        post ∈ (TriggerWebhooks db env sid event incident).1 →
          post.Body = webhookPayload event incident) := by
  refine ⟨?_, ?_, ?_, ?_, ?_, ?_, ?_, ?_⟩
  · cases h : incident.ResolvedAt <;> simp [webhookPayload, h]
  · simp [webhookPayload, List.lookup]
  · simp [webhookPayload, List.lookup]
  · simp [webhookPayload, List.lookup]
  · simp [webhookPayload, List.lookup]
  · simp [webhookPayload, List.lookup]
  · cases h : incident.ResolvedAt <;> simp [webhookPayload, List.lookup, h]
  · intro db env sid post hpost
    exact TriggerWebhooks_body db env sid event incident post hpost

/-- Witness of C20: the POST for `incident_start` on the open sample incident. -/
theorem webhook_payload_keys_witness :
    ({ URL := "http://hook", Header := [("Content-Type", "application/json")],
       Body := webhookPayload "incident_start" sampleOpen } : HTTPPost)
      ∈ (TriggerWebhooks (webhookDB [sampleOpen]) sampleEnv 5 "incident_start" sampleOpen).1
    ∧ ({ URL := "http://hook", Header := [("Content-Type", "application/json")],
         Body := webhookPayload "incident_start" sampleOpen } : HTTPPost).Body
        = webhookPayload "incident_start" sampleOpen
    ∧ (webhookPayload "incident_start" sampleOpen).map Prod.fst
        = ["event", "incident_id", "endpoint_id", "started_at", "message"] :=
  ⟨by decide,
    (webhook_payload_keys "incident_start" sampleOpen).2.2.2.2.2.2.2 (webhookDB [sampleOpen])
      sampleEnv 5 _ (by decide),
    by decide⟩

/-! ## Webhook notifier -/

theorem filterMap_webhookPost (http : HTTPEnv) (event : String) (incident : Incident)
    (webhooks : List Webhook) :
    webhooks.filterMap (webhookPost http event incident)
      = (webhooks.filter (fun w =>
          !(http.marshalFails (webhookPayload event incident)) && !(http.newRequestFails w.URL))).map
          (fun w => { URL := w.URL, Header := webhookHeader http w.Headers,
                      Body := webhookPayload event incident }) := by
  induction webhooks with
  | nil => rfl
  | cons w rest ih =>
    simp only [List.filterMap_cons, List.filter_cons, webhookPost]
    cases hm : http.marshalFails (webhookPayload event incident) with
    | true => simpa [hm] using ih
    | false =>
      cases hr : http.newRequestFails w.URL with
      | true => simpa [hm, hr] using ih
      | false =>
        simp only [hm] at ih
        simp [hr, ih]

theorem TriggerWebhooks_ok (db : DB) (env : Env) (sid : UUID) (event : String)
    (incident : Incident) (webhooks : List Webhook)
    (h : db.ListEnabledWebhooks env.listEnabledWebhooksErr sid event = .ok webhooks) :
    TriggerWebhooks db env sid event incident
      = (webhooks.filterMap (webhookPost env.http event incident), none) := by
  simp only [TriggerWebhooks, h]

theorem TriggerWebhooks_error (db : DB) (env : Env) (sid : UUID) (event : String)
    (incident : Incident) (e : Err)
    (h : db.ListEnabledWebhooks env.listEnabledWebhooksErr sid event = .error e) :
    TriggerWebhooks db env sid event incident
      = ([], some (Err.wrap "failed to list webhooks" e)) := by
  simp only [TriggerWebhooks, h]

theorem pqListing_ok (db : DB) (env : Env) (sid : UUID) (event : String)
    (webhooks : List Webhook) (hd : pqListing db env sid event = true)
    (h : db.ListEnabledWebhooks env.listEnabledWebhooksErr sid event = .ok webhooks) :
    webhooks = [] := by
  unfold pqListing at hd
  rw [h] at hd
  cases webhooks with
  | nil => rfl
  | cons w rest => simp [scanWebhookRows] at hd

theorem ListEnabledWebhooks_subset (db : DB) (selectErr : Option Err) (sid : UUID)
    (event : String) (webhooks : List Webhook)
    (h : db.ListEnabledWebhooks selectErr sid event = .ok webhooks) :
    ∀ w ∈ webhooks, w ∈ db.webhooks := by
  intro w hw
  unfold DB.ListEnabledWebhooks at h
  cases selectErr with
  | some e => simp at h
  | none =>
    simp only [Except.ok.injEq] at h
    rw [← h] at hw
    exact (List.mem_filter.mp hw).1

/-- C21: deliveries are attempted with `client.Do(req)`, whose result is
discarded.  With the listing the pq driver gives (it succeeds only when no row
matched, `scanWebhookRows`), `TriggerWebhooks` issues exactly one POST for each
subscription of every list the store returns, in list order, and returns nil.
It returns an error exactly when the listing fails, and then issues no POST.
For every list, whatever driver returned it, the POSTs are those of the
subscriptions whose payload marshals and whose request can be built, in list
order, the others being skipped, and nil is returned. -/
theorem deliveries_swallowed_and_isolated (db : DB) (env : Env) (sid : UUID) (event : String)
    (incident : Incident) :
    (pqListing db env sid event = true →
      ∀ webhooks, db.ListEnabledWebhooks env.listEnabledWebhooksErr sid event = .ok webhooks →
        (TriggerWebhooks db env sid event incident).1.map (fun post => post.URL)
            = webhooks.map (fun w => w.URL)
        ∧ (TriggerWebhooks db env sid event incident).2 = none
        ∧ webhooks = [])
    ∧ ((TriggerWebhooks db env sid event incident).2 ≠ none
        ↔ ∃ e, db.ListEnabledWebhooks env.listEnabledWebhooksErr sid event = .error e)
    ∧ (∀ e, db.ListEnabledWebhooks env.listEnabledWebhooksErr sid event = .error e →
        TriggerWebhooks db env sid event incident
          = ([], some (Err.wrap "failed to list webhooks" e)))
    ∧ (∀ webhooks, db.ListEnabledWebhooks env.listEnabledWebhooksErr sid event = .ok webhooks →
        (TriggerWebhooks db env sid event incident).2 = none
        ∧ (TriggerWebhooks db env sid event incident).1
            = (webhooks.filter (fun w =>
                !(env.http.marshalFails (webhookPayload event incident))
                  && !(env.http.newRequestFails w.URL))).map
                (fun w => { URL := w.URL, Header := webhookHeader env.http w.Headers,
                            Body := webhookPayload event incident })
        ∧ (env.http.marshalFails (webhookPayload event incident) = false →
            (∀ w ∈ webhooks, env.http.newRequestFails w.URL = false) →
            (TriggerWebhooks db env sid event incident).1.map (fun post => post.URL)
              = webhooks.map (fun w => w.URL))) := by
  refine ⟨?_, ?_, ?_, ?_⟩
  · intro hd webhooks h
    have hnil := pqListing_ok db env sid event webhooks hd h
    subst hnil
    rw [TriggerWebhooks_ok db env sid event incident [] h]
    exact ⟨rfl, rfl, rfl⟩
  · cases h : db.ListEnabledWebhooks env.listEnabledWebhooksErr sid event with
    | error e =>
      rw [TriggerWebhooks_error db env sid event incident e h]
      simp
    | ok webhooks =>
      rw [TriggerWebhooks_ok db env sid event incident webhooks h]
      simp
  · intro e h
    exact TriggerWebhooks_error db env sid event incident e h
  · intro webhooks h
    rw [TriggerWebhooks_ok db env sid event incident webhooks h, filterMap_webhookPost]
    refine ⟨rfl, rfl, ?_⟩
    intro hm hr
    simp only [hm, Bool.not_false, Bool.true_and, List.map_map]
    have hfilter : webhooks.filter (fun w => !(env.http.newRequestFails w.URL)) = webhooks := by
      rw [List.filter_eq_self]
      intro w hw
      simp [hr w hw]
    rw [hfilter]
    rfl

/-- Witness of C21: a store whose two webhooks do not match the call (one is
disabled, one is subscribed to another event) gives the empty list, no POST
and nil; a store with a matching webhook gives the scan error, no POST and
the listing error. -/
theorem deliveries_swallowed_and_isolated_witness :
    pqListing (hooksDB [mutedWebhook, resolvedOnlyWebhook]) sampleEnv 5 "incident_start" = true
    ∧ (hooksDB [mutedWebhook, resolvedOnlyWebhook]).ListEnabledWebhooks
        sampleEnv.listEnabledWebhooksErr 5 "incident_start" = .ok []
    ∧ ((TriggerWebhooks (hooksDB [mutedWebhook, resolvedOnlyWebhook]) sampleEnv 5
          "incident_start" sampleOpen).1.map (fun post => post.URL)
            = ([] : List Webhook).map (fun w => w.URL)
        ∧ (TriggerWebhooks (hooksDB [mutedWebhook, resolvedOnlyWebhook]) sampleEnv 5
          "incident_start" sampleOpen).2 = none
        ∧ ([] : List Webhook) = [])
    ∧ pqListing (hooksDB [sampleWebhook]) scanFailedEnv 5 "incident_start" = true
    ∧ TriggerWebhooks (hooksDB [sampleWebhook]) scanFailedEnv 5 "incident_start" sampleOpen
        = ([], some (Err.wrap "failed to list webhooks"
            (Err.wrap "failed to list enabled webhooks"
              (Err.failure
                "sql: Scan error on column events: unsupported Scan, storing driver.Value type []uint8 into type *[]string")))) :=
  ⟨by decide, by decide,
    (deliveries_swallowed_and_isolated (hooksDB [mutedWebhook, resolvedOnlyWebhook]) sampleEnv 5
      "incident_start" sampleOpen).1 (by decide) [] (by decide),
    by decide, by decide⟩

theorem Header_Set_mem_of_ne (canonicalKey : String → String) (h : Header)
    (key value k v : String) (hmem : (k, v) ∈ h) (hne : canonicalKey key ≠ k) :
    (k, v) ∈ Header.Set canonicalKey h key value := by
  unfold Header.Set
  apply List.mem_append_left
  apply List.mem_filter.mpr
  refine ⟨hmem, ?_⟩
  simp only [Bool.not_eq_true', decide_eq_false_iff_not]
  exact fun heq => hne heq.symm

theorem Header_Set_self (canonicalKey : String → String) (h : Header) (key value : String) :
    (canonicalKey key, value) ∈ Header.Set canonicalKey h key value := by
  unfold Header.Set
  exact List.mem_append_right _ (List.mem_singleton.mpr rfl)

theorem Header_Set_value (canonicalKey : String → String) (h : Header) (key value v : String)
    (hmem : (canonicalKey key, v) ∈ Header.Set canonicalKey h key value) : v = value := by
  unfold Header.Set at hmem
  rcases List.mem_append.mp hmem with hf | hs
  · have := (List.mem_filter.mp hf).2
    simp at this
  · have := List.mem_singleton.mp hs
    exact (Prod.mk.inj this).2

theorem Header_Set_only_of_ne (canonicalKey : String → String) (h : Header)
    (key value k x : String) (hne : canonicalKey key ≠ k)
    (honly : ∀ v, (k, v) ∈ h → v = x) :
    ∀ v, (k, v) ∈ Header.Set canonicalKey h key value → v = x := by
  intro v hmem
  unfold Header.Set at hmem
  rcases List.mem_append.mp hmem with hf | hs
  · exact honly v (List.mem_filter.mp hf).1
  · have := List.mem_singleton.mp hs
    exact absurd (Prod.mk.inj this).1.symm hne

theorem foldl_headers_mem (http : HTTPEnv) (custom : JSONB) (h : Header) (k v : String)
    (hmem : (k, v) ∈ h)
    (hne : ∀ kv ∈ custom, ∀ x, kv.2 = JSONValue.str x → http.canonicalKey kv.1 ≠ k) :
    (k, v) ∈ custom.foldl
      (fun h kv =>
        match kv.2 with
        | JSONValue.str v => Header.Set http.canonicalKey h kv.1 v
        | _ => h) h := by
  induction custom generalizing h with
  | nil => exact hmem
  | cons kv rest ih =>
    simp only [List.foldl_cons]
    apply ih
    · cases hkv : kv.2 with
      | str x =>
        exact Header_Set_mem_of_ne http.canonicalKey h kv.1 x k v hmem
          (hne kv (List.mem_cons_self _ _) x hkv)
      | num n => exact hmem
      | bool b => exact hmem
      | null => exact hmem
    · intro kv2 hkv2 x hx
      exact hne kv2 (List.mem_cons_of_mem _ hkv2) x hx

theorem foldl_headers_only (http : HTTPEnv) (custom : JSONB) (h : Header) (k x : String)
    (honly : ∀ v, (k, v) ∈ h → v = x)
    (hne : ∀ kv ∈ custom, ∀ y, kv.2 = JSONValue.str y → http.canonicalKey kv.1 ≠ k) :
    ∀ v, (k, v) ∈ custom.foldl
      (fun h kv =>
        match kv.2 with
        | JSONValue.str v => Header.Set http.canonicalKey h kv.1 v
        | _ => h) h → v = x := by
  induction custom generalizing h with
  | nil => exact honly
  | cons kv rest ih =>
    simp only [List.foldl_cons]
    apply ih
    · cases hkv : kv.2 with
      | str y =>
        exact Header_Set_only_of_ne http.canonicalKey h kv.1 y k x
          (hne kv (List.mem_cons_self _ _) y hkv) honly
      | num n => exact honly
      | bool b => exact honly
      | null => exact honly
    · intro kv2 hkv2 y hy
      exact hne kv2 (List.mem_cons_of_mem _ hkv2) y hy

theorem webhookHeader_default (http : HTTPEnv) (custom : JSONB)
    (hcanon : http.canonicalKey "Content-Type" = "Content-Type")
    (hne : ∀ kv ∈ custom, ∀ y, kv.2 = JSONValue.str y →
      http.canonicalKey kv.1 ≠ "Content-Type") :
    ("Content-Type", "application/json") ∈ webhookHeader http custom
    ∧ ∀ v, ("Content-Type", v) ∈ webhookHeader http custom → v = "application/json" := by
  unfold webhookHeader
  constructor
  · apply foldl_headers_mem http custom _ "Content-Type" "application/json" _ hne
    simp [Header.Set, hcanon]
  · apply foldl_headers_only http custom _ "Content-Type" "application/json" _ hne
    intro v hv
    simp [Header.Set, hcanon] at hv
    exact hv

theorem webhookHeader_override (http : HTTPEnv) (front rest : JSONB) (key x : String)
    (hkey : http.canonicalKey key = "Content-Type")
    (hne : ∀ kv ∈ rest, ∀ y, kv.2 = JSONValue.str y →
      http.canonicalKey kv.1 ≠ "Content-Type") :
    ("Content-Type", x) ∈ webhookHeader http (front ++ (key, JSONValue.str x) :: rest)
    ∧ ∀ v, ("Content-Type", v) ∈ webhookHeader http (front ++ (key, JSONValue.str x) :: rest)
        → v = x := by
  unfold webhookHeader
  simp only [List.foldl_append, List.foldl_cons]
  constructor
  · apply foldl_headers_mem http rest _ "Content-Type" x _ hne
    rw [← hkey]
    exact Header_Set_self http.canonicalKey _ key x
  · apply foldl_headers_only http rest _ "Content-Type" x _ hne
    intro v hv
    rw [← hkey] at hv
    exact Header_Set_value http.canonicalKey _ key x v hv

/-- C22: `req.Header.Set("Content-Type", "application/json")` runs on every
request before the custom headers are set.  With the listing the pq driver
gives (`scanWebhookRows`), every POST `TriggerWebhooks` issues carries
Content-Type: application/json and no other Content-Type.  For every listing,
whatever driver returned it, each POST goes to a stored subscription with the
header `webhookHeader` of that subscription's own custom headers: that header
carries Content-Type: application/json alone when no string-valued custom
header of the subscription has the canonical key Content-Type, and carries
the value of the last such custom header, in the order the loop ranges over
them, alone when there is one. -/
theorem posts_carry_content_type (db : DB) (env : Env) (sid : UUID) (event : String)
    (incident : Incident)
    (hcanon : env.http.canonicalKey "Content-Type" = "Content-Type") :
    (pqListing db env sid event = true →
      ∀ post ∈ (TriggerWebhooks db env sid event incident).1,
        ("Content-Type", "application/json") ∈ post.Header
        ∧ ∀ v, ("Content-Type", v) ∈ post.Header → v = "application/json")
    ∧ (∀ post ∈ (TriggerWebhooks db env sid event incident).1,
        ∃ w ∈ db.webhooks, post.URL = w.URL ∧ post.Header = webhookHeader env.http w.Headers)
    ∧ (∀ custom : JSONB,
        (∀ kv ∈ custom, ∀ y, kv.2 = JSONValue.str y →
          env.http.canonicalKey kv.1 ≠ "Content-Type") →
        ("Content-Type", "application/json") ∈ webhookHeader env.http custom
        ∧ ∀ v, ("Content-Type", v) ∈ webhookHeader env.http custom → v = "application/json")
    ∧ (∀ (front rest : JSONB) (key x : String),
        env.http.canonicalKey key = "Content-Type" →
        (∀ kv ∈ rest, ∀ y, kv.2 = JSONValue.str y →
          env.http.canonicalKey kv.1 ≠ "Content-Type") →
        ("Content-Type", x) ∈ webhookHeader env.http (front ++ (key, JSONValue.str x) :: rest)
        ∧ ∀ v, ("Content-Type", v)
            ∈ webhookHeader env.http (front ++ (key, JSONValue.str x) :: rest) → v = x) := by
  refine ⟨?_, ?_, ?_, ?_⟩
  · intro hd post hpost
    cases h : db.ListEnabledWebhooks env.listEnabledWebhooksErr sid event with
    | error e =>
      rw [TriggerWebhooks_error db env sid event incident e h] at hpost
      simp at hpost
    | ok webhooks =>
      have hnil := pqListing_ok db env sid event webhooks hd h
      subst hnil
      rw [TriggerWebhooks_ok db env sid event incident [] h] at hpost
      simp at hpost
  · intro post hpost
    cases h : db.ListEnabledWebhooks env.listEnabledWebhooksErr sid event with
    | error e =>
      rw [TriggerWebhooks_error db env sid event incident e h] at hpost
      simp at hpost
    | ok webhooks =>
      rw [TriggerWebhooks_ok db env sid event incident webhooks h, filterMap_webhookPost] at hpost
      simp only [List.mem_map, List.mem_filter] at hpost
      obtain ⟨w, ⟨hw, -⟩, rfl⟩ := hpost
      exact ⟨w, ListEnabledWebhooks_subset db _ sid event webhooks h w hw, rfl, rfl⟩
  · intro custom hne
    exact webhookHeader_default env.http custom hcanon hne
  · intro front rest key x hkey hne
    exact webhookHeader_override env.http front rest key x hkey hne

/-- Witness of C22: at a store whose webhooks do not match the call no POST is
issued; the header built from no custom header carries
Content-Type: application/json, the header built from the custom header
Content-Type: text/plain carries text/plain. -/
theorem posts_carry_content_type_witness :
    sampleEnv.http.canonicalKey "Content-Type" = "Content-Type"
    ∧ pqListing (hooksDB [mutedWebhook, resolvedOnlyWebhook]) sampleEnv 5 "incident_start" = true
    ∧ (∀ post ∈ (TriggerWebhooks (hooksDB [mutedWebhook, resolvedOnlyWebhook]) sampleEnv 5
          "incident_start" sampleOpen).1,
        ("Content-Type", "application/json") ∈ post.Header
        ∧ ∀ v, ("Content-Type", v) ∈ post.Header → v = "application/json")
    ∧ webhookHeader sampleEnv.http [] = [("Content-Type", "application/json")]
    ∧ webhookHeader sampleEnv.http mutedWebhook.Headers = [("Content-Type", "text/plain")] :=
  ⟨rfl, by decide,
    (posts_carry_content_type (hooksDB [mutedWebhook, resolvedOnlyWebhook]) sampleEnv 5
      "incident_start" sampleOpen rfl).1 (by decide),
    by decide, by decide⟩

/-! ## Retention sweeper -/

theorem CleanupOldData_nil (db : DB) (env : CleanupEnv) (rd : Int)
    (h : (CleanupOldData db env rd).2 = Ret.nil) :
    env.deleteOldPingsErr = none ∧ env.deleteOldPingWindowsErr = none := by
  unfold CleanupOldData at h
  simp only [DB.DeleteOldPings, DB.DeleteOldPingWindows] at h
  cases h1 : env.deleteOldPingsErr with
  | some e => simp [h1] at h
  | none =>
    cases h2 : env.deleteOldPingWindowsErr with
    | some e => simp [h1, h2] at h
    | none => exact ⟨rfl, rfl⟩

theorem AddDate_fixed_offset (loc : Location) (t : Time) (days c : Int)
    (hfix : ∀ s, (loc.lookup s).offset = c) :
    Time.AddDate loc t days = t + days * (24 * Hour) := by
  have hoff : ∀ u : Int,
      (if (loc.lookup u).offset = 0 then (0 : Int)
        else if u - (loc.lookup u).offset < (loc.lookup u).start
            ∨ u - (loc.lookup u).offset ≥ (loc.lookup u).stop
          then (loc.lookup (u - (loc.lookup u).offset)).offset
          else (loc.lookup u).offset) = c := by
    intro u
    simp only [hfix]
    split_ifs with h0 <;> first | exact h0.symm | rfl
  unfold Time.AddDate
  simp only [hoff]
  simp only [hfix, Time, Duration, Hour, Minute, Second, Millisecond] at *
  omega

/-- The amended C23: when `CleanupOldData(retentionDays)` succeeds at time `now`,
with cutoff = `now.AddDate(0, 0, -retentionDays)`, the wall-clock reading of
now moved back by retentionDays calendar days in the time zone of the process,
the database holds exactly the pings and the metric windows whose `created_at`
is not before the cutoff, in their order, and every other table is untouched.
In a zone with one fixed offset (UTC among them) the cutoff is
now - retentionDays × 24 h. -/
theorem cleanup_keeps_from_calendar_cutoff (db : DB) (env : CleanupEnv) (retentionDays : Int)
    (hsucc : (CleanupOldData db env retentionDays).2 = Ret.nil) :
    (CleanupOldData db env retentionDays).1 =
      { db with
        pings := db.pings.filter
          (fun p => !decide (p.CreatedAt < Time.AddDate env.loc env.now (-retentionDays))),
        pingWindows := db.pingWindows.filter
          (fun w => !decide (w.CreatedAt < Time.AddDate env.loc env.now (-retentionDays))) }
    ∧ (∀ p, p ∈ (CleanupOldData db env retentionDays).1.pings
        ↔ p ∈ db.pings ∧ Time.AddDate env.loc env.now (-retentionDays) ≤ p.CreatedAt)
    ∧ (∀ w, w ∈ (CleanupOldData db env retentionDays).1.pingWindows
        ↔ w ∈ db.pingWindows ∧ Time.AddDate env.loc env.now (-retentionDays) ≤ w.CreatedAt)
    ∧ (∀ c, (∀ s, (env.loc.lookup s).offset = c) →
        Time.AddDate env.loc env.now (-retentionDays)
          = env.now - retentionDays * (24 * Hour)) := by
  obtain ⟨h1, h2⟩ := CleanupOldData_nil db env retentionDays hsucc
  have hdb : (CleanupOldData db env retentionDays).1 =
      { db with
        pings := db.pings.filter
          (fun p => !decide (p.CreatedAt < Time.AddDate env.loc env.now (-retentionDays))),
        pingWindows := db.pingWindows.filter
          (fun w => !decide (w.CreatedAt < Time.AddDate env.loc env.now (-retentionDays))) } := by
    unfold CleanupOldData
    simp only [h1, h2, DB.DeleteOldPings, DB.DeleteOldPingWindows]
  refine ⟨hdb, ?_, ?_, ?_⟩
  · intro p
    rw [hdb]
    simp only [List.mem_filter, Bool.not_eq_true', decide_eq_false_iff_not, not_lt]
  · intro w
    rw [hdb]
    simp only [List.mem_filter, Bool.not_eq_true', decide_eq_false_iff_not, not_lt]
  · intro c hfix
    rw [AddDate_fixed_offset env.loc env.now (-retentionDays) c hfix]
    ring

/-- Witness of the amended C23: at day 40 in UTC with 30 days of retention, the
cutoff is day 10; the ping and the window stored on day 9 are deleted, those
stored on day 10 and day 11 are kept. -/
theorem cleanup_keeps_from_calendar_cutoff_witness :
    (CleanupOldData retentionDB cleanupEnv40 30).2 = Ret.nil
    ∧ Time.AddDate cleanupEnv40.loc cleanupEnv40.now (-30) = 10 * (24 * Hour)
    ∧ ((∀ p, p ∈ (CleanupOldData retentionDB cleanupEnv40 30).1.pings
          ↔ p ∈ retentionDB.pings
            ∧ Time.AddDate cleanupEnv40.loc cleanupEnv40.now (-30) ≤ p.CreatedAt)
        ∧ (∀ w, w ∈ (CleanupOldData retentionDB cleanupEnv40 30).1.pingWindows
          ↔ w ∈ retentionDB.pingWindows
            ∧ Time.AddDate cleanupEnv40.loc cleanupEnv40.now (-30) ≤ w.CreatedAt)
        ∧ Time.AddDate cleanupEnv40.loc cleanupEnv40.now (-30)
            = cleanupEnv40.now - 30 * (24 * Hour))
    ∧ (CleanupOldData retentionDB cleanupEnv40 30).1.pings.map (fun p => p.ID) = [32, 33]
    ∧ (CleanupOldData retentionDB cleanupEnv40 30).1.pingWindows.map (fun w => w.ID) = [42] :=
  ⟨by decide, by decide,
    ⟨(cleanup_keeps_from_calendar_cutoff retentionDB cleanupEnv40 30 (by decide)).2.1,
      (cleanup_keeps_from_calendar_cutoff retentionDB cleanupEnv40 30 (by decide)).2.2.1,
      (cleanup_keeps_from_calendar_cutoff retentionDB cleanupEnv40 30 (by decide)).2.2.2 0
        (fun _ => rfl)⟩,
    by decide, by decide⟩

/-- C23 as stated fails: in a zone whose clocks went back one hour on day 20, the
cleanup of day 40 with 30 days of retention succeeds with the cutoff
now - 721 h, and the ping and the window stored 30 days and 30 minutes before
now, older than now - 30 days, are both still in the database. -/
theorem cleanup_clock_change_counterexample :
    (CleanupOldData clockBackDB cleanupEnvClockBack 30).2 = Ret.nil
    ∧ Time.AddDate cleanupEnvClockBack.loc cleanupEnvClockBack.now (-30)
        = cleanupEnvClockBack.now - 721 * Hour
    ∧ (∀ p ∈ clockBackDB.pings, p.CreatedAt < cleanupEnvClockBack.now - 30 * (24 * Hour))
    ∧ (∀ w ∈ clockBackDB.pingWindows, w.CreatedAt < cleanupEnvClockBack.now - 30 * (24 * Hour))
    ∧ (CleanupOldData clockBackDB cleanupEnvClockBack 30).1.pings = clockBackDB.pings
    ∧ (CleanupOldData clockBackDB cleanupEnvClockBack 30).1.pingWindows
        = clockBackDB.pingWindows
    ∧ clockBackDB.pings.length = 1 ∧ clockBackDB.pingWindows.length = 1 := by
  decide

/-! ## Monitor commands -/

/-- C24 at its failing input: `start --all` starts the monitor of the enabled
sample endpoint and the two singleton tasks; the endpoint is then disabled in
the store; `stop --all` returns nil having sent a cancellation to the two
singleton tasks only: the monitor of endpoint 1 is still running with no
cancellation sent to it. -/
theorem stop_all_misses_disabled_endpoint :
    (startMonitoringCmd (sampleDB []) idleEngine sampleCLI "" true).1.running.map
        (fun r => (r.ID, r.CancelRequested))
        = [("monitor-endpoint-1", false), ("aggregate-metrics", false),
           ("cleanup-old-data", false)]
    ∧ disabledDB.ListEnabledEndpoints none = .ok []
    ∧ (stopMonitoringCmd disabledDB
        (startMonitoringCmd (sampleDB []) idleEngine sampleCLI "" true).1 sampleCLI "" true).2
        = none
    ∧ (stopMonitoringCmd disabledDB
        (startMonitoringCmd (sampleDB []) idleEngine sampleCLI "" true).1 sampleCLI ""
        true).1.running.map (fun r => (r.ID, r.Workflow, r.CancelRequested))
        = [("monitor-endpoint-1", WorkflowStart.MonitorEndpoint 1 60, false),
           ("aggregate-metrics", WorkflowStart.AggregateMetrics, true),
           ("cleanup-old-data", WorkflowStart.Cleanup 30, true)] := by
  decide

theorem GetEndpoint_ok_id {db : DB} {g : Option Err} {ep : UUID} {endpoint : ServiceEndpoint}
    (h : db.GetEndpoint g ep = .ok endpoint) :
    endpoint.ID = ep ∧ endpoint.DeletedAt = none ∧ endpoint ∈ db.endpoints := by
  unfold DB.GetEndpoint at h
  cases g with
  | some e => simp at h
  | none =>
    simp only [] at h
    cases hf : db.endpoints.find? (fun e => decide (e.ID = ep) && decide (e.DeletedAt = none)) with
    | none => rw [hf] at h; simp at h
    | some found =>
      rw [hf] at h
      simp only [Except.ok.injEq] at h
      subst h
      have hp := List.find?_some hf
      simp only [Bool.and_eq_true, decide_eq_true_eq] at hp
      exact ⟨hp.1, hp.2, List.mem_of_find?_eq_some hf⟩

theorem ExecuteWorkflow_fresh (eng : Engine) (id : String) (wf : WorkflowStart)
    (hidle : ∀ r ∈ eng.running, r.ID ≠ id) :
    eng.ExecuteWorkflow none id wf =
      ({ running := eng.running ++
           [{ ID := id, RunID := eng.nextRunID, Workflow := wf, CancelRequested := false }],
         nextRunID := eng.nextRunID + 1 },
        .ok (id, eng.nextRunID)) := by
  have hfind : eng.running.find? (fun r => decide (r.ID = id)) = none := by
    rw [List.find?_eq_none]
    intro r hr
    simpa using hidle r hr
  simp only [Engine.ExecuteWorkflow, hfind]

theorem ExecuteWorkflow_running (running : List WorkflowRun) (next : Nat) (id : String)
    (wf wf2 : WorkflowStart) (hidle : ∀ r ∈ running, r.ID ≠ id) :
    Engine.ExecuteWorkflow
        { running := running ++
            [{ ID := id, RunID := next, Workflow := wf, CancelRequested := false }],
          nextRunID := next + 1 } none id wf2 =
      ({ running := running ++
           [{ ID := id, RunID := next, Workflow := wf, CancelRequested := false }],
         nextRunID := next + 1 },
        .ok (id, next)) := by
  have hfind : (running ++
      [({ ID := id, RunID := next, Workflow := wf, CancelRequested := false } : WorkflowRun)]).find?
      (fun r => decide (r.ID = id))
      = some { ID := id, RunID := next, Workflow := wf, CancelRequested := false } := by
    rw [List.find?_append]
    have hnone : running.find? (fun r => decide (r.ID = id)) = none := by
      rw [List.find?_eq_none]
      intro r hr
      simpa using hidle r hr
    rw [hnone]
    simp
  simp only [Engine.ExecuteWorkflow, hfind]

/-- What `start --endpoint-id` does for a stored endpoint. -/
theorem startMonitoringCmd_single (db : DB) (eng : Engine) (env : CLIEnv) (t : String) (ep : UUID)
    (endpoint : ServiceEndpoint)
    (ht : t ≠ "") (hnew : env.newDBErr = none) (hdial : env.dialErr = none)
    (hp : env.parseUUID t = some ep)
    (hg : db.GetEndpoint env.getEndpointErr ep = .ok endpoint)
    (hx : env.executeWorkflowErr (monitorWorkflowID ep) = none) :
    startMonitoringCmd db eng env t false =
      ((eng.ExecuteWorkflow none (monitorWorkflowID ep)
          (WorkflowStart.MonitorEndpoint ep endpoint.IntervalSec)).1, none) := by
  have hid := (GetEndpoint_ok_id hg).1
  unfold startMonitoringCmd
  simp only [hnew, hdial, Bool.false_eq_true, if_false, ne_eq, ht, not_false_eq_true, if_true,
    hp, hg, hid, hx]
  cases hres : eng.ExecuteWorkflow none (monitorWorkflowID ep)
      (WorkflowStart.MonitorEndpoint ep endpoint.IntervalSec) with
  | mk eng1 r =>
    cases r with
    | ok handle => rfl
    | error e =>
      exfalso
      unfold Engine.ExecuteWorkflow at hres
      simp only [] at hres
      split at hres <;> cases hres

/-- C25: `start --endpoint-id` called twice for the same endpoint, in either
order of the two calls (each reaches the engine in one request), leaves
exactly one task running under the id monitor-endpoint-<id>: the first call
starts it, the second changes nothing in the engine and its request returns
the handle (workflow id and run id) of the task already running. -/
theorem start_twice_single_task (db1 db2 : DB) (eng : Engine) (env1 env2 : CLIEnv) (t : String)
    (ep : UUID) (e1 e2 : ServiceEndpoint)
    (ht : t ≠ "")
    (hconn1 : env1.newDBErr = none ∧ env1.dialErr = none)
    (hconn2 : env2.newDBErr = none ∧ env2.dialErr = none)
    (hp1 : env1.parseUUID t = some ep) (hp2 : env2.parseUUID t = some ep)
    (hg1 : db1.GetEndpoint env1.getEndpointErr ep = .ok e1)
    (hg2 : db2.GetEndpoint env2.getEndpointErr ep = .ok e2)
    (hx1 : env1.executeWorkflowErr (monitorWorkflowID ep) = none)
    (hx2 : env2.executeWorkflowErr (monitorWorkflowID ep) = none)
    (hidle : ∀ r ∈ eng.running, r.ID ≠ monitorWorkflowID ep) :
    startMonitoringCmd db1 eng env1 t false =
        ({ running := eng.running ++
             [{ ID := monitorWorkflowID ep, RunID := eng.nextRunID,
                Workflow := WorkflowStart.MonitorEndpoint ep e1.IntervalSec,
                CancelRequested := false }],
           nextRunID := eng.nextRunID + 1 }, none)
    ∧ startMonitoringCmd db2 (startMonitoringCmd db1 eng env1 t false).1 env2 t false =
        ((startMonitoringCmd db1 eng env1 t false).1, none)
    ∧ (startMonitoringCmd db2 (startMonitoringCmd db1 eng env1 t false).1 env2 t
          false).1.running.filter (fun r => decide (r.ID = monitorWorkflowID ep)) =
        [{ ID := monitorWorkflowID ep, RunID := eng.nextRunID,
           Workflow := WorkflowStart.MonitorEndpoint ep e1.IntervalSec,
           CancelRequested := false }]
    ∧ ((startMonitoringCmd db1 eng env1 t false).1.ExecuteWorkflow none (monitorWorkflowID ep)
          (WorkflowStart.MonitorEndpoint ep e2.IntervalSec)).2
        = .ok (monitorWorkflowID ep, eng.nextRunID) := by
  have h1 : startMonitoringCmd db1 eng env1 t false =
      ({ running := eng.running ++
           [{ ID := monitorWorkflowID ep, RunID := eng.nextRunID,
              Workflow := WorkflowStart.MonitorEndpoint ep e1.IntervalSec,
              CancelRequested := false }],
         nextRunID := eng.nextRunID + 1 }, none) := by
    rw [startMonitoringCmd_single db1 eng env1 t ep e1 ht hconn1.1 hconn1.2 hp1 hg1 hx1,
      ExecuteWorkflow_fresh eng _ _ hidle]
  have hrun := ExecuteWorkflow_running eng.running eng.nextRunID (monitorWorkflowID ep)
    (WorkflowStart.MonitorEndpoint ep e1.IntervalSec)
    (WorkflowStart.MonitorEndpoint ep e2.IntervalSec) hidle
  have h2 : startMonitoringCmd db2 (startMonitoringCmd db1 eng env1 t false).1 env2 t false =
      ((startMonitoringCmd db1 eng env1 t false).1, none) := by
    rw [startMonitoringCmd_single db2 _ env2 t ep e2 ht hconn2.1 hconn2.2 hp2 hg2 hx2, h1]
    simp only [hrun]
  refine ⟨h1, h2, ?_, ?_⟩
  · rw [h2, h1]
    simp only [List.filter_append]
    have hnone : eng.running.filter (fun r => decide (r.ID = monitorWorkflowID ep)) = [] := by
      rw [List.filter_eq_nil_iff]
      intro r hr
      simpa using hidle r hr
    rw [hnone]
    simp
  · rw [h1]
    simp only [hrun]

/-- Witness of C25: two starts of endpoint 1 on an idle engine, the stored
interval edited to 30 in between. -/
theorem start_twice_single_task_witness :
    (sampleDB []).GetEndpoint sampleCLI.getEndpointErr 1 = .ok sampleEndpoint
    ∧ (startMonitoringCmd (intervalDB 30)
        (startMonitoringCmd (sampleDB []) idleEngine sampleCLI "1" false).1 sampleCLI "1"
        false).1.running.filter (fun r => decide (r.ID = monitorWorkflowID 1)) =
        [{ ID := monitorWorkflowID 1, RunID := idleEngine.nextRunID,
           Workflow := WorkflowStart.MonitorEndpoint 1 sampleEndpoint.IntervalSec,
           CancelRequested := false }]
    ∧ (startMonitoringCmd (intervalDB 30)
        (startMonitoringCmd (sampleDB []) idleEngine sampleCLI "1" false).1 sampleCLI "1"
        false).1.running.length = 1 :=
  ⟨by decide,
    (start_twice_single_task (sampleDB []) (intervalDB 30) idleEngine sampleCLI sampleCLI "1" 1
      sampleEndpoint { sampleEndpoint with IntervalSec := 30, UpdatedAt := 2000 }
      (by decide) ⟨rfl, rfl⟩ ⟨rfl, rfl⟩ (by decide) (by decide) (by decide) (by decide) rfl rfl
      (by decide)).2.2.1,
    by decide⟩

theorem CancelWorkflow_absent (eng : Engine) (id : String)
    (hidle : ∀ r ∈ eng.running, r.ID ≠ id) :
    eng.CancelWorkflow none id = (eng, some (Err.failure "workflow execution not found")) := by
  have hany : eng.running.any (fun r => decide (r.ID = id)) = false := by
    rw [List.any_eq_false]
    intro r hr
    simpa using hidle r hr
  simp only [Engine.CancelWorkflow, hany, Bool.false_eq_true, if_false]

/-- What `stop --endpoint-id` does for a valid id. -/
theorem stopMonitoringCmd_single (db : DB) (eng : Engine) (env : CLIEnv) (t : String) (ep : UUID)
    (ht : t ≠ "") (hdial : env.dialErr = none) (hp : env.parseUUID t = some ep) :
    stopMonitoringCmd db eng env t false =
      ((eng.CancelWorkflow (env.cancelWorkflowErr (monitorWorkflowID ep))
          (monitorWorkflowID ep)).1,
       (eng.CancelWorkflow (env.cancelWorkflowErr (monitorWorkflowID ep))
          (monitorWorkflowID ep)).2.map (Err.wrap "failed to stop workflow")) := by
  unfold stopMonitoringCmd
  simp only [hdial, Bool.false_eq_true, if_false, ne_eq, ht, not_false_eq_true, if_true, hp]
  cases hres : eng.CancelWorkflow (env.cancelWorkflowErr (monitorWorkflowID ep))
      (monitorWorkflowID ep) with
  | mk eng1 r =>
    cases r with
    | none => rfl
    | some e => rfl

/-- The amended C26: `stop --endpoint-id` for a valid id returns nil exactly when
the engine accepts the cancel request; when the engine rejects it, the command
returns the error "failed to stop workflow" wrapping the engine's error, and
that is what happens when no task runs under monitor-endpoint-<id> (never
started, or already stopped and closed). -/
theorem stop_reports_rejected_cancel (db : DB) (eng : Engine) (env : CLIEnv) (t : String)
    (ep : UUID) (ht : t ≠ "") (hdial : env.dialErr = none) (hp : env.parseUUID t = some ep) :
    ((stopMonitoringCmd db eng env t false).2 = none
      ↔ (eng.CancelWorkflow (env.cancelWorkflowErr (monitorWorkflowID ep))
          (monitorWorkflowID ep)).2 = none)
    ∧ (∀ e, (eng.CancelWorkflow (env.cancelWorkflowErr (monitorWorkflowID ep))
          (monitorWorkflowID ep)).2 = some e →
        (stopMonitoringCmd db eng env t false).2 = some (Err.wrap "failed to stop workflow" e))
    ∧ ((∀ r ∈ eng.running, r.ID ≠ monitorWorkflowID ep) →
        env.cancelWorkflowErr (monitorWorkflowID ep) = none →
        stopMonitoringCmd db eng env t false =
          (eng, some (Err.wrap "failed to stop workflow"
            (Err.failure "workflow execution not found")))) := by
  have h := stopMonitoringCmd_single db eng env t ep ht hdial hp
  refine ⟨?_, ?_, ?_⟩
  · rw [h]
    simp
  · intro e he
    rw [h]
    simp [he]
  · intro hidle hc
    rw [h, hc, CancelWorkflow_absent eng _ hidle]
    rfl

/-- Witness of the amended C26: stopping endpoint 1 after it has been started
succeeds. -/
theorem stop_reports_rejected_cancel_witness :
    ((startMonitoringCmd (sampleDB []) idleEngine sampleCLI "1" false).1.CancelWorkflow
        (sampleCLI.cancelWorkflowErr (monitorWorkflowID 1)) (monitorWorkflowID 1)).2 = none
    ∧ (stopMonitoringCmd (sampleDB [])
        (startMonitoringCmd (sampleDB []) idleEngine sampleCLI "1" false).1 sampleCLI "1"
        false).2 = none :=
  ⟨by decide,
    (stop_reports_rejected_cancel (sampleDB [])
      (startMonitoringCmd (sampleDB []) idleEngine sampleCLI "1" false).1 sampleCLI "1" 1
      (by decide) rfl (by decide)).1.mpr (by decide)⟩

/-- C26 as stated fails: stopping the valid endpoint id 1 while no monitor task
runs for it returns the error "failed to stop workflow". -/
theorem stop_not_running_counterexample :
    sampleCLI.parseUUID "1" = some 1
    ∧ idleEngine.running = []
    ∧ stopMonitoringCmd (sampleDB []) idleEngine sampleCLI "1" false =
        (idleEngine, some (Err.wrap "failed to stop workflow"
          (Err.failure "workflow execution not found"))) := by
  decide

/-- The amended C27: `start --endpoint-id` returns an error and starts no workflow
for an id that is not a valid UUID and for an id with no stored endpoint; for a
stored endpoint it starts the monitor with the stored interval whatever the
endpoint's configuration is, a zero or negative interval included. -/
theorem start_checks_id_and_existence_only (db : DB) (eng : Engine) (env : CLIEnv) (t : String)
    (ht : t ≠ "") (hnew : env.newDBErr = none) (hdial : env.dialErr = none) :
    (env.parseUUID t = none →
      startMonitoringCmd db eng env t false =
        (eng, some (Err.wrap "invalid endpoint UUID" (Err.failure "invalid UUID"))))
    ∧ (∀ ep e, env.parseUUID t = some ep → db.GetEndpoint env.getEndpointErr ep = .error e →
        startMonitoringCmd db eng env t false = (eng, some (Err.wrap "failed to get endpoint" e)))
    ∧ (∀ ep endpoint, env.parseUUID t = some ep →
        db.GetEndpoint env.getEndpointErr ep = .ok endpoint →
        env.executeWorkflowErr (monitorWorkflowID ep) = none →
        (∀ r ∈ eng.running, r.ID ≠ monitorWorkflowID ep) →
        startMonitoringCmd db eng env t false =
          ({ running := eng.running ++
               [{ ID := monitorWorkflowID ep, RunID := eng.nextRunID,
                  Workflow := WorkflowStart.MonitorEndpoint ep endpoint.IntervalSec,
                  CancelRequested := false }],
             nextRunID := eng.nextRunID + 1 }, none)) := by
  refine ⟨?_, ?_, ?_⟩
  · intro hp
    unfold startMonitoringCmd
    simp only [hnew, hdial, Bool.false_eq_true, if_false, ne_eq, ht, not_false_eq_true, if_true,
      hp]
  · intro ep e hp hg
    unfold startMonitoringCmd
    simp only [hnew, hdial, Bool.false_eq_true, if_false, ne_eq, ht, not_false_eq_true, if_true,
      hp, hg]
  · intro ep endpoint hp hg hx hidle
    rw [startMonitoringCmd_single db eng env t ep endpoint ht hnew hdial hp hg hx,
      ExecuteWorkflow_fresh eng _ _ hidle]

/-- Witness of the amended C27: an id that is not valid, and an id with no stored
endpoint, start nothing. -/
theorem start_checks_id_and_existence_only_witness :
    sampleCLI.parseUUID "one" = none
    ∧ startMonitoringCmd (sampleDB []) idleEngine sampleCLI "one" false =
        (idleEngine, some (Err.wrap "invalid endpoint UUID" (Err.failure "invalid UUID")))
    ∧ startMonitoringCmd (sampleDB []) idleEngine sampleCLI "2" false =
        (idleEngine, some (Err.wrap "failed to get endpoint"
          (Err.wrap "failed to get endpoint" Err.ErrNoRows))) :=
  ⟨by decide,
    (start_checks_id_and_existence_only (sampleDB []) idleEngine sampleCLI "one" (by decide)
      rfl rfl).1 (by decide),
    by decide⟩

/-- C27 as stated fails: for the stored endpoint 1 with probe interval 0, and
with interval -5, `start --endpoint-id` returns nil and the engine runs the
monitor with that interval; with interval 0 every sleep of the loop lasts 0. -/
theorem start_bad_interval_counterexample :
    ((intervalDB 0).GetEndpoint none 1).map (fun r => r.IntervalSec) = .ok 0
    ∧ startMonitoringCmd (intervalDB 0) idleEngine sampleCLI "1" false =
        ({ running := [{ ID := "monitor-endpoint-1", RunID := 1,
                         Workflow := WorkflowStart.MonitorEndpoint 1 0,
                         CancelRequested := false }],
           nextRunID := 2 }, none)
    ∧ startMonitoringCmd (intervalDB (-5)) idleEngine sampleCLI "1" false =
        ({ running := [{ ID := "monitor-endpoint-1", RunID := 1,
                         Workflow := WorkflowStart.MonitorEndpoint 1 (-5),
                         CancelRequested := false }],
           nextRunID := 2 }, none)
    ∧ (MonitorEndpointWorkflow 1 0 (intervalDB 0) [monitorIterOK, monitorIterOK]).2.1.filter
        WorkflowEvent.isSleep = [WorkflowEvent.Sleep 0, WorkflowEvent.Sleep 0] := by
  decide

/-! ## Retried incident checks -/

theorem CheckIncidentStatus_success_db (db : DB) (env : Env) (ep : UUID) (incident : Incident)
    (hl : db.GetOpenIncident none ep = .ok incident)
    (hlookup : env.getOpenIncidentErr = none)
    (hresolve : env.resolveIncidentErr = none) :
    (CheckIncidentStatus db env ep true).db =
      { db with incidents :=
          db.incidents.map (fun i => if i.ID = incident.ID then resolveRow env.dbNow i else i) } := by
  unfold CheckIncidentStatus
  simp only [hlookup, hl, hresolve, DB.ResolveIncident, if_true]
  split
  · split <;> rfl
  · rfl

theorem openIncidents_after_resolve (db : DB) (ep : UUID) (incident : Incident) (now : Time)
    (hone : openIncidents db ep = [incident]) :
    openIncidents
      { db with incidents :=
          db.incidents.map (fun i => if i.ID = incident.ID then resolveRow now i else i) } ep
      = [] := by
  rw [openIncidents_eq, List.filter_eq_nil_iff]
  intro a ha
  obtain ⟨i, hi, rfl⟩ := List.mem_map.mp ha
  by_cases hid : i.ID = incident.ID
  · simp [hid, isOpenFor_resolveRow]
  · simp only [hid, if_false]
    intro hopen
    have : i ∈ openIncidents db ep := List.mem_filter.mpr ⟨hi, hopen⟩
    rw [hone] at this
    simp at this
    exact hid (by rw [this])

theorem eq_singleton_of_length_le_one {α : Type} {l : List α} {a : α} (hle : l.length ≤ 1)
    (hmem : a ∈ l) : l = [a] := by
  cases l with
  | nil => cases hmem
  | cons b rest =>
    cases rest with
    | nil =>
      simp only [List.mem_singleton] at hmem
      rw [hmem]
    | cons c rest2 =>
      simp only [List.length_cons] at hle
      omega

theorem CheckIncidentStatus_failure_panics (db : DB) (env : Env) (ep : UUID) (e e2 : Err)
    (hl : db.GetOpenIncident env.getOpenIncidentErr ep = .error e)
    (hg : db.GetEndpoint env.getEndpointErr ep = .error e2) :
    CheckIncidentStatus db env ep false =
      ⟨db, [], [], Ret.panic "invalid memory address or nil pointer dereference"⟩ := by
  unfold CheckIncidentStatus
  simp only [hl, hg, Bool.false_eq_true, if_false]

/-- The amended C28: for every database with at most one open incident of the
endpoint, a lookup that answers from the table in both calls and every success
flag, a second `CheckIncidentStatus` call right after a first call that
returned (nil or an error, not a crash) and whose store write, if it made one,
succeeded does nothing: the database, its incidents included, is exactly as
the first call left it, no notification is emitted and nil is returned. -/
theorem check_twice_changes_nothing (db : DB) (env1 env2 : Env) (ep : UUID) (success : Bool)
    (hone : (openIncidents db ep).length ≤ 1)
    (hl1 : env1.getOpenIncidentErr = none) (hl2 : env2.getOpenIncidentErr = none)
    (hwrite : env1.createIncidentErr = none ∧ env1.resolveIncidentErr = none)
    (hreturned : ∀ msg, (CheckIncidentStatus db env1 ep success).ret ≠ Ret.panic msg) :
    CheckIncidentStatus (CheckIncidentStatus db env1 ep success).db env2 ep success =
      ⟨(CheckIncidentStatus db env1 ep success).db, [], [], Ret.nil⟩ := by
  cases success with
  | true =>
    cases hl : db.GetOpenIncident none ep with
    | error e =>
      have hnil := GetOpenIncident_error_nil hl
      rw [CheckIncidentStatus_noop db env1 ep true (Or.inr ⟨rfl, hnil⟩)]
      exact CheckIncidentStatus_noop db env2 ep true (Or.inr ⟨rfl, hnil⟩)
    | ok incident =>
      have hsingle := eq_singleton_of_length_le_one hone (GetOpenIncident_ok_mem hl)
      rw [CheckIncidentStatus_success_db db env1 ep incident hl hl1 hwrite.2]
      exact CheckIncidentStatus_noop _ env2 ep true
        (Or.inr ⟨rfl, openIncidents_after_resolve db ep incident env1.dbNow hsingle⟩)
  | false =>
    cases hl : db.GetOpenIncident none ep with
    | ok incident =>
      have hne : openIncidents db ep ≠ [] := by
        intro hnil
        have := GetOpenIncident_ok_mem hl
        rw [hnil] at this
        cases this
      rw [CheckIncidentStatus_noop db env1 ep false (Or.inl ⟨rfl, hl1, hne⟩)]
      exact CheckIncidentStatus_noop db env2 ep false (Or.inl ⟨rfl, hl2, hne⟩)
    | error e =>
      have hnil := GetOpenIncident_error_nil hl
      cases hg : db.GetEndpoint env1.getEndpointErr ep with
      | error e2 =>
        exfalso
        have hpanic := CheckIncidentStatus_failure_panics db env1 ep e e2 (by rw [hl1]; exact hl) hg
        exact hreturned _ (by rw [hpanic])
      | ok endpoint =>
        have hget : env1.getEndpointErr = none := by
          cases hge : env1.getEndpointErr with
          | none => rfl
          | some e3 =>
            rw [hge] at hg
            simp [DB.GetEndpoint] at hg
        rw [hget] at hg
        have hdb := (CheckIncidentStatus_failure_creates db env1 ep endpoint hg hget hnil
          hwrite.1).1
        rw [hdb]
        apply CheckIncidentStatus_noop _ env2 ep false
        refine Or.inl ⟨rfl, hl2, ?_⟩
        rw [openIncidents_eq]
        simp [List.filter_append, isOpenFor]

/-- Witness of the amended C28: a failure probe on the sample endpoint with no
open incident, checked twice. -/
theorem check_twice_changes_nothing_witness :
    (openIncidents (sampleDB []) 1).length ≤ 1
    ∧ (CheckIncidentStatus (sampleDB []) sampleEnv 1 false).ret = Ret.nil
    ∧ CheckIncidentStatus (CheckIncidentStatus (sampleDB []) sampleEnv 1 false).db sampleEnv 1
        false =
        ⟨(CheckIncidentStatus (sampleDB []) sampleEnv 1 false).db, [], [], Ret.nil⟩ :=
  ⟨by decide, by decide,
    check_twice_changes_nothing (sampleDB []) sampleEnv sampleEnv 1 false (by decide) rfl rfl
      ⟨rfl, rfl⟩
      (by
        intro msg h
        have hnil : (CheckIncidentStatus (sampleDB []) sampleEnv 1 false).ret = Ret.nil := by
          decide
        rw [hnil] at h
        cases h)⟩

/-- C28 as stated fails: with two open incidents of endpoint 1 and a lookup that
answers from the table, the first success probe resolves incident 4 and the
second one, right after it, resolves incident 3. -/
theorem check_twice_counterexample :
    sampleEnv.getOpenIncidentErr = none
    ∧ (CheckIncidentStatus (sampleDB [sampleOpen, sampleOpen2]) sampleEnv 1 true).db.incidents.map
        (fun i => (i.ID, i.Status)) = [(3, "open"), (4, "resolved")]
    ∧ (CheckIncidentStatus
        (CheckIncidentStatus (sampleDB [sampleOpen, sampleOpen2]) sampleEnv 1 true).db sampleEnv 1
        true).db.incidents.map (fun i => (i.ID, i.Status)) = [(3, "resolved"), (4, "resolved")] := by
  decide

/-- C29 at its failing input: a failure probe for endpoint 2, which has no row
in the store and no open incident, crashes on the nil endpoint; so does a
failure probe for endpoint 1 when the endpoint read fails; the success probe
in the same states returns nil. -/
theorem failure_probe_missing_endpoint_panics :
    openIncidents (sampleDB []) 2 = []
    ∧ (sampleDB []).GetEndpoint none 2
        = .error (Err.wrap "failed to get endpoint" Err.ErrNoRows)
    ∧ CheckIncidentStatus (sampleDB []) sampleEnv 2 false =
        ⟨sampleDB [], [], [], Ret.panic "invalid memory address or nil pointer dereference"⟩
    ∧ (CheckIncidentStatus (sampleDB [])
        { sampleEnv with getEndpointErr := some (Err.failure "connection refused") } 1 false).ret
        = Ret.panic "invalid memory address or nil pointer dereference"
    ∧ (CheckIncidentStatus (sampleDB []) sampleEnv 2 true).ret = Ret.nil := by
  decide

/-! ## Consistency of a persisted window -/

theorem length_mul_le_sum (l : List Ping) (m : Int) (h : ∀ p ∈ l, m ≤ p.ResponseMs) :
    (l.length : Int) * m ≤ (l.map (fun p => p.ResponseMs)).sum := by
  induction l with
  | nil => simp
  | cons a rest ih =>
    have ha := h a (List.mem_cons_self _ _)
    have hrest := ih (fun p hp => h p (List.mem_cons_of_mem _ hp))
    simp only [List.length_cons, List.map_cons, List.sum_cons]
    push_cast
    linarith

theorem sum_le_length_mul (l : List Ping) (m : Int) (h : ∀ p ∈ l, p.ResponseMs ≤ m) :
    (l.map (fun p => p.ResponseMs)).sum ≤ (l.length : Int) * m := by
  induction l with
  | nil => simp
  | cons a rest ih =>
    have ha := h a (List.mem_cons_self _ _)
    have hrest := ih (fun p hp => h p (List.mem_cons_of_mem _ hp))
    simp only [List.length_cons, List.map_cons, List.sum_cons]
    push_cast
    linarith

/-- Go's truncating division of a sum lies between the bounds of its terms. -/
theorem tdiv_between (total n lo hi : Int) (hn : 0 < n) (h1 : n * lo ≤ total)
    (h2 : total ≤ n * hi) : lo ≤ Int.tdiv total n ∧ Int.tdiv total n ≤ hi := by
  by_cases hs : 0 ≤ total
  · rw [Int.tdiv_eq_ediv hs (le_of_lt hn)]
    constructor
    · exact Int.le_ediv_of_mul_le hn (by linarith [mul_comm lo n])
    · exact Int.ediv_le_of_le_mul hn (by linarith [mul_comm hi n])
  · have hneg : 0 ≤ -total := by linarith
    have heq : Int.tdiv total n = -((-total) / n) := by
      have h := Int.neg_tdiv (-total) n
      rw [neg_neg] at h
      rw [h, Int.tdiv_eq_ediv hneg (le_of_lt hn)]
    rw [heq]
    constructor
    · have hlt : (-total) / n < -lo + 1 :=
        Int.ediv_lt_of_lt_mul hn (by nlinarith)
      linarith
    · have hle : -hi ≤ (-total) / n :=
        Int.le_ediv_of_mul_le hn (by nlinarith)
      linarith

/-- The window built from a non-empty list of pings whose latency sum fits a Go
`int` has min <= avg <= max and 0 <= success <= total. -/
theorem buildWindow_consistent (ep : UUID) (ws we : Time) (p0 : Ping) (rest : List Ping)
    (hfit : -2 ^ 63 ≤ ((p0 :: rest).map (fun p => p.ResponseMs)).sum
      ∧ ((p0 :: rest).map (fun p => p.ResponseMs)).sum < 2 ^ 63) :
    (buildWindow ep ws we p0 (p0 :: rest)).MinResponseMs
        ≤ (buildWindow ep ws we p0 (p0 :: rest)).AvgResponseMs
    ∧ (buildWindow ep ws we p0 (p0 :: rest)).AvgResponseMs
        ≤ (buildWindow ep ws we p0 (p0 :: rest)).MaxResponseMs
    ∧ 0 ≤ (buildWindow ep ws we p0 (p0 :: rest)).SuccessPings
    ∧ (buildWindow ep ws we p0 (p0 :: rest)).SuccessPings
        ≤ (buildWindow ep ws we p0 (p0 :: rest)).TotalPings := by
  obtain ⟨-, -, -, htotal, hsucc, havg, -, hmin, -, hmax⟩ :=
    buildWindow_fields ep ws we p0 rest hfit
  have hn : (0 : Int) < ((p0 :: rest).length : Int) := by
    simp only [List.length_cons]
    push_cast
    omega
  have hb := tdiv_between ((p0 :: rest).map (fun p => p.ResponseMs)).sum
    ((p0 :: rest).length : Int) _ _ hn
    (length_mul_le_sum (p0 :: rest) _ hmin) (sum_le_length_mul (p0 :: rest) _ hmax)
  rw [havg]
  refine ⟨hb.1, hb.2, ?_, ?_⟩
  · rw [hsucc]
    exact Int.natCast_nonneg _
  · rw [hsucc, htotal]
    exact Int.ofNat_le.mpr (List.length_filter_le _ _)

/-- C30: for every non-empty list of pings the store returns, the latency sum
within the range of a Go `int` (no overflow), the window `AggregateMetrics`
persists has MinResponseMs <= AvgResponseMs <= MaxResponseMs, with the division
truncating towards zero, and 0 <= SuccessPings <= TotalPings. -/
theorem persisted_window_consistent (db : DB) (env : Env) (ep : UUID) (ws we : Time)
    (p0 : Ping) (rest : List Ping)
    (hlist : db.ListPingsByTimeRange env.listPingsErr ep ws we = .ok (p0 :: rest))
    (hcreate : env.createPingWindowErr = none)
    (hfit : -2 ^ 63 ≤ ((p0 :: rest).map (fun p => p.ResponseMs)).sum
      ∧ ((p0 :: rest).map (fun p => p.ResponseMs)).sum < 2 ^ 63) :
    ∃ w : PingWindow,
      AggregateMetrics db env ep ws we
          = ({ db with pingWindows := db.pingWindows ++ [w] }, Ret.nil)
      ∧ w.MinResponseMs ≤ w.AvgResponseMs
      ∧ w.AvgResponseMs ≤ w.MaxResponseMs
      ∧ 0 ≤ w.SuccessPings
      ∧ w.SuccessPings ≤ w.TotalPings :=
  ⟨{ buildWindow ep ws we p0 (p0 :: rest) with ID := env.newID, CreatedAt := env.dbNow },
    AggregateMetrics_nonempty db env ep ws we p0 rest hlist hcreate,
    buildWindow_consistent ep ws we p0 rest hfit⟩

/-- Witness of C30: the three sample probes, whose average 300 lies between 200
and 400 and of which 2 of 3 succeeded. -/
theorem persisted_window_consistent_witness :
    pingsDB.ListPingsByTimeRange sampleEnv.listPingsErr 1 0 (5 * Minute)
        = .ok [samplePing 13 300 true (180 * Second), samplePing 12 400 false (120 * Second),
               samplePing 11 200 true (60 * Second)]
    ∧ ∃ w : PingWindow,
        AggregateMetrics pingsDB sampleEnv 1 0 (5 * Minute)
            = ({ pingsDB with pingWindows := pingsDB.pingWindows ++ [w] }, Ret.nil)
        ∧ w.MinResponseMs ≤ w.AvgResponseMs
        ∧ w.AvgResponseMs ≤ w.MaxResponseMs
        ∧ 0 ≤ w.SuccessPings
        ∧ w.SuccessPings ≤ w.TotalPings :=
  ⟨by decide,
    persisted_window_consistent pingsDB sampleEnv 1 0 (5 * Minute)
      (samplePing 13 300 true (180 * Second))
      [samplePing 12 400 false (120 * Second), samplePing 11 200 true (60 * Second)]
      (by decide) rfl (by decide)⟩

end Beacon
